import Mathlib

/-!
# ofxOAuth: a shallow embedding of `src/src/ofxOAuth.cpp`

The session object of the C++ class `ofxOAuth` becomes the record `State`; every member
function becomes a function on `State`.  A member function that talks to the outside world
returns an `Out`: the new state, the returned value and the list of outward effects
(`Event`) in program order.

What the outside world answers is an explicit argument:

* `reply`   the body returned by `oauth_http_get2` / `oauth_http_post2` (empty on failure);
* `saveOk`  whether `ofxXmlSettings::saveFile` succeeded;
* `file`    the document `ofxXmlSettings::loadFile` produced (`none` when it failed).

The liboauth signer, `ofToDataPath`, the callback server's `getURL` and the stream
extraction at the end of `ofToBool` are collaborators outside this repository; they are
the fields of `Collab` and every theorem holds for all of them.

`ofLogVerbose` diagnostics are not modelled; error, warning and notice lines are events.
-/

namespace OAuth

/-! ## Data model -/

/-- The enum `ofxOAuth::AuthMethod` (field `oauthMethod`). -/
inductive AuthMethod where
  | OFX_OA_HMAC
  | OFX_OA_RSA
  | OFX_OA_PLAINTEXT
  deriving DecidableEq, Repr

/-- The enum behind field `httpMethod`. -/
inductive HttpMethod where
  | OFX_HTTP_GET
  | OFX_HTTP_POST
  deriving DecidableEq, Repr

/-- The enum `OAuthMethod` of liboauth, the result of `_getOAuthMethod`. -/
inductive OAuthMethod where
  | OA_HMAC
  | OA_RSA
  | OA_PLAINTEXT
  deriving DecidableEq, Repr

/-- An `ofxOAuthVerifierCallbackServer` instance held by the session. -/
structure CallbackServer where
  docRoot : String
  port : Int
  running : Bool
  deriving DecidableEq, Repr

/-- An `ofxXmlSettings` document, as the tag/value pairs it holds. -/
abbrev XmlDoc := List (String × String)

/-- A `std::map<std::string, std::string>`: pairs in ascending key order, keys unique. -/
abbrev StrMap := List (String × String)

/-- A `Poco::Net::NameValueCollection`. -/
abbrev NameValueCollection := List (String × String)

/-- The data members of `ofxOAuth`. -/
structure State where
  oauthMethod : AuthMethod
  httpMethod : HttpMethod
  old_curlopt_cainfo : String
  SSLCACertificateFile : String
  callbackConfirmed : Bool
  verificationRequested : Bool
  accessFailed : Bool
  accessFailedReported : Bool
  apiName : String
  credentialsPathname : String
  verifierCallbackServerDocRoot : String
  vertifierCallbackServerPort : Int
  enableVerifierCallbackServer : Bool
  verifierCallbackServer : Option CallbackServer
  verifierCallbackURL : String
  apiURL : String
  requestTokenURL : String
  accessTokenURL : String
  authorizationURL : String
  applicationDisplayName : String
  applicationScope : String
  requestToken : String
  requestTokenSecret : String
  requestTokenVerifier : String
  accessToken : String
  accessTokenSecret : String
  encodedUserId : String
  userId : String
  screenName : String
  encodedUserPassword : String
  userPassword : String
  consumerKey : String
  consumerSecret : String
  realm : String
  deriving DecidableEq, Repr

/-- Severity of a modelled log line. -/
inductive LogLevel where
  | notice
  | warning
  | error
  deriving DecidableEq, Repr

/-- The outward effects of the member functions, in program order. -/
inductive Event where
  | log (level : LogLevel) (module : String) (message : String)
  | signArray (argv : List String) (method : OAuthMethod) (httpMethod : String)
      (consumerKey consumerSecret : String) (tokenKey tokenSecret : Option String)
  | httpGet (url : String) (header : String)
  | httpPost (url : String) (body : String) (header : String)
  | launchBrowser (url : String)
  | serverStart (docRoot : String) (port : Int)
  | serverStop
  | loadFile (pathname : String)
  | saveFile (pathname : String) (doc : XmlDoc)
  | setenv (name : String) (value : String)
  deriving DecidableEq, Repr

/-- Whether an effect is a network request. -/
def Event.isNetwork : Event → Bool
  | .httpGet _ _ => true
  | .httpPost _ _ _ => true
  | _ => false

/-- What a member function leaves behind: state, return value, effects. -/
structure Out (α : Type) where
  state : State
  value : α
  events : List Event

/-- The collaborators outside this repository. -/
structure Collab where
  /-- The liboauth function that breaks a URL into its parameter array. -/
  oauth_split_url_parameters : String → List String
  /-- The liboauth signer: the signed array for (argv, method, http method, consumer key,
  consumer secret, token key, token secret). -/
  oauth_sign_array2_process :
    List String → OAuthMethod → String → String → String → Option String → Option String →
      List String
  /-- The liboauth serializer for (argv, start, separator, mod). -/
  oauth_serialize_url_sep : List String → Nat → String → Nat → String
  /-- The openFrameworks data-path resolution. -/
  ofToDataPath : String → String
  /-- The URL a callback server built for (docRoot, port) answers on. -/
  serverGetURL : String → Int → String
  /-- The stream extraction of a bool that ends ofToBool. -/
  streamToBool : String → Bool
  /-- The default of the launchBrowser argument, declared in the header. -/
  launchBrowserDefault : Bool

/-! ## Library functions used by the parser -/

/-- The openFrameworks `ofSplitString(source, delimiter, ignoreEmpty)` for a one-character
delimiter, as both call sites use it ("&" and "="): the library searches the next
delimiter, takes the piece before it as a token and goes on behind it, the rest of the
string being the last token; with `ignoreEmpty` empty tokens are left out.  So a string
with n delimiters gives n + 1 tokens, and the empty string gives one empty token. -/
def ofSplitString (source : String) (delimiter : Char) (ignoreEmpty : Bool) : List String :=
  let parts := (source.toList.splitOn delimiter).map String.mk
  if ignoreEmpty then parts.filter (fun p => decide (p ≠ "")) else parts

/-- The test `Poco::icompare(a, b) == 0`: equal after ASCII lower-casing. -/
def icompareIsZero (a b : String) : Bool :=
  decide (a.toList.map Char.toLower = b.toList.map Char.toLower)

/-- The openFrameworks `ofToBool`: "true" and "false" in any letter case, else whatever
the stream extraction yields. -/
def ofToBool (L : Collab) (boolString : String) : Bool :=
  let lower := String.mk (boolString.toList.map Char.toLower)
  if lower = "true" then true
  else if lower = "false" then false
  else L.streamToBool lower

/-- Lexicographic comparison of character sequences. -/
def charsLess : List Char → List Char → Bool
  | [], [] => false
  | [], _ :: _ => true
  | _ :: _, [] => false
  | a :: as, b :: bs =>
    if a.toNat < b.toNat then true
    else if a.toNat = b.toNat then charsLess as bs
    else false

/-- The order `a < b` of `std::string`, the key order of `std::map`. -/
def stringLess (a b : String) : Bool :=
  charsLess a.toList b.toList

/-- The assignment `m[k] = v` on a `std::map`. -/
def mapSet : StrMap → String → String → StrMap
  | [], k, v => [(k, v)]
  | (k0, v0) :: rest, k, v =>
    if k = k0 then (k, v) :: rest
    else if stringLess k k0 then (k, v) :: (k0, v0) :: rest
    else (k0, v0) :: mapSet rest k v

/-- The lookup `m.find(k)` on a `std::map`. -/
def mapGet : StrMap → String → Option String
  | [], _ => none
  | (k0, v0) :: rest, k => if k = k0 then some v0 else mapGet rest k

/-- The lookup `getValue(tag, default)` of `ofxXmlSettings`. -/
def xmlGetValue (doc : XmlDoc) (tag : String) (defaultValue : String) : String :=
  match doc.lookup tag with
  | some v => v
  | none => defaultValue

/-- The update `setValue(tag, value)` of `ofxXmlSettings`. -/
def xmlSetValue : XmlDoc → String → String → XmlDoc
  | [], tag, v => [(tag, v)]
  | (t0, v0) :: rest, tag, v =>
    if tag = t0 then (tag, v) :: rest else (t0, v0) :: xmlSetValue rest tag v

/-! ## Small member functions -/

/-- The member `_getOAuthMethod` (its default branch needs an out-of-range enum value). -/
def _getOAuthMethod (s : State) : OAuthMethod :=
  match s.oauthMethod with
  | .OFX_OA_HMAC => .OA_HMAC
  | .OFX_OA_RSA => .OA_RSA
  | .OFX_OA_PLAINTEXT => .OA_PLAINTEXT

/-- The member `_getHttpMethod` (its default branch needs an out-of-range enum value). -/
def _getHttpMethod (s : State) : String :=
  match s.httpMethod with
  | .OFX_HTTP_GET => "GET"
  | .OFX_HTTP_POST => "POST"

/-- The call `u.substr(pos, len)` of `std::string` for `pos` within the string. -/
def substr (u : String) (pos len : Nat) : String :=
  String.mk ((u.toList.drop pos).take len)

/-- The member `appendQuestionMark`: the test compares
`u.substr(u.size()-1, u.size()-1)` with "?". -/
def appendQuestionMark (url : String) : String :=
  if url ≠ "" ∧ substr url (url.toList.length - 1) (url.toList.length - 1) ≠ "?" then
    url ++ "?"
  else url

/-- The member `isAuthorized`. -/
def isAuthorized (s : State) : Bool :=
  decide (s.accessToken ≠ "") && decide (s.accessTokenSecret ≠ "")

/-- The member `resetErrors`. -/
def resetErrors (s : State) : State :=
  { s with accessFailed := false, accessFailedReported := false }

/-- The one-argument `setRequestTokenVerifier`. -/
def setRequestTokenVerifier (v : String) (s : State) : State :=
  { s with requestTokenVerifier := v }

/-- The two-argument `setRequestTokenVerifier`, which checks the request token first. -/
def setRequestTokenVerifier2 (requestToken requestTokenVerifier : String) (s : State) :
    Out Unit :=
  if requestToken = s.requestToken then
    ⟨setRequestTokenVerifier requestTokenVerifier s, (), []⟩
  else
    ⟨s, (), [.log .error "ofxOAuth::getRequestToken"
      "The request token didn't match the request token on record."]⟩

/-- The Authorization header built from the serialized oauth parameters. -/
def authorizationHeader (s : State) (req_hdr : String) : String :=
  if s.realm ≠ "" then "Authorization: OAuth realm=\"" ++ s.realm ++ "\", " ++ req_hdr
  else "Authorization: OAuth " ++ req_hdr

/-- The member `saveCredentials`: the first line only reads `api_name` from the fresh
document, the nine `setValue` calls fill it, `saveFile` writes it. -/
def saveCredentials (saveOk : Bool) (s : State) : Out Unit :=
  let xml0 : XmlDoc := []
  let _unused := xmlGetValue xml0 "oauth:api_name" s.apiName
  let xml1 := xmlSetValue xml0 "oauth:consumer_key" s.consumerKey
  let xml2 := xmlSetValue xml1 "oauth:consumer_secret" s.consumerSecret
  let xml3 := xmlSetValue xml2 "oauth:access_token" s.accessToken
  let xml4 := xmlSetValue xml3 "oauth:access_secret" s.accessTokenSecret
  let xml5 := xmlSetValue xml4 "oauth:screen_name" s.screenName
  let xml6 := xmlSetValue xml5 "oauth:user_id" s.userId
  let xml7 := xmlSetValue xml6 "oauth:user_id_encoded" s.encodedUserId
  let xml8 := xmlSetValue xml7 "oauth:user_password" s.userPassword
  let xml9 := xmlSetValue xml8 "oauth:user_password_encoded" s.encodedUserPassword
  ⟨s, (), .saveFile s.credentialsPathname xml9 ::
    (if saveOk then []
     else [.log .error "ofxOAuth::saveCredentials" ("Failed to save : " ++ s.credentialsPathname)])⟩

/-- The member `loadCredentials`; `file` is the document `loadFile` produced. -/
def loadCredentials (L : Collab) (file : Option XmlDoc) (s : State) : Out Unit :=
  match file with
  | some xml =>
    if xmlGetValue xml "oauth:consumer_key" "" ≠ s.consumerKey ∨
        xmlGetValue xml "oauth:consumer_secret" "" ≠ s.consumerSecret then
      ⟨s, (), [.loadFile s.credentialsPathname,
        .log .error "ofxOAuth::loadCredentials"
          ("Found a credential file, but did not match the consumer secret / key provided.  Please delete your credentials file: "
            ++ L.ofToDataPath s.credentialsPathname ++ " and try again.")]⟩
    else if xmlGetValue xml "oauth:access_token" "" = "" ∨
        xmlGetValue xml "oauth:access_secret" "" = "" then
      ⟨s, (), [.loadFile s.credentialsPathname,
        .log .error "ofxOAuth::loadCredentials"
          ("Found a credential file, but access token / secret were empty.  Please delete your credentials file: "
            ++ L.ofToDataPath s.credentialsPathname ++ " and try again.")]⟩
    else
      ⟨{ s with
          apiName := xmlGetValue xml "oauth:api_name" ""
          accessToken := xmlGetValue xml "oauth:access_token" ""
          accessTokenSecret := xmlGetValue xml "oauth:access_secret" ""
          screenName := xmlGetValue xml "oauth:screen_name" ""
          userId := xmlGetValue xml "oauth:user_id" ""
          encodedUserId := xmlGetValue xml "oauth:user_id_encoded" ""
          userPassword := xmlGetValue xml "oauth:user_password" ""
          encodedUserPassword := xmlGetValue xml "oauth:user_password_encoded" "" },
        (), [.loadFile s.credentialsPathname]⟩
  | none =>
    ⟨s, (), [.loadFile s.credentialsPathname,
      .log .notice "ofxOAuth::loadCredentials"
        ("Unable to locate credentials file: " ++ L.ofToDataPath s.credentialsPathname)]⟩

/-! ## Token exchange -/

/-- One round of the parsing loop of `obtainRequestToken`, for the segment `param`. -/
def requestTokenParam (L : Collab) (acc : Out StrMap) (param : String) : Out StrMap :=
  match ofSplitString param '=' false with
  | [k, v] =>
    let returnParams := mapSet acc.value k v
    if icompareIsZero k "oauth_token" then
      ⟨{ acc.state with requestToken := v }, returnParams, acc.events⟩
    else if icompareIsZero k "oauth_token_secret" then
      ⟨{ acc.state with requestTokenSecret := v }, returnParams, acc.events⟩
    else if icompareIsZero k "oauth_callback_confirmed" then
      ⟨{ acc.state with callbackConfirmed := ofToBool L v }, returnParams, acc.events⟩
    else if icompareIsZero k "oauth_problem" then
      ⟨acc.state, returnParams,
        acc.events ++ [.log .error "ofxOAuth::obtainRequestToken" ("Got oauth problem: " ++ v)]⟩
    else
      ⟨acc.state, returnParams,
        acc.events ++ [.log .notice "ofxOAuth::obtainRequestToken"
          ("Got an unknown parameter: " ++ k ++ "=" ++ v)]⟩
  | _ =>
    ⟨acc.state, acc.value,
      acc.events ++ [.log .warning "ofxOAuth::obtainRequestToken"
        ("Return parameter did not have 2 values: " ++ param ++ " - skipping.")]⟩

/-- The signing and sending part of `obtainRequestToken`, up to the network call. -/
def requestTokenRequest (L : Collab) (s : State) : List Event :=
  let argv0 := L.oauth_split_url_parameters s.requestTokenURL
  let argv1 :=
    if s.verifierCallbackURL ≠ "" then argv0 ++ ["oauth_callback=" ++ s.verifierCallbackURL]
    else argv0
  let argv2 :=
    if s.applicationDisplayName ≠ "" then
      argv1 ++ ["xoauth_displayname=" ++ s.applicationDisplayName]
    else argv1
  let argv3 :=
    if s.applicationScope ≠ "" then argv2 ++ ["scope=" ++ s.applicationScope] else argv2
  let signed := L.oauth_sign_array2_process argv3 (_getOAuthMethod s) (_getHttpMethod s)
    s.consumerKey s.consumerSecret none none
  let req_url := L.oauth_serialize_url_sep signed 0 "&" 1
  let req_hdr := L.oauth_serialize_url_sep signed 1 ", " 6
  let http_hdr := authorizationHeader s req_hdr
  [.signArray argv3 (_getOAuthMethod s) (_getHttpMethod s) s.consumerKey s.consumerSecret
      none none,
    .httpGet req_url http_hdr]

/-- The two closing checks of `obtainRequestToken`. -/
def requestTokenChecks (r : Out StrMap) : Out StrMap :=
  let r1 : Out StrMap :=
    if r.state.requestTokenSecret = "" then
      ⟨{ r.state with accessFailed := true }, r.value,
        r.events ++ [.log .warning "ofxOAuth::obtainRequestToken"
          "Request token secret not returned."]⟩
    else r
  if r1.state.requestToken = "" then
    ⟨{ r1.state with accessFailed := true }, r1.value,
      r1.events ++ [.log .warning "ofxOAuth::obtainRequestToken" "Request token not returned."]⟩
  else r1

/-- The member `obtainRequestToken`; `reply` is what the network answers. -/
def obtainRequestToken (L : Collab) (reply : String) (s : State) : Out StrMap :=
  if s.requestTokenURL = "" then
    ⟨s, [], [.log .error "ofxOAuth::obtainRequestToken" "No request token URL specified."]⟩
  else if s.consumerKey = "" then
    ⟨s, [], [.log .error "ofxOAuth::obtainRequestToken" "No consumer key specified."]⟩
  else if s.consumerSecret = "" then
    ⟨s, [], [.log .error "ofxOAuth::obtainRequestToken" "No consumer secret specified."]⟩
  else
    let sent : Out StrMap := ⟨s, [], requestTokenRequest L s⟩
    let parsed :=
      if reply = "" then sent
      else (ofSplitString reply '&' true).foldl (requestTokenParam L) sent
    requestTokenChecks parsed

/-- One round of the parsing loop of `obtainAccessToken`, for the segment `param`. -/
def accessTokenParam (acc : Out StrMap) (param : String) : Out StrMap :=
  match ofSplitString param '=' false with
  | [k, v] =>
    let returnParams := mapSet acc.value k v
    if icompareIsZero k "oauth_token" then
      ⟨{ acc.state with accessToken := v }, returnParams, acc.events⟩
    else if icompareIsZero k "oauth_token_secret" then
      ⟨{ acc.state with accessTokenSecret := v }, returnParams, acc.events⟩
    else if icompareIsZero k "encoded_user_id" then
      ⟨{ acc.state with encodedUserId := v }, returnParams, acc.events⟩
    else if icompareIsZero k "user_id" then
      ⟨{ acc.state with userId := v }, returnParams, acc.events⟩
    else if icompareIsZero k "screen_name" then
      ⟨{ acc.state with screenName := v }, returnParams, acc.events⟩
    else if icompareIsZero k "oauth_problem" then
      ⟨acc.state, returnParams,
        acc.events ++ [.log .error "ofxOAuth::obtainAccessToken" ("Got oauth problem: " ++ v)]⟩
    else
      ⟨acc.state, returnParams,
        acc.events ++ [.log .notice "ofxOAuth::obtainAccessToken"
          ("got an unknown parameter: " ++ k ++ "=" ++ v)]⟩
  | _ =>
    ⟨acc.state, acc.value,
      acc.events ++ [.log .warning "ofxOAuth::obtainAccessToken"
        ("Return parameter did not have 2 values: " ++ param ++ " - skipping.")]⟩

/-- The signing and sending part of `obtainAccessToken`, up to the network call. -/
def accessTokenRequest (L : Collab) (s : State) : List Event :=
  let argv0 := L.oauth_split_url_parameters s.accessTokenURL
  let argv1 := argv0 ++ ["oauth_verifier=" ++ s.requestTokenVerifier]
  let signed := L.oauth_sign_array2_process argv1 (_getOAuthMethod s) (_getHttpMethod s)
    s.consumerKey s.consumerSecret (some s.requestToken) (some s.requestTokenSecret)
  let req_url := L.oauth_serialize_url_sep signed 0 "&" 1
  let req_hdr := L.oauth_serialize_url_sep signed 1 ", " 6
  let http_hdr := authorizationHeader s req_hdr
  [.signArray argv1 (_getOAuthMethod s) (_getHttpMethod s) s.consumerKey s.consumerSecret
      (some s.requestToken) (some s.requestTokenSecret),
    .httpGet req_url http_hdr]

/-- The two closing checks of `obtainAccessToken`. -/
def accessTokenChecks (r : Out StrMap) : Out StrMap :=
  let r1 : Out StrMap :=
    if r.state.accessTokenSecret = "" then
      ⟨{ r.state with accessFailed := true }, r.value,
        r.events ++ [.log .warning "ofxOAuth::obtainAccessToken"
          "Access token secret not returned."]⟩
    else r
  if r1.state.accessToken = "" then
    ⟨{ r1.state with accessFailed := true }, r1.value,
      r1.events ++ [.log .warning "ofxOAuth::obtainAccessToken" "Access token not returned."]⟩
  else r1

/-- The member `obtainAccessToken`; `reply` is what the network answers, `saveOk` whether
the credentials file could be written. -/
def obtainAccessToken (L : Collab) (reply : String) (saveOk : Bool) (s : State) :
    Out StrMap :=
  if s.accessTokenURL = "" then
    ⟨s, [], [.log .error "ofxOAuth::obtainAccessToken" "No access token URL specified."]⟩
  else if s.consumerKey = "" then
    ⟨s, [], [.log .error "ofxOAuth::obtainAccessToken" "No consumer key specified."]⟩
  else if s.consumerSecret = "" then
    ⟨s, [], [.log .error "ofxOAuth::obtainAccessToken" "No consumer secret specified."]⟩
  else if s.requestToken = "" then
    ⟨s, [], [.log .error "ofxOAuth::obtainAccessToken" "No request token specified."]⟩
  else if s.requestTokenSecret = "" then
    ⟨s, [], [.log .error "ofxOAuth::obtainAccessToken" "No request token secret specified."]⟩
  else if s.requestTokenVerifier = "" then
    ⟨s, [], [.log .error "ofxOAuth::obtainAccessToken" "No request token verifier specified."]⟩
  else
    let sent : Out StrMap := ⟨s, [], accessTokenRequest L s⟩
    let parsed :=
      if reply = "" then sent
      else (ofSplitString reply '&' true).foldl accessTokenParam sent
    let checked := accessTokenChecks parsed
    let saved := saveCredentials saveOk checked.state
    ⟨saved.state, checked.value, checked.events ++ saved.events⟩

/-! ## Authenticated requests -/

/-- The signing part shared by `get` and `post`: the signer call and the request pieces
(req_url, http_hdr); `hdrMod` is the last argument of the header serialization. -/
def apiRequest (L : Collab) (s : State) (uri query : String) (hdrMod : Nat) :
    Event × String × String :=
  let url := s.apiURL ++ uri ++ "?" ++ query
  let argv := L.oauth_split_url_parameters url
  let signed := L.oauth_sign_array2_process argv (_getOAuthMethod s) (_getHttpMethod s)
    s.consumerKey s.consumerSecret (some s.accessToken) (some s.accessTokenSecret)
  let req_url := L.oauth_serialize_url_sep signed 0 "&" 1
  let req_hdr := L.oauth_serialize_url_sep signed 1 ", " hdrMod
  let http_hdr := authorizationHeader s req_hdr
  (.signArray argv (_getOAuthMethod s) (_getHttpMethod s) s.consumerKey s.consumerSecret
      (some s.accessToken) (some s.accessTokenSecret), req_url, http_hdr)

/-- The member `get`; `reply` is what the network answers. -/
def get (L : Collab) (reply : String) (uri query : String) (s : State) : Out String :=
  if s.apiURL = "" then
    ⟨s, "", [.log .error "ofxOAuth::get" "No api URL specified."]⟩
  else if s.consumerKey = "" then
    ⟨s, "", [.log .error "ofxOAuth::get" "No consumer key specified."]⟩
  else if s.consumerSecret = "" then
    ⟨s, "", [.log .error "ofxOAuth::get" "No consumer secret specified."]⟩
  else if s.accessToken = "" then
    ⟨s, "", [.log .error "ofxOAuth::get" "No access token specified."]⟩
  else if s.accessTokenSecret = "" then
    ⟨s, "", [.log .error "ofxOAuth::get" "No access token secret specified."]⟩
  else
    let rq := apiRequest L s uri query 6
    ⟨s, if reply = "" then "" else reply, [rq.1, .httpGet rq.2.1 rq.2.2]⟩

/-- The member `post`; `reply` is what the network answers. -/
def post (L : Collab) (reply : String) (uri query : String) (s0 : State) : Out String :=
  let s := { s0 with httpMethod := .OFX_HTTP_POST }
  if s.apiURL = "" then
    ⟨s, "", [.log .error "ofxOAuth::post" "No api URL specified."]⟩
  else if s.consumerKey = "" then
    ⟨s, "", [.log .error "ofxOAuth::post" "No consumer key specified."]⟩
  else if s.consumerSecret = "" then
    ⟨s, "", [.log .error "ofxOAuth::post" "No consumer secret specified."]⟩
  else if s.accessToken = "" then
    ⟨s, "", [.log .error "ofxOAuth::post" "No access token specified."]⟩
  else if s.accessTokenSecret = "" then
    ⟨s, "", [.log .error "ofxOAuth::post" "No access token secret specified."]⟩
  else
    let rq := apiRequest L s uri query 2
    ⟨s, if reply = "" then "" else reply, [rq.1, .httpPost rq.2.1 "" rq.2.2]⟩

/-- The two-argument `requestUserVerification`. -/
def requestUserVerification2 (additionalAuthParams : String) (launchBrowser : Bool)
    (s : State) : Out String :=
  let url := s.authorizationURL
  if url = "" then
    ⟨s, "", [.log .error "ofxOAuth::requestUserVerification" "Authorization URL is not set."]⟩
  else
    let url1 := url ++ "oauth_token="
    let url2 := url1 ++ s.requestToken
    let url3 := url2 ++ additionalAuthParams
    ⟨s, url3, if launchBrowser then [.launchBrowser url3] else []⟩

/-- The one-argument `requestUserVerification`. -/
def requestUserVerification (launchBrowser : Bool) (s : State) : Out String :=
  requestUserVerification2 "" launchBrowser s

/-! ## Setters -/

/-- The member `setRequestTokenURL`. -/
def setRequestTokenURL (v : String) (s : State) : State :=
  { s with requestTokenURL := appendQuestionMark v }

/-- The member `setAccessTokenURL`. -/
def setAccessTokenURL (v : String) (s : State) : State :=
  { s with accessTokenURL := appendQuestionMark v }

/-- The member `setAuthorizationURL`. -/
def setAuthorizationURL (v : String) (s : State) : State :=
  { s with authorizationURL := appendQuestionMark v }

/-- The member `setApiURL`. -/
def setApiURL (v : String) (autoSetEndpoints : Bool) (s : State) : State :=
  let s1 := { s with apiURL := v }
  if autoSetEndpoints then
    setAuthorizationURL (s1.apiURL ++ "/oauth/authorize")
      (setAccessTokenURL (s1.apiURL ++ "/oauth/access_token")
        (setRequestTokenURL (s1.apiURL ++ "/oauth/request_token") s1))
  else s1

/-- Modelled from the spec: the default of `autoSetEndpoints`, declared in the header that
is not among the sources; the endpoints are derived "unless explicitly overridden". -/
def autoSetEndpointsDefault : Bool := true

/-- The member `setVerifierCallbackURL`. -/
def setVerifierCallbackURL (v : String) (s : State) : State :=
  { s with verifierCallbackURL := v }

/-- The member `setApplicationDisplayName`. -/
def setApplicationDisplayName (v : String) (s : State) : State :=
  { s with applicationDisplayName := v }

/-- The member `setApplicationScope`. -/
def setApplicationScope (v : String) (s : State) : State :=
  { s with applicationScope := v }

/-- The member `setVerifierCallbackServerDocRoot`. -/
def setVerifierCallbackServerDocRoot (v : String) (s : State) : State :=
  { s with verifierCallbackServerDocRoot := v }

/-- The member `setVerifierCallbackServerPort`. -/
def setVerifierCallbackServerPort (portNumber : Int) (s : State) : State :=
  { s with vertifierCallbackServerPort := portNumber }

/-- The member `setEnableVerifierCallbackServer`. -/
def setEnableVerifierCallbackServer (v : Bool) (s : State) : State :=
  { s with enableVerifierCallbackServer := v }

/-- The member `setRequestToken`. -/
def setRequestToken (v : String) (s : State) : State :=
  { s with requestToken := v }

/-- The member `setRequestTokenSecret`. -/
def setRequestTokenSecret (v : String) (s : State) : State :=
  { s with requestTokenSecret := v }

/-- The member `setAccessToken`. -/
def setAccessToken (v : String) (s : State) : State :=
  { s with accessToken := v }

/-- The member `setAccessTokenSecret`. -/
def setAccessTokenSecret (v : String) (s : State) : State :=
  { s with accessTokenSecret := v }

/-- The member `setEncodedUserId`. -/
def setEncodedUserId (v : String) (s : State) : State :=
  { s with encodedUserId := v }

/-- The member `setUserId`. -/
def setUserId (v : String) (s : State) : State :=
  { s with userId := v }

/-- The member `setEncodedUserPassword`. -/
def setEncodedUserPassword (v : String) (s : State) : State :=
  { s with encodedUserPassword := v }

/-- The member `setUserPassword`. -/
def setUserPassword (v : String) (s : State) : State :=
  { s with userPassword := v }

/-- The member `setConsumerKey`. -/
def setConsumerKey (v : String) (s : State) : State :=
  { s with consumerKey := v }

/-- The member `setConsumerSecret`. -/
def setConsumerSecret (v : String) (s : State) : State :=
  { s with consumerSecret := v }

/-- The member `setApiName`. -/
def setApiName (v : String) (s : State) : State :=
  { s with apiName := v }

/-- The member `setRealm`. -/
def setRealm (v : String) (s : State) : State :=
  { s with realm := v }

/-- The member `setCredentialsPathname`. -/
def setCredentialsPathname (credentials : String) (s : State) : State :=
  { s with credentialsPathname := credentials }

/-- The member `setOAuthMethod`. -/
def setOAuthMethod (m : AuthMethod) (s : State) : State :=
  { s with oauthMethod := m }

/-- The member `setSSLCACertificateFile`, which also sets `CURLOPT_CAINFO`. -/
def setSSLCACertificateFile (L : Collab) (pathname : String) (s : State) : Out Unit :=
  let s1 := { s with SSLCACertificateFile := pathname }
  ⟨s1, (), [.setenv "CURLOPT_CAINFO" (L.ofToDataPath s1.SSLCACertificateFile)]⟩

/-! ## Verifier callbacks -/

/-- The member `receivedVerifierCallbackRequest`: does nothing. -/
def receivedVerifierCallbackRequest (s : State) : Out Unit :=
  ⟨s, (), []⟩

/-- The member `receivedVerifierCallbackHeaders`: does nothing. -/
def receivedVerifierCallbackHeaders (_headers : NameValueCollection) (s : State) : Out Unit :=
  ⟨s, (), []⟩

/-- The member `receivedVerifierCallbackCookies`: only verbose logging. -/
def receivedVerifierCallbackCookies (_cookies : NameValueCollection) (s : State) : Out Unit :=
  ⟨s, (), []⟩

/-- The call `has(name)` of a `NameValueCollection`: names compare ignoring case. -/
def nvcHas (c : NameValueCollection) (name : String) : Bool :=
  c.any (fun p => icompareIsZero p.1 name)

/-- The call `get(name)` of a `NameValueCollection` that has the name: the first value. -/
def nvcGet (c : NameValueCollection) (name : String) : String :=
  match c.find? (fun p => icompareIsZero p.1 name) with
  | some p => p.2
  | none => ""

/-- The member `receivedVerifierCallbackGetParams`. -/
def receivedVerifierCallbackGetParams (getParams : NameValueCollection) (s : State) :
    Out Unit :=
  if nvcHas getParams "oauth_token" && nvcHas getParams "oauth_verifier" then
    setRequestTokenVerifier2 (nvcGet getParams "oauth_token")
      (nvcGet getParams "oauth_verifier") s
  else ⟨s, (), []⟩

/-- The member `receivedVerifierCallbackPostParams`: only verbose logging. -/
def receivedVerifierCallbackPostParams (_postParams : NameValueCollection) (s : State) :
    Out Unit :=
  ⟨s, (), []⟩

/-! ## Construction, setup and the tick -/

/-- The constructor `ofxOAuth::ofxOAuth`; `v` is the value of `getenv("CURLOPT_CAINFO")`.
Members the constructor does not assign are default-constructed: empty strings and a null
`verifierCallbackServer`. -/
def ofxOAuth (L : Collab) (v : Option String) : Out Unit :=
  let s0 : State :=
    { oauthMethod := .OFX_OA_HMAC
      httpMethod := .OFX_HTTP_GET
      old_curlopt_cainfo := match v with
        | some x => x
        | none => ""
      SSLCACertificateFile := ""
      callbackConfirmed := false
      verificationRequested := false
      accessFailed := false
      accessFailedReported := false
      apiName := "GENERIC"
      credentialsPathname := "credentials.xml"
      verifierCallbackServerDocRoot := "VerifierCallbackServer/"
      vertifierCallbackServerPort := -1
      enableVerifierCallbackServer := true
      verifierCallbackServer := none
      verifierCallbackURL := ""
      apiURL := ""
      requestTokenURL := ""
      accessTokenURL := ""
      authorizationURL := ""
      applicationDisplayName := ""
      applicationScope := ""
      requestToken := ""
      requestTokenSecret := ""
      requestTokenVerifier := ""
      accessToken := ""
      accessTokenSecret := ""
      encodedUserId := ""
      userId := ""
      screenName := ""
      encodedUserPassword := ""
      userPassword := ""
      consumerKey := ""
      consumerSecret := ""
      realm := "" }
  setSSLCACertificateFile L "cacert.pem" s0

/-- The six-argument `setup`; `file` is what `loadFile` produces. -/
def setup6 (L : Collab) (file : Option XmlDoc)
    (apiURL requestTokenUrl accessTokenUrl authorizeUrl consumerKey consumerSecret : String)
    (s : State) : Out Unit :=
  loadCredentials L file
    (setConsumerSecret consumerSecret
      (setConsumerKey consumerKey
        (setAuthorizationURL authorizeUrl
          (setAccessTokenURL accessTokenUrl
            (setRequestTokenURL requestTokenUrl
              (setApiURL apiURL false s))))))

/-- The three-argument `setup`; `file` is what `loadFile` produces. -/
def setup3 (L : Collab) (file : Option XmlDoc) (apiURL consumerKey consumerSecret : String)
    (s : State) : Out Unit :=
  loadCredentials L file
    (setConsumerSecret consumerSecret
      (setConsumerKey consumerKey
        (setApiURL apiURL autoSetEndpointsDefault s)))

/-- The listener part of the tick: create and start the callback server if it is enabled
and none exists. -/
def startListener (L : Collab) (s : State) : Out Unit :=
  if s.enableVerifierCallbackServer then
    if s.verifierCallbackServer = none then
      ⟨{ s with
          verifierCallbackServer :=
            some ⟨s.verifierCallbackServerDocRoot, s.vertifierCallbackServerPort, true⟩
          verifierCallbackURL :=
            L.serverGetURL s.verifierCallbackServerDocRoot s.vertifierCallbackServerPort },
        (), [.serverStart s.verifierCallbackServerDocRoot s.vertifierCallbackServerPort]⟩
    else ⟨s, (), []⟩
  else ⟨s, (), []⟩

/-- The listener part of the tick: stop and destroy the callback server if one exists. -/
def stopListener (s : State) : Out Unit :=
  if s.verifierCallbackServer ≠ none then
    ⟨{ s with verifierCallbackServer := none }, (), [.serverStop]⟩
  else ⟨s, (), []⟩

/-- The member `update`, one tick; `reply` and `saveOk` are what the outside world answers
if the tick gets to ask. -/
def update (L : Collab) (reply : String) (saveOk : Bool) (s : State) : Out Unit :=
  if s.accessFailed then
    if !s.accessFailedReported then
      ⟨{ s with accessFailedReported := true }, (),
        [.log .error "ofxOAuth::update" "Access failed."]⟩
    else ⟨s, (), []⟩
  else if s.accessToken = "" ∨ s.accessTokenSecret = "" then
    if s.requestTokenVerifier = "" then
      if s.requestToken = "" then
        let started := startListener L s
        let r := obtainRequestToken L reply started.state
        ⟨r.state, (), started.events ++ r.events⟩
      else
        if !s.verificationRequested then
          let r := requestUserVerification L.launchBrowserDefault s
          ⟨{ r.state with verificationRequested := true }, (), r.events⟩
        else ⟨s, (), []⟩
    else
      if !s.accessFailed then
        let s1 := { s with verificationRequested := false }
        let stopped := stopListener s1
        let r := obtainAccessToken L reply saveOk stopped.state
        ⟨r.state, (), stopped.events ++ r.events⟩
      else ⟨s, (), []⟩
  else stopListener s

/-! ## The public operations as one type -/

/-- A call of a public member function on an existing session, with its arguments and
with what the outside world answers to it. -/
inductive Op where
  | update (reply : String) (saveOk : Bool)
  | obtainRequestToken (reply : String)
  | obtainAccessToken (reply : String) (saveOk : Bool)
  | get (reply uri query : String)
  | post (reply uri query : String)
  | requestUserVerification (launchBrowser : Bool)
  | requestUserVerification2 (additionalAuthParams : String) (launchBrowser : Bool)
  | setup6 (file : Option XmlDoc)
      (apiURL requestTokenUrl accessTokenUrl authorizeUrl consumerKey consumerSecret : String)
  | setup3 (file : Option XmlDoc) (apiURL consumerKey consumerSecret : String)
  | setApiURL (v : String) (autoSetEndpoints : Bool)
  | setRequestTokenURL (v : String)
  | setAccessTokenURL (v : String)
  | setAuthorizationURL (v : String)
  | setVerifierCallbackURL (v : String)
  | setApplicationDisplayName (v : String)
  | setApplicationScope (v : String)
  | setVerifierCallbackServerDocRoot (v : String)
  | setVerifierCallbackServerPort (portNumber : Int)
  | setEnableVerifierCallbackServer (v : Bool)
  | setRequestToken (v : String)
  | setRequestTokenSecret (v : String)
  | setRequestTokenVerifier (v : String)
  | setRequestTokenVerifier2 (requestToken requestTokenVerifier : String)
  | setAccessToken (v : String)
  | setAccessTokenSecret (v : String)
  | setEncodedUserId (v : String)
  | setUserId (v : String)
  | setEncodedUserPassword (v : String)
  | setUserPassword (v : String)
  | setConsumerKey (v : String)
  | setConsumerSecret (v : String)
  | setApiName (v : String)
  | setRealm (v : String)
  | setCredentialsPathname (v : String)
  | setOAuthMethod (m : AuthMethod)
  | setSSLCACertificateFile (pathname : String)
  | receivedVerifierCallbackRequest
  | receivedVerifierCallbackHeaders (c : NameValueCollection)
  | receivedVerifierCallbackCookies (c : NameValueCollection)
  | receivedVerifierCallbackGetParams (c : NameValueCollection)
  | receivedVerifierCallbackPostParams (c : NameValueCollection)
  | loadCredentials (file : Option XmlDoc)
  | saveCredentials (saveOk : Bool)
  | resetErrors
  deriving DecidableEq

/-- The session state after a call. -/
def Op.run (L : Collab) : Op → State → State
  | .update reply saveOk, s => (OAuth.update L reply saveOk s).state
  | .obtainRequestToken reply, s => (OAuth.obtainRequestToken L reply s).state
  | .obtainAccessToken reply saveOk, s => (OAuth.obtainAccessToken L reply saveOk s).state
  | .get reply uri query, s => (OAuth.get L reply uri query s).state
  | .post reply uri query, s => (OAuth.post L reply uri query s).state
  | .requestUserVerification b, s => (OAuth.requestUserVerification b s).state
  | .requestUserVerification2 a b, s => (OAuth.requestUserVerification2 a b s).state
  | .setup6 file a r t z k c, s => (OAuth.setup6 L file a r t z k c s).state
  | .setup3 file a k c, s => (OAuth.setup3 L file a k c s).state
  | .setApiURL v b, s => OAuth.setApiURL v b s
  | .setRequestTokenURL v, s => OAuth.setRequestTokenURL v s
  | .setAccessTokenURL v, s => OAuth.setAccessTokenURL v s
  | .setAuthorizationURL v, s => OAuth.setAuthorizationURL v s
  | .setVerifierCallbackURL v, s => OAuth.setVerifierCallbackURL v s
  | .setApplicationDisplayName v, s => OAuth.setApplicationDisplayName v s
  | .setApplicationScope v, s => OAuth.setApplicationScope v s
  | .setVerifierCallbackServerDocRoot v, s => OAuth.setVerifierCallbackServerDocRoot v s
  | .setVerifierCallbackServerPort n, s => OAuth.setVerifierCallbackServerPort n s
  | .setEnableVerifierCallbackServer v, s => OAuth.setEnableVerifierCallbackServer v s
  | .setRequestToken v, s => OAuth.setRequestToken v s
  | .setRequestTokenSecret v, s => OAuth.setRequestTokenSecret v s
  | .setRequestTokenVerifier v, s => OAuth.setRequestTokenVerifier v s
  | .setRequestTokenVerifier2 t v, s => (OAuth.setRequestTokenVerifier2 t v s).state
  | .setAccessToken v, s => OAuth.setAccessToken v s
  | .setAccessTokenSecret v, s => OAuth.setAccessTokenSecret v s
  | .setEncodedUserId v, s => OAuth.setEncodedUserId v s
  | .setUserId v, s => OAuth.setUserId v s
  | .setEncodedUserPassword v, s => OAuth.setEncodedUserPassword v s
  | .setUserPassword v, s => OAuth.setUserPassword v s
  | .setConsumerKey v, s => OAuth.setConsumerKey v s
  | .setConsumerSecret v, s => OAuth.setConsumerSecret v s
  | .setApiName v, s => OAuth.setApiName v s
  | .setRealm v, s => OAuth.setRealm v s
  | .setCredentialsPathname v, s => OAuth.setCredentialsPathname v s
  | .setOAuthMethod m, s => OAuth.setOAuthMethod m s
  | .setSSLCACertificateFile p, s => (OAuth.setSSLCACertificateFile L p s).state
  | .receivedVerifierCallbackRequest, s => (OAuth.receivedVerifierCallbackRequest s).state
  | .receivedVerifierCallbackHeaders c, s => (OAuth.receivedVerifierCallbackHeaders c s).state
  | .receivedVerifierCallbackCookies c, s => (OAuth.receivedVerifierCallbackCookies c s).state
  | .receivedVerifierCallbackGetParams c, s =>
    (OAuth.receivedVerifierCallbackGetParams c s).state
  | .receivedVerifierCallbackPostParams c, s =>
    (OAuth.receivedVerifierCallbackPostParams c s).state
  | .loadCredentials file, s => (OAuth.loadCredentials L file s).state
  | .saveCredentials saveOk, s => (OAuth.saveCredentials saveOk s).state
  | .resetErrors, s => OAuth.resetErrors s

/-! ## The reply in the words of the specification -/

/-- How many '=' a segment contains. -/
def eqCount (seg : String) : Nat :=
  seg.toList.count '='

/-- The part of a segment before its first '='. -/
def segKey (seg : String) : String :=
  String.mk (seg.toList.takeWhile (fun c => decide (c ≠ '=')))

/-- The part of a segment after its first '='. -/
def segValue (seg : String) : String :=
  String.mk ((seg.toList.dropWhile (fun c => decide (c ≠ '='))).drop 1)

/-- The well-formed segments among `segs`, those with exactly one '=', as key/value pairs
in their order. -/
def pairsOf (segs : List String) : List (String × String) :=
  (segs.filter (fun seg => decide (eqCount seg = 1))).map (fun seg => (segKey seg, segValue seg))

/-- The key/value pairs of a reply: its non-empty segments between '&' that have exactly
one '='. -/
def replyPairs (reply : String) : List (String × String) :=
  pairsOf (ofSplitString reply '&' true)

/-- The value of the last pair whose key satisfies `p`, if there is one. -/
def lastWhere (p : String → Bool) : List (String × String) → Option String
  | [] => none
  | (k, v) :: rest =>
    match lastWhere p rest with
    | some w => some w
    | none => if p k then some v else none

/-- The value a reply finally assigns to the field named `name`: that of the last
well-formed segment whose key equals `name` ignoring letter case. -/
def replyField (name : String) (reply : String) : Option String :=
  lastWhere (fun k => icompareIsZero k name) (replyPairs reply)

/-- The value a reply finally records under the key `key`: that of the last well-formed
segment with exactly this key. -/
def replyEntry (key : String) (reply : String) : Option String :=
  lastWhere (fun k => decide (k = key)) (replyPairs reply)

/-- A reply put together from segments, with '&' between them. -/
def joinSegments (segs : List String) : String :=
  String.mk (['&'].intercalate (segs.map String.toList))

/-- A fixed choice of collaborators for evaluating the program on concrete inputs: the
parameter array is the URL itself, signing adds nothing, the serializer joins with the
separator.  The signer and the serializer only shape the request that is sent; the session
state after a call depends on them in no way. -/
def plainCollab : Collab where
  oauth_split_url_parameters := fun url => [url]
  oauth_sign_array2_process := fun argv _ _ _ _ _ _ => argv
  oauth_serialize_url_sep := fun argv start sep _ => sep.intercalate (argv.drop start)
  ofToDataPath := fun p => "data/" ++ p
  serverGetURL := fun _ _ => "http://127.0.0.1/"
  streamToBool := fun _ => false
  launchBrowserDefault := true

/-- The keys of a map are strictly ascending, as in a `std::map`. -/
def KeysAscending (m : StrMap) : Prop :=
  (m.map Prod.fst).Pairwise (fun a b => stringLess a b = true)

/-! ## Guards, runs and sample data used by the theorems -/

/-- The guards of `obtainRequestToken` pass. -/
def requestTokenReady (s : State) : Prop :=
  s.requestTokenURL ≠ "" ∧ s.consumerKey ≠ "" ∧ s.consumerSecret ≠ ""

instance (s : State) : Decidable (requestTokenReady s) := by
  unfold requestTokenReady
  infer_instance

/-- The guards of `obtainAccessToken` pass. -/
def accessTokenReady (s : State) : Prop :=
  s.accessTokenURL ≠ "" ∧ s.consumerKey ≠ "" ∧ s.consumerSecret ≠ "" ∧
    s.requestToken ≠ "" ∧ s.requestTokenSecret ≠ "" ∧ s.requestTokenVerifier ≠ ""

instance (s : State) : Decidable (accessTokenReady s) := by
  unfold accessTokenReady
  infer_instance

/-- The guards of `get` and `post` pass. -/
def apiReady (s : State) : Prop :=
  s.apiURL ≠ "" ∧ s.consumerKey ≠ "" ∧ s.consumerSecret ≠ "" ∧
    s.accessToken ≠ "" ∧ s.accessTokenSecret ≠ ""

instance (s : State) : Decidable (apiReady s) := by
  unfold apiReady
  infer_instance

/-- No effect in the list is a network request. -/
def noNetwork (events : List Event) : Prop :=
  ∀ e ∈ events, e.isNetwork = false

instance (events : List Event) : Decidable (noNetwork events) := by
  unfold noNetwork
  infer_instance

/-- The session after a sequence of calls. -/
def runOps (L : Collab) (ops : List Op) (s : State) : State :=
  ops.foldl (fun st op => op.run L st) s

/-- The calls that configure a session before the flow starts: the two `setup` overloads
and the setters of endpoints, consumer credentials and listener options. -/
def Op.isConfiguration : Op → Bool
  | .setup6 _ _ _ _ _ _ _ => true
  | .setup3 _ _ _ _ => true
  | .setApiURL _ _ => true
  | .setRequestTokenURL _ => true
  | .setAccessTokenURL _ => true
  | .setAuthorizationURL _ => true
  | .setVerifierCallbackURL _ => true
  | .setApplicationDisplayName _ => true
  | .setApplicationScope _ => true
  | .setVerifierCallbackServerDocRoot _ => true
  | .setVerifierCallbackServerPort _ => true
  | .setEnableVerifierCallbackServer _ => true
  | .setConsumerKey _ => true
  | .setConsumerSecret _ => true
  | .setApiName _ => true
  | .setRealm _ => true
  | .setCredentialsPathname _ => true
  | .setOAuthMethod _ => true
  | .setSSLCACertificateFile _ => true
  | _ => false

/-- The calls that hand a verifier to the session: the two `setRequestTokenVerifier`
overloads and the listener callback that calls the second one. -/
def Op.isVerifierDelivery : Op → Bool
  | .setRequestTokenVerifier _ => true
  | .setRequestTokenVerifier2 _ _ => true
  | .receivedVerifierCallbackGetParams _ => true
  | _ => false

/-- The calls of the flow that is driven by ticks: `update`, verifier deliveries and
`resetErrors`. -/
def Op.isTickFlow : Op → Bool
  | .update _ _ => true
  | .resetErrors => true
  | op => op.isVerifierDelivery

/-- The calls of the token exchange: `update`, `obtainRequestToken`, `obtainAccessToken`
and verifier deliveries. -/
def Op.isExchangeFlow : Op → Bool
  | .update _ _ => true
  | .obtainRequestToken _ => true
  | .obtainAccessToken _ _ => true
  | op => op.isVerifierDelivery

/-- The session right after construction. -/
def freshSession (L : Collab) (v : Option String) : State :=
  (ofxOAuth L v).state

/-- A session reached from construction by configuration calls `cfg` followed by the
calls `ops`. -/
def sessionAfter (L : Collab) (v : Option String) (cfg ops : List Op) : State :=
  runOps L ops (runOps L cfg (freshSession L v))

/-- Both access fields empty or both non-empty. -/
def accessPairMatched (s : State) : Prop :=
  (s.accessToken = "" ∧ s.accessTokenSecret = "") ∨
    (s.accessToken ≠ "" ∧ s.accessTokenSecret ≠ "")

instance (s : State) : Decidable (accessPairMatched s) := by
  unfold accessPairMatched
  infer_instance

/-- The configuration call used in the examples: the six-argument `setup` with no
credentials file on disk. -/
def sampleSetup : Op :=
  .setup6 none "https://api.example.com" "https://api.example.com/oauth/request_token"
    "https://api.example.com/oauth/access_token" "https://api.example.com/oauth/authorize"
    "ck" "cs"

/-- A constructed and configured session that holds no token yet. -/
def sampleSession : State :=
  sessionAfter plainCollab none [sampleSetup] []

/-- Whether an effect is the start of a callback server. -/
def Event.isServerStart : Event → Bool
  | .serverStart _ _ => true
  | _ => false

/-- The session is not both failed and authorized. -/
def notFailedAndAuthorized (s : State) : Prop :=
  ¬ (s.accessFailed = true ∧ isAuthorized s = true)

instance (s : State) : Decidable (notFailedAndAuthorized s) := by
  unfold notFailedAndAuthorized
  infer_instance


/-! ## Notions used by the later theorems -/

/-- The string ends with the query separator '?'. -/
def endsWithQuestionMark (u : String) : Prop :=
  u.toList.getLast? = some '?'

instance (u : String) : Decidable (endsWithQuestionMark u) := by
  unfold endsWithQuestionMark
  infer_instance

/-- The effect with its Authorization header blanked out. -/
def Event.dropHeader : Event → Event
  | .httpGet url _ => .httpGet url ""
  | .httpPost url body _ => .httpPost url body ""
  | e => e

/-- The Authorization header a network request carries. -/
def Event.header? : Event → Option String
  | .httpGet _ header => some header
  | .httpPost _ _ header => some header
  | _ => none

/-- The Authorization header in the words of the specification: the realm, when there is
one, goes in front of the serialized oauth parameters, verbatim. -/
def realmHeader (realm oauthParams : String) : String :=
  if realm = "" then "Authorization: OAuth " ++ oauthParams
  else "Authorization: OAuth realm=\"" ++ realm ++ "\", " ++ oauthParams

/-- The files of the credential store: what `loadFile` finds under a pathname. -/
abbrev Files := String → Option XmlDoc

/-- The files after `saveFile` wrote `doc` under `pathname`. -/
def Files.write (fs : Files) (pathname : String) (doc : XmlDoc) : Files :=
  fun p => if p = pathname then some doc else fs p

/-- The files after the effects `events`, every `saveFile` among them having succeeded. -/
def filesAfter (fs : Files) (events : List Event) : Files :=
  events.foldl
    (fun acc e =>
      match e with
      | .saveFile pathname doc => acc.write pathname doc
      | _ => acc)
    fs

/-- The member `loadCredentials` on the files `fs`: `loadFile` reads what is stored under
the session's credentials pathname. -/
def loadCredentialsFrom (L : Collab) (fs : Files) (s : State) : Out Unit :=
  loadCredentials L (fs s.credentialsPathname) s

/-- Consecutive ticks with nothing happening in between; each tick comes with what the
outside world would answer to it. -/
def runTicks (L : Collab) : List (String × Bool) → State → Out Unit
  | [], s => ⟨s, (), []⟩
  | (reply, saveOk) :: rest, s =>
    let first := update L reply saveOk s
    let later := runTicks L rest first.state
    ⟨later.state, (), first.events ++ later.events⟩

/-- Whether an effect stops a callback server. -/
def Event.isServerStop : Event → Bool
  | .serverStop => true
  | _ => false

/-- The log line by which the tick reports a failed access. -/
def accessFailedLog : Event :=
  .log .error "ofxOAuth::update" "Access failed."


/-! ## Notions used by the last theorems -/

/-- The file an effect writes, if it writes one: path name and document. -/
def Event.saved? : Event → Option (String × XmlDoc)
  | .saveFile pathname doc => some (pathname, doc)
  | _ => none

/-- The HTTP method an effect hands to the signer. -/
def Event.signedMethod? : Event → Option String
  | .signArray _ _ httpMethod _ _ _ _ => some httpMethod
  | _ => none

/-- Whether a parameter of the signed array is an oauth parameter, as liboauth tests it:
by the prefix "oauth_" or "x_oauth_". -/
def isOAuthParam (p : String) : Bool :=
  "oauth_".toList.isPrefixOf p.toList || "x_oauth_".toList.isPrefixOf p.toList

/-- One name=value parameter as liboauth serializes it when nothing needs escaping: with
bit 4 of `mod` set the value is put in double quotation marks. -/
def serializeParam (p : String) (mod : Nat) : String :=
  if mod / 4 % 2 = 1 then segKey p ++ "=\"" ++ segValue p ++ "\""
  else segKey p ++ "=" ++ segValue p

/-- The liboauth function `oauth_serialize_url_sep(argc, start, argv, sep, mod)` on
parameters that need no escaping, after the comment in oauth.h: bit 1 of `mod` skips the
oauth parameters, bit 2 skips all others, bit 4 quotes the values; started at 0, the first
entry is the URL and is followed by "?". -/
def liboauthSerialize (argv : List String) (start : Nat) (sep : String) (mod : Nat) : String :=
  let keep := fun (p : String) =>
    !(mod % 2 = 1 && isOAuthParam p) && !(mod / 2 % 2 = 1 && !isOAuthParam p)
  match start, argv with
  | 0, url :: rest =>
    url ++ "?" ++ sep.intercalate ((rest.filter keep).map (fun p => serializeParam p mod))
  | _, _ => sep.intercalate (((argv.drop start).filter keep).map (fun p => serializeParam p mod))

/-- A choice of collaborators with the liboauth serializer; the signer is a stand-in that
adds the consumer key, the token and a signature parameter whatever the HTTP method. -/
def liboauthCollab : Collab where
  oauth_split_url_parameters := fun url => [url]
  oauth_sign_array2_process := fun argv _ _ ck _ tk _ =>
    argv ++ ["oauth_consumer_key=" ++ ck] ++
      (match tk with
        | some t => ["oauth_token=" ++ t]
        | none => []) ++ ["oauth_signature=sig"]
  oauth_serialize_url_sep := liboauthSerialize
  ofToDataPath := fun p => "data/" ++ p
  serverGetURL := fun _ _ => "http://127.0.0.1/"
  streamToBool := fun _ => false
  launchBrowserDefault := true

/-- The sample session with request token "a", secret "b" and verifier "v" in place: the
state in which a tick runs the access-token exchange. -/
def sampleReadySession : State :=
  runOps plainCollab
    [.setRequestToken "a", .setRequestTokenSecret "b", .setRequestTokenVerifier "v"]
    sampleSession

/-- The sample session made authorized with access token "x" and secret "y". -/
def sampleAuthorizedSession : State :=
  runOps plainCollab [.setAccessToken "x", .setAccessTokenSecret "y"] sampleSession


/-- The HTTP method an effect sends a request with, if it is a network call. -/
def Event.sentWith? : Event → Option String
  | .httpGet _ _ => some "GET"
  | .httpPost _ _ _ => some "POST"
  | _ => none


/-! # Lemmas and theorems -/

/-! ## Splitting -/
theorem splitOn_cons_eq (d x : Char) (xs : List Char) :
    (x :: xs).splitOn d =
      if x = d then [] :: xs.splitOn d else (xs.splitOn d).modifyHead (List.cons x) := by
  unfold List.splitOn
  rw [List.splitOnP_cons]
  by_cases h : x = d <;> simp [h]

theorem length_modifyHead {α : Type} (f : α → α) (l : List α) :
    (l.modifyHead f).length = l.length := by
  cases l <;> simp [List.modifyHead]

theorem splitOn_length (d : Char) (xs : List Char) :
    (xs.splitOn d).length = xs.count d + 1 := by
  induction xs with
  | nil => simp
  | cons x xs ih =>
    rw [splitOn_cons_eq]
    by_cases h : x = d
    · subst h; simp [ih]
    · have h2 : ¬ (x == d) = true := by simpa using h
      simp [h, ih, length_modifyHead, List.count_cons, h2]

theorem splitOn_count_zero (d : Char) (xs : List Char) (h : xs.count d = 0) :
    xs.splitOn d = [xs] := by
  induction xs with
  | nil => simp
  | cons x xs ih =>
    rw [splitOn_cons_eq]
    by_cases hx : x = d
    · subst hx; simp at h
    · have h2 : ¬ (x == d) = true := by simpa using hx
      have h3 : xs.count d = 0 := by simpa [List.count_cons, h2] using h
      simp [hx, ih h3, List.modifyHead]

theorem splitOn_count_one (d : Char) (xs : List Char) (h : xs.count d = 1) :
    xs.splitOn d = [xs.takeWhile (fun c => decide (c ≠ d)), (xs.dropWhile (fun c => decide (c ≠ d))).drop 1] := by
  induction xs with
  | nil => simp at h
  | cons x xs ih =>
    rw [splitOn_cons_eq]
    by_cases hx : x = d
    · subst hx
      have h3 : xs.count x = 0 := by simpa using h
      simp [splitOn_count_zero x xs h3, List.takeWhile, List.dropWhile]
    · have h2 : ¬ (x == d) = true := by simpa using hx
      have h3 : xs.count d = 1 := by simpa [List.count_cons, h2] using h
      simp [hx, ih h3, List.modifyHead, List.takeWhile, List.dropWhile]

theorem ofSplitString_wf (seg : String) (h : eqCount seg = 1) :
    ofSplitString seg '=' false = [segKey seg, segValue seg] := by
  unfold ofSplitString segKey segValue
  unfold eqCount at h
  rw [splitOn_count_one '=' seg.toList h]
  rfl

theorem ofSplitString_length (seg : String) :
    (ofSplitString seg '=' false).length = eqCount seg + 1 := by
  unfold ofSplitString eqCount
  simp [splitOn_length]

theorem requestTokenParam_skip (L : Collab) (acc : Out StrMap) (seg : String)
    (h : eqCount seg ≠ 1) :
    (requestTokenParam L acc seg).state = acc.state ∧
      (requestTokenParam L acc seg).value = acc.value := by
  have hl := ofSplitString_length seg
  unfold requestTokenParam
  split
  · rename_i k v heq
    rw [heq] at hl
    simp at hl
    omega
  · exact ⟨rfl, rfl⟩

theorem icompare_excl (k a b : String) (ha : icompareIsZero k a = true)
    (hb : icompareIsZero k b = true) : icompareIsZero a b = true := by
  unfold icompareIsZero at *
  simp only [decide_eq_true_eq] at *
  rw [← ha, ← hb]

theorem requestTokenParam_wf (L : Collab) (acc : Out StrMap) (seg : String)
    (h : eqCount seg = 1) :
    (requestTokenParam L acc seg).value = mapSet acc.value (segKey seg) (segValue seg) ∧
    (requestTokenParam L acc seg).state =
      { acc.state with
        requestToken :=
          if icompareIsZero (segKey seg) "oauth_token" then segValue seg
          else acc.state.requestToken
        requestTokenSecret :=
          if icompareIsZero (segKey seg) "oauth_token_secret" then segValue seg
          else acc.state.requestTokenSecret
        callbackConfirmed :=
          if icompareIsZero (segKey seg) "oauth_callback_confirmed" then ofToBool L (segValue seg)
          else acc.state.callbackConfirmed } := by
  unfold requestTokenParam
  rw [ofSplitString_wf seg h]
  simp only
  by_cases h1 : icompareIsZero (segKey seg) "oauth_token" = true
  · have h2 : icompareIsZero (segKey seg) "oauth_token_secret" = false := by
      by_contra hc
      have := icompare_excl _ _ _ h1 (by simpa using hc)
      revert this; decide
    have h3 : icompareIsZero (segKey seg) "oauth_callback_confirmed" = false := by
      by_contra hc
      have := icompare_excl _ _ _ h1 (by simpa using hc)
      revert this; decide
    simp [h1, h2, h3]
  · by_cases h2 : icompareIsZero (segKey seg) "oauth_token_secret" = true
    · have h3 : icompareIsZero (segKey seg) "oauth_callback_confirmed" = false := by
        by_contra hc
        have := icompare_excl _ _ _ h2 (by simpa using hc)
        revert this; decide
      simp [h1, h2, h3]
    · by_cases h3 : icompareIsZero (segKey seg) "oauth_callback_confirmed" = true
      · simp [h1, h2, h3]
      · by_cases h4 : icompareIsZero (segKey seg) "oauth_problem" = true
        · simp [h1, h2, h3, h4]
        · simp [h1, h2, h3, h4]

theorem pairsOf_cons_wf (seg : String) (segs : List String) (h : eqCount seg = 1) :
    pairsOf (seg :: segs) = (segKey seg, segValue seg) :: pairsOf segs := by
  simp [pairsOf, h]

theorem pairsOf_cons_skip (seg : String) (segs : List String) (h : eqCount seg ≠ 1) :
    pairsOf (seg :: segs) = pairsOf segs := by
  simp [pairsOf, h]

theorem lastWhere_cons_getD (p : String → Bool) (k v : String) (rest : List (String × String))
    (d : String) :
    (lastWhere p ((k, v) :: rest)).getD d = (lastWhere p rest).getD (if p k then v else d) := by
  simp only [lastWhere]
  cases lastWhere p rest with
  | some w => rfl
  | none => by_cases h : p k = true <;> simp [h]

theorem lastWhere_cons_map_getD {β : Type} (f : String → β) (p : String → Bool) (k v : String)
    (rest : List (String × String)) (d : β) :
    ((lastWhere p ((k, v) :: rest)).map f).getD d =
      ((lastWhere p rest).map f).getD (if p k then f v else d) := by
  simp only [lastWhere]
  cases lastWhere p rest with
  | some w => rfl
  | none => by_cases h : p k = true <;> simp [h]

theorem requestToken_fold_state (L : Collab) (segs : List String) (acc : Out StrMap) :
    (segs.foldl (requestTokenParam L) acc).state =
      { acc.state with
        requestToken :=
          (lastWhere (fun k => icompareIsZero k "oauth_token") (pairsOf segs)).getD
            acc.state.requestToken
        requestTokenSecret :=
          (lastWhere (fun k => icompareIsZero k "oauth_token_secret") (pairsOf segs)).getD
            acc.state.requestTokenSecret
        callbackConfirmed :=
          ((lastWhere (fun k => icompareIsZero k "oauth_callback_confirmed")
            (pairsOf segs)).map (ofToBool L)).getD acc.state.callbackConfirmed } := by
  induction segs generalizing acc with
  | nil => rfl
  | cons x xs ih =>
    rw [List.foldl_cons, ih]
    by_cases h : eqCount x = 1
    · rw [pairsOf_cons_wf x xs h, (requestTokenParam_wf L acc x h).2]
      simp only [lastWhere_cons_getD, lastWhere_cons_map_getD]
    · rw [pairsOf_cons_skip x xs h, (requestTokenParam_skip L acc x h).1]

/-! ## The map -/

theorem char_eq_of_toNat_eq (a b : Char) (h : a.toNat = b.toNat) : a = b := by
  apply Char.ext
  cases a with
  | mk va ha =>
    cases b with
    | mk vb hb =>
      simp only [Char.toNat] at h
      cases va with
      | mk fa =>
        cases vb with
        | mk fb =>
          simp only [UInt32.toNat] at h
          have : fa = fb := by
            apply BitVec.eq_of_toNat_eq
            exact h
          simp [this]

theorem charsLess_irrefl (a : List Char) : charsLess a a = false := by
  induction a with
  | nil => rfl
  | cons x xs ih => simp [charsLess, ih]

theorem charsLess_trans (a b c : List Char) (h1 : charsLess a b = true)
    (h2 : charsLess b c = true) : charsLess a c = true := by
  induction a generalizing b c with
  | nil =>
    cases b with
    | nil => simp [charsLess] at h1
    | cons y ys =>
      cases c with
      | nil => simp [charsLess] at h2
      | cons z zs => rfl
  | cons x xs ih =>
    cases b with
    | nil => simp [charsLess] at h1
    | cons y ys =>
      cases c with
      | nil => simp [charsLess] at h2
      | cons z zs =>
        simp only [charsLess] at h1 h2 ⊢
        split_ifs at h1 h2 ⊢ <;> first
          | rfl
          | omega
          | exact ih _ _ h1 h2

theorem charsLess_total (a b : List Char) (hne : a ≠ b) (h : charsLess a b = false) :
    charsLess b a = true := by
  induction a generalizing b with
  | nil =>
    cases b with
    | nil => exact absurd rfl hne
    | cons y ys => simp [charsLess] at h
  | cons x xs ih =>
    cases b with
    | nil => rfl
    | cons y ys =>
      simp only [charsLess] at h ⊢
      by_cases h1 : x.toNat < y.toNat
      · simp [h1] at h
      · by_cases h2 : x.toNat = y.toNat
        · have hxy : x = y := char_eq_of_toNat_eq x y h2
          have h3 : ¬ y.toNat < x.toNat := by omega
          have h4 : y.toNat = x.toNat := h2.symm
          rw [if_neg h1, if_pos h2] at h
          rw [if_neg h3, if_pos h4]
          apply ih _ _ h
          intro hc
          exact hne (by rw [hxy, hc])
        · have h3 : y.toNat < x.toNat := by omega
          simp [h3]

theorem mapGet_mapSet (m : StrMap) (k v j : String) :
    mapGet (mapSet m k v) j = if j = k then some v else mapGet m j := by
  induction m with
  | nil => simp [mapSet, mapGet]
  | cons hd tl ih =>
    obtain ⟨k0, v0⟩ := hd
    simp only [mapSet]
    by_cases h1 : k = k0
    · subst h1
      by_cases hj : j = k <;> simp [mapGet, hj]
    · by_cases h2 : stringLess k k0 = true
      · by_cases hj : j = k <;> simp [mapGet, h1, h2, hj]
      · by_cases hj : j = k
        · subst hj
          simp [mapGet, h1, h2, ih]
        · have h1b : ¬ k0 = k := fun hc => h1 hc.symm
          by_cases hj0 : j = k0 <;> simp [mapGet, h1, h1b, h2, hj, hj0, ih]

theorem stringLess_irrefl (a : String) : stringLess a a = false :=
  charsLess_irrefl a.toList

theorem stringLess_trans (a b c : String) (h1 : stringLess a b = true)
    (h2 : stringLess b c = true) : stringLess a c = true :=
  charsLess_trans _ _ _ h1 h2

theorem stringLess_total (a b : String) (hne : a ≠ b) (h : stringLess a b = false) :
    stringLess b a = true := by
  apply charsLess_total _ _ _ h
  intro hc
  apply hne
  cases a; cases b
  exact congrArg String.mk hc


theorem mapSet_keys (m : StrMap) (k v : String) (j : String)
    (hj : j ∈ (mapSet m k v).map Prod.fst) : j = k ∨ j ∈ m.map Prod.fst := by
  induction m with
  | nil => simpa [mapSet] using hj
  | cons hd tl ih =>
    obtain ⟨k0, v0⟩ := hd
    simp only [mapSet] at hj
    split_ifs at hj with h1 h2
    · simp at hj ⊢
      rcases hj with h | h
      · exact Or.inl h
      · rcases h with ⟨x, hx⟩
        exact Or.inr (Or.inr ⟨x, hx⟩)
    · simp at hj ⊢
      rcases hj with h | h | h
      · exact Or.inl h
      · exact Or.inr (Or.inl h)
      · rcases h with ⟨x, hx⟩
        exact Or.inr (Or.inr ⟨x, hx⟩)
    · simp only [List.map_cons, List.mem_cons] at hj ⊢
      rcases hj with h | h
      · exact Or.inr (Or.inl h)
      · rcases ih h with h | h
        · exact Or.inl h
        · exact Or.inr (Or.inr h)

theorem mapSet_ascending (m : StrMap) (k v : String) (h : KeysAscending m) :
    KeysAscending (mapSet m k v) := by
  induction m with
  | nil => simp [mapSet, KeysAscending]
  | cons hd tl ih =>
    obtain ⟨k0, v0⟩ := hd
    unfold KeysAscending at h ih ⊢
    simp only [List.map_cons, List.pairwise_cons] at h
    simp only [mapSet]
    split_ifs with h1 h2
    · subst h1
      simpa [List.pairwise_cons] using h
    · simp only [List.map_cons, List.pairwise_cons, List.mem_cons]
      refine ⟨?_, h⟩
      intro a ha
      rcases ha with ha | ha
      · rw [ha]; exact h2
      · exact stringLess_trans _ _ _ h2 (h.1 a ha)
    · simp only [List.map_cons, List.pairwise_cons]
      refine ⟨?_, ih h.2⟩
      intro a ha
      rcases mapSet_keys tl k v a ha with ha | ha
      · rw [ha]
        apply stringLess_total _ _ h1
        simpa using h2
      · exact h.1 a ha

theorem mem_iff_mapGet (m : StrMap) (h : KeysAscending m) (k v : String) :
    (k, v) ∈ m ↔ mapGet m k = some v := by
  induction m with
  | nil => simp [mapGet]
  | cons hd tl ih =>
    obtain ⟨k0, v0⟩ := hd
    unfold KeysAscending at h ih
    simp only [List.map_cons, List.pairwise_cons] at h
    simp only [List.mem_cons, mapGet, Prod.mk.injEq]
    by_cases hk : k = k0
    · subst hk
      simp only [true_and, if_true, Option.some.injEq]
      constructor
      · intro hm
        rcases hm with hm | hm
        · exact hm.symm
        · exfalso
          have := h.1 k (List.mem_map.mpr ⟨(k, v), hm, rfl⟩)
          rw [stringLess_irrefl] at this
          exact Bool.false_ne_true this
      · intro hm
        exact Or.inl hm.symm
    · simp only [hk, false_and, false_or, if_false]
      exact ih h.2

/-! ## The parsing loops -/

theorem icompare_excl_false (k a b : String) (hab : icompareIsZero a b = false)
    (ha : icompareIsZero k a = true) : icompareIsZero k b = false := by
  by_contra hc
  have h := icompare_excl k a b ha (by simpa using hc)
  rw [hab] at h
  exact Bool.false_ne_true h

theorem accessTokenParam_skip (acc : Out StrMap) (seg : String) (h : eqCount seg ≠ 1) :
    (accessTokenParam acc seg).state = acc.state ∧
      (accessTokenParam acc seg).value = acc.value := by
  have hl := ofSplitString_length seg
  unfold accessTokenParam
  split
  · rename_i k v heq
    rw [heq] at hl
    simp at hl
    omega
  · exact ⟨rfl, rfl⟩

theorem accessTokenParam_wf (acc : Out StrMap) (seg : String) (h : eqCount seg = 1) :
    (accessTokenParam acc seg).value = mapSet acc.value (segKey seg) (segValue seg) ∧
    (accessTokenParam acc seg).state =
      { acc.state with
        accessToken :=
          if icompareIsZero (segKey seg) "oauth_token" then segValue seg
          else acc.state.accessToken
        accessTokenSecret :=
          if icompareIsZero (segKey seg) "oauth_token_secret" then segValue seg
          else acc.state.accessTokenSecret
        encodedUserId :=
          if icompareIsZero (segKey seg) "encoded_user_id" then segValue seg
          else acc.state.encodedUserId
        userId :=
          if icompareIsZero (segKey seg) "user_id" then segValue seg
          else acc.state.userId
        screenName :=
          if icompareIsZero (segKey seg) "screen_name" then segValue seg
          else acc.state.screenName } := by
  unfold accessTokenParam
  rw [ofSplitString_wf seg h]
  simp only
  by_cases h1 : icompareIsZero (segKey seg) "oauth_token" = true
  · have := icompare_excl_false _ _ "oauth_token_secret" (by decide) h1
    have := icompare_excl_false _ _ "encoded_user_id" (by decide) h1
    have := icompare_excl_false _ _ "user_id" (by decide) h1
    have := icompare_excl_false _ _ "screen_name" (by decide) h1
    simp [*]
  · by_cases h2 : icompareIsZero (segKey seg) "oauth_token_secret" = true
    · have := icompare_excl_false _ _ "encoded_user_id" (by decide) h2
      have := icompare_excl_false _ _ "user_id" (by decide) h2
      have := icompare_excl_false _ _ "screen_name" (by decide) h2
      simp [*]
    · by_cases h3 : icompareIsZero (segKey seg) "encoded_user_id" = true
      · have := icompare_excl_false _ _ "user_id" (by decide) h3
        have := icompare_excl_false _ _ "screen_name" (by decide) h3
        simp [*]
      · by_cases h4 : icompareIsZero (segKey seg) "user_id" = true
        · have := icompare_excl_false _ _ "screen_name" (by decide) h4
          simp [*]
        · by_cases h5 : icompareIsZero (segKey seg) "screen_name" = true
          · simp [*]
          · by_cases h6 : icompareIsZero (segKey seg) "oauth_problem" = true <;> simp [*]

theorem accessToken_fold_state (segs : List String) (acc : Out StrMap) :
    (segs.foldl accessTokenParam acc).state =
      { acc.state with
        accessToken :=
          (lastWhere (fun k => icompareIsZero k "oauth_token") (pairsOf segs)).getD
            acc.state.accessToken
        accessTokenSecret :=
          (lastWhere (fun k => icompareIsZero k "oauth_token_secret") (pairsOf segs)).getD
            acc.state.accessTokenSecret
        encodedUserId :=
          (lastWhere (fun k => icompareIsZero k "encoded_user_id") (pairsOf segs)).getD
            acc.state.encodedUserId
        userId :=
          (lastWhere (fun k => icompareIsZero k "user_id") (pairsOf segs)).getD
            acc.state.userId
        screenName :=
          (lastWhere (fun k => icompareIsZero k "screen_name") (pairsOf segs)).getD
            acc.state.screenName } := by
  induction segs generalizing acc with
  | nil => rfl
  | cons x xs ih =>
    rw [List.foldl_cons, ih]
    by_cases h : eqCount x = 1
    · rw [pairsOf_cons_wf x xs h, (accessTokenParam_wf acc x h).2]
      simp only [lastWhere_cons_getD]
    · rw [pairsOf_cons_skip x xs h, (accessTokenParam_skip acc x h).1]

theorem lastWhere_cons_or (p : String → Bool) (k v : String) (rest : List (String × String))
    (d : Option String) :
    (lastWhere p ((k, v) :: rest)).or d = (lastWhere p rest).or (if p k then some v else d) := by
  simp only [lastWhere]
  cases lastWhere p rest with
  | some w => rfl
  | none => by_cases h : p k = true <;> simp [h]

theorem requestToken_fold_value (L : Collab) (segs : List String) (acc : Out StrMap)
    (key : String) :
    mapGet (segs.foldl (requestTokenParam L) acc).value key =
      (lastWhere (fun k => decide (k = key)) (pairsOf segs)).or (mapGet acc.value key) := by
  induction segs generalizing acc with
  | nil => simp [pairsOf, lastWhere]
  | cons x xs ih =>
    rw [List.foldl_cons, ih]
    by_cases h : eqCount x = 1
    · rw [pairsOf_cons_wf x xs h, (requestTokenParam_wf L acc x h).1, lastWhere_cons_or,
        mapGet_mapSet]
      by_cases hk : key = segKey x
      · simp [hk]
      · have hk2 : ¬ segKey x = key := fun hc => hk hc.symm
        simp [hk, hk2]
    · rw [pairsOf_cons_skip x xs h, (requestTokenParam_skip L acc x h).2]

theorem accessToken_fold_value (segs : List String) (acc : Out StrMap) (key : String) :
    mapGet (segs.foldl accessTokenParam acc).value key =
      (lastWhere (fun k => decide (k = key)) (pairsOf segs)).or (mapGet acc.value key) := by
  induction segs generalizing acc with
  | nil => simp [pairsOf, lastWhere]
  | cons x xs ih =>
    rw [List.foldl_cons, ih]
    by_cases h : eqCount x = 1
    · rw [pairsOf_cons_wf x xs h, (accessTokenParam_wf acc x h).1, lastWhere_cons_or,
        mapGet_mapSet]
      by_cases hk : key = segKey x
      · simp [hk]
      · have hk2 : ¬ segKey x = key := fun hc => hk hc.symm
        simp [hk, hk2]
    · rw [pairsOf_cons_skip x xs h, (accessTokenParam_skip acc x h).2]

theorem requestToken_fold_ascending (L : Collab) (segs : List String) (acc : Out StrMap)
    (h : KeysAscending acc.value) :
    KeysAscending (segs.foldl (requestTokenParam L) acc).value := by
  induction segs generalizing acc with
  | nil => exact h
  | cons x xs ih =>
    rw [List.foldl_cons]
    apply ih
    by_cases hx : eqCount x = 1
    · rw [(requestTokenParam_wf L acc x hx).1]
      exact mapSet_ascending _ _ _ h
    · rw [(requestTokenParam_skip L acc x hx).2]
      exact h

theorem accessToken_fold_ascending (segs : List String) (acc : Out StrMap)
    (h : KeysAscending acc.value) :
    KeysAscending (segs.foldl accessTokenParam acc).value := by
  induction segs generalizing acc with
  | nil => exact h
  | cons x xs ih =>
    rw [List.foldl_cons]
    apply ih
    by_cases hx : eqCount x = 1
    · rw [(accessTokenParam_wf acc x hx).1]
      exact mapSet_ascending _ _ _ h
    · rw [(accessTokenParam_skip acc x hx).2]
      exact h


/-! ## The token exchange as a whole -/

theorem ofSplitString_empty : ofSplitString "" '&' true = [] := by
  decide

theorem obtainRequestToken_ready (L : Collab) (reply : String) (s : State)
    (h : requestTokenReady s) :
    obtainRequestToken L reply s =
      requestTokenChecks ((ofSplitString reply '&' true).foldl (requestTokenParam L)
        ⟨s, [], requestTokenRequest L s⟩) := by
  obtain ⟨h1, h2, h3⟩ := h
  unfold obtainRequestToken
  rw [if_neg h1, if_neg h2, if_neg h3]
  by_cases hr : reply = ""
  · subst hr
    simp only [if_true, ofSplitString_empty, List.foldl_nil]
  · simp only [hr, if_false]

theorem requestTokenChecks_value (r : Out StrMap) : (requestTokenChecks r).value = r.value := by
  unfold requestTokenChecks
  by_cases h1 : r.state.requestTokenSecret = "" <;>
    by_cases h2 : r.state.requestToken = "" <;> simp [h1, h2]

theorem requestTokenChecks_state (r : Out StrMap) :
    (requestTokenChecks r).state =
      { r.state with
        accessFailed := r.state.accessFailed ||
          (decide (r.state.requestTokenSecret = "") || decide (r.state.requestToken = "")) } := by
  unfold requestTokenChecks
  by_cases h1 : r.state.requestTokenSecret = "" <;>
    by_cases h2 : r.state.requestToken = "" <;> simp [h1, h2]

theorem obtainRequestToken_state (L : Collab) (reply : String) (s : State)
    (h : requestTokenReady s) :
    (obtainRequestToken L reply s).state =
      { s with
        requestToken := (replyField "oauth_token" reply).getD s.requestToken
        requestTokenSecret := (replyField "oauth_token_secret" reply).getD s.requestTokenSecret
        callbackConfirmed :=
          ((replyField "oauth_callback_confirmed" reply).map (ofToBool L)).getD
            s.callbackConfirmed
        accessFailed := s.accessFailed ||
          (decide ((replyField "oauth_token_secret" reply).getD s.requestTokenSecret = "") ||
            decide ((replyField "oauth_token" reply).getD s.requestToken = "")) } := by
  rw [obtainRequestToken_ready L reply s h, requestTokenChecks_state, requestToken_fold_state]
  rfl

theorem obtainRequestToken_value (L : Collab) (reply : String) (s : State)
    (h : requestTokenReady s) (key : String) :
    mapGet (obtainRequestToken L reply s).value key = replyEntry key reply := by
  rw [obtainRequestToken_ready L reply s h, requestTokenChecks_value, requestToken_fold_value]
  simp [mapGet, replyEntry, replyPairs]

theorem accessTokenChecks_value (r : Out StrMap) : (accessTokenChecks r).value = r.value := by
  unfold accessTokenChecks
  by_cases h1 : r.state.accessTokenSecret = "" <;>
    by_cases h2 : r.state.accessToken = "" <;> simp [h1, h2]

theorem accessTokenChecks_state (r : Out StrMap) :
    (accessTokenChecks r).state =
      { r.state with
        accessFailed := r.state.accessFailed ||
          (decide (r.state.accessTokenSecret = "") || decide (r.state.accessToken = "")) } := by
  unfold accessTokenChecks
  by_cases h1 : r.state.accessTokenSecret = "" <;>
    by_cases h2 : r.state.accessToken = "" <;> simp [h1, h2]

theorem saveCredentials_state (saveOk : Bool) (s : State) :
    (saveCredentials saveOk s).state = s := rfl

theorem obtainAccessToken_ready (L : Collab) (reply : String) (saveOk : Bool) (s : State)
    (h : accessTokenReady s) :
    (obtainAccessToken L reply saveOk s).state =
        (accessTokenChecks ((ofSplitString reply '&' true).foldl accessTokenParam
          ⟨s, [], accessTokenRequest L s⟩)).state ∧
      (obtainAccessToken L reply saveOk s).value =
        (accessTokenChecks ((ofSplitString reply '&' true).foldl accessTokenParam
          ⟨s, [], accessTokenRequest L s⟩)).value := by
  obtain ⟨h1, h2, h3, h4, h5, h6⟩ := h
  unfold obtainAccessToken
  rw [if_neg h1, if_neg h2, if_neg h3, if_neg h4, if_neg h5, if_neg h6]
  by_cases hr : reply = ""
  · subst hr
    simp only [if_true, ofSplitString_empty, List.foldl_nil, saveCredentials_state, and_self]
  · simp only [hr, if_false, saveCredentials_state, and_self]

theorem obtainAccessToken_notReady (L : Collab) (reply : String) (saveOk : Bool) (s : State)
    (h : ¬ accessTokenReady s) :
    (obtainAccessToken L reply saveOk s).state = s ∧
      (obtainAccessToken L reply saveOk s).value = [] ∧
      noNetwork (obtainAccessToken L reply saveOk s).events := by
  unfold accessTokenReady at h
  unfold obtainAccessToken
  split_ifs <;> first
    | (refine ⟨rfl, rfl, ?_⟩; intro e he; simp at he; subst he; rfl)
    | (exfalso; exact h ⟨by assumption, by assumption, by assumption, by assumption,
        by assumption, by assumption⟩)

theorem obtainRequestToken_notReady (L : Collab) (reply : String) (s : State)
    (h : ¬ requestTokenReady s) :
    (obtainRequestToken L reply s).state = s ∧
      (obtainRequestToken L reply s).value = [] ∧
      noNetwork (obtainRequestToken L reply s).events := by
  unfold requestTokenReady at h
  unfold obtainRequestToken
  split_ifs <;> first
    | (refine ⟨rfl, rfl, ?_⟩; intro e he; simp at he; subst he; rfl)
    | (exfalso; exact h ⟨by assumption, by assumption, by assumption⟩)

theorem obtainRequestToken_ascending (L : Collab) (reply : String) (s : State) :
    KeysAscending (obtainRequestToken L reply s).value := by
  by_cases h : requestTokenReady s
  · rw [obtainRequestToken_ready L reply s h, requestTokenChecks_value]
    apply requestToken_fold_ascending
    simp [KeysAscending]
  · rw [(obtainRequestToken_notReady L reply s h).2.1]
    simp [KeysAscending]

theorem obtainAccessToken_state (L : Collab) (reply : String) (saveOk : Bool) (s : State)
    (h : accessTokenReady s) :
    (obtainAccessToken L reply saveOk s).state =
      { s with
        accessToken := (replyField "oauth_token" reply).getD s.accessToken
        accessTokenSecret := (replyField "oauth_token_secret" reply).getD s.accessTokenSecret
        encodedUserId := (replyField "encoded_user_id" reply).getD s.encodedUserId
        userId := (replyField "user_id" reply).getD s.userId
        screenName := (replyField "screen_name" reply).getD s.screenName
        accessFailed := s.accessFailed ||
          (decide ((replyField "oauth_token_secret" reply).getD s.accessTokenSecret = "") ||
            decide ((replyField "oauth_token" reply).getD s.accessToken = "")) } := by
  rw [(obtainAccessToken_ready L reply saveOk s h).1, accessTokenChecks_state,
    accessToken_fold_state]
  rfl

theorem obtainAccessToken_value (L : Collab) (reply : String) (saveOk : Bool) (s : State)
    (h : accessTokenReady s) (key : String) :
    mapGet (obtainAccessToken L reply saveOk s).value key = replyEntry key reply := by
  rw [(obtainAccessToken_ready L reply saveOk s h).2, accessTokenChecks_value,
    accessToken_fold_value]
  simp [mapGet, replyEntry, replyPairs]

theorem obtainAccessToken_ascending (L : Collab) (reply : String) (saveOk : Bool) (s : State) :
    KeysAscending (obtainAccessToken L reply saveOk s).value := by
  by_cases h : accessTokenReady s
  · rw [(obtainAccessToken_ready L reply saveOk s h).2, accessTokenChecks_value]
    apply accessToken_fold_ascending
    simp [KeysAscending]
  · rw [(obtainAccessToken_notReady L reply saveOk s h).2.1]
    simp [KeysAscending]


/-! ## Replies put together from segments -/

theorem ofSplitString_joinSegments (segs : List String)
    (h : ∀ x ∈ segs, '&' ∉ x.toList) :
    ofSplitString (joinSegments segs) '&' true = segs.filter (fun p => decide (p ≠ "")) := by
  unfold ofSplitString joinSegments
  simp only [if_true]
  by_cases hs : segs = []
  · subst hs
    decide
  · have h1 : (['&'].intercalate (segs.map String.toList)).splitOn '&' = segs.map String.toList := by
      apply List.splitOn_intercalate
      · intro l hl
        rw [List.mem_map] at hl
        obtain ⟨x, hx, rfl⟩ := hl
        exact h x hx
      · simpa using hs
    show List.filter _ (List.map String.mk
      ((['&'].intercalate (segs.map String.toList)).splitOn '&')) = _
    rw [h1, List.map_map]
    have h2 : (String.mk ∘ String.toList) = id := by
      funext x
      rfl
    rw [h2, List.map_id]

theorem pairsOf_filter_nonempty (segs : List String) :
    pairsOf (segs.filter (fun p => decide (p ≠ ""))) = pairsOf segs := by
  unfold pairsOf
  rw [List.filter_filter]
  congr 1
  apply List.filter_congr
  intro x _
  by_cases hx : x = ""
  · subst hx
    decide
  · simp [hx]

theorem pairsOf_append (a b : List String) : pairsOf (a ++ b) = pairsOf a ++ pairsOf b := by
  simp [pairsOf]

theorem replyPairs_insert (pre post : List String) (m : String)
    (h : ∀ x ∈ pre ++ m :: post, '&' ∉ x.toList) (hm : eqCount m ≠ 1) :
    replyPairs (joinSegments (pre ++ m :: post)) = replyPairs (joinSegments (pre ++ post)) := by
  have h2 : ∀ x ∈ pre ++ post, '&' ∉ x.toList := by
    intro x hx
    apply h x
    rw [List.mem_append] at hx ⊢
    rcases hx with hx | hx
    · exact Or.inl hx
    · exact Or.inr (List.mem_cons_of_mem _ hx)
  unfold replyPairs
  rw [ofSplitString_joinSegments _ h, ofSplitString_joinSegments _ h2,
    pairsOf_filter_nonempty, pairsOf_filter_nonempty, pairsOf_append, pairsOf_append,
    pairsOf_cons_skip m post hm]

theorem replyField_congr (name a b : String) (h : replyPairs a = replyPairs b) :
    replyField name a = replyField name b := by
  unfold replyField
  rw [h]

theorem replyEntry_congr (key a b : String) (h : replyPairs a = replyPairs b) :
    replyEntry key a = replyEntry key b := by
  unfold replyEntry
  rw [h]

theorem map_ext_of_mapGet (m1 m2 : StrMap) (h1 : KeysAscending m1) (h2 : KeysAscending m2)
    (h : ∀ k, mapGet m1 k = mapGet m2 k) : m1 = m2 := by
  induction m1 generalizing m2 with
  | nil =>
    cases m2 with
    | nil => rfl
    | cons hd tl =>
      obtain ⟨k, v⟩ := hd
      have := h k
      simp [mapGet] at this
  | cons hd tl ih =>
    obtain ⟨k, v⟩ := hd
    cases m2 with
    | nil =>
      have := h k
      simp [mapGet] at this
    | cons hd2 tl2 =>
      obtain ⟨k2, v2⟩ := hd2
      have m1k := (mem_iff_mapGet _ h1 k v).mp (List.mem_cons_self _ _)
      have m2k := (mem_iff_mapGet _ h2 k2 v2).mp (List.mem_cons_self _ _)
      have a1 : (k, v) ∈ (k2, v2) :: tl2 := (mem_iff_mapGet _ h2 k v).mpr (by rw [← h k]; exact m1k)
      have a2 : (k2, v2) ∈ (k, v) :: tl := (mem_iff_mapGet _ h1 k2 v2).mpr (by rw [h k2]; exact m2k)
      unfold KeysAscending at h1 h2
      simp only [List.map_cons, List.pairwise_cons] at h1 h2
      have hkk : (k, v) = (k2, v2) := by
        rcases List.mem_cons.mp a1 with e | e
        · exact e
        · rcases List.mem_cons.mp a2 with e2 | e2
          · exact e2.symm
          · exfalso
            have l1 := h2.1 k (List.mem_map.mpr ⟨(k, v), e, rfl⟩)
            have l2 := h1.1 k2 (List.mem_map.mpr ⟨(k2, v2), e2, rfl⟩)
            have l3 := stringLess_trans _ _ _ l1 l2
            rw [stringLess_irrefl] at l3
            exact Bool.false_ne_true l3
      have hk : k = k2 := congrArg Prod.fst hkk
      have hv : v = v2 := congrArg Prod.snd hkk
      subst hk; subst hv
      congr 1
      apply ih tl2 h1.2 h2.2
      intro j
      have hj := h j
      simp only [mapGet] at hj
      by_cases hjk : j = k
      · subst hjk
        have n1 : mapGet tl j = none := by
          cases hm : mapGet tl j with
          | none => rfl
          | some w =>
            exfalso
            have mm := (mem_iff_mapGet tl h1.2 j w).mpr hm
            have l1 := h1.1 j (List.mem_map.mpr ⟨(j, w), mm, rfl⟩)
            rw [stringLess_irrefl] at l1
            exact Bool.false_ne_true l1
        have n2 : mapGet tl2 j = none := by
          cases hm : mapGet tl2 j with
          | none => rfl
          | some w =>
            exfalso
            have mm := (mem_iff_mapGet tl2 h2.2 j w).mpr hm
            have l1 := h2.1 j (List.mem_map.mpr ⟨(j, w), mm, rfl⟩)
            rw [stringLess_irrefl] at l1
            exact Bool.false_ne_true l1
        rw [n1, n2]
      · simpa [hjk] using hj


/-! ## C1: the request token is taken from the reply -/

/-- C1, as the code behaves: for a session that passes the guards of obtainRequestToken and
has accessFailed clear, and a reply made only of segments with exactly one '=', in which the
last segment whose key is oauth_token in any letter case carries the non-empty value T, the
last one for oauth_token_secret carries the non-empty value S and the last one for
oauth_callback_confirmed carries "true", obtainRequestToken leaves requestToken = T,
requestTokenSecret = S, callbackConfirmed = true and accessFailed = false. -/
theorem C1_request_token_extracted (L : Collab) (s : State) (reply T S : String)
    (hready : requestTokenReady s) (hclear : s.accessFailed = false)
    (_hsegs : ∀ seg ∈ ofSplitString reply '&' true, eqCount seg = 1)
    (hT : replyField "oauth_token" reply = some T) (hTne : T ≠ "")
    (hS : replyField "oauth_token_secret" reply = some S) (hSne : S ≠ "")
    (hC : replyField "oauth_callback_confirmed" reply = some "true") :
    (obtainRequestToken L reply s).state.requestToken = T ∧
      (obtainRequestToken L reply s).state.requestTokenSecret = S ∧
      (obtainRequestToken L reply s).state.callbackConfirmed = true ∧
      (obtainRequestToken L reply s).state.accessFailed = false := by
  rw [obtainRequestToken_state L reply s hready, hT, hS, hC]
  have hb : ofToBool L "true" = true := by
    unfold ofToBool
    simp
  simp [hclear, hTne, hSne, hb]

/-- C1 at the reply of the specification's example: the sample session ends with request
token "abc", secret "xyz", the callback confirmed and no failure. -/
theorem C1_request_token_extracted_witness :
    (obtainRequestToken plainCollab
        "oauth_token=abc&oauth_token_secret=xyz&oauth_callback_confirmed=true"
        sampleSession).state.requestToken = "abc" ∧
      (obtainRequestToken plainCollab
        "oauth_token=abc&oauth_token_secret=xyz&oauth_callback_confirmed=true"
        sampleSession).state.requestTokenSecret = "xyz" ∧
      (obtainRequestToken plainCollab
        "oauth_token=abc&oauth_token_secret=xyz&oauth_callback_confirmed=true"
        sampleSession).state.callbackConfirmed = true ∧
      (obtainRequestToken plainCollab
        "oauth_token=abc&oauth_token_secret=xyz&oauth_callback_confirmed=true"
        sampleSession).state.accessFailed = false :=
  C1_request_token_extracted plainCollab sampleSession
    "oauth_token=abc&oauth_token_secret=xyz&oauth_callback_confirmed=true" "abc" "xyz"
    (by decide) (by decide) (by decide) (by decide) (by decide) (by decide) (by decide)
    (by decide)

/-- C1 as stated fails: the reply below is made only of segments with exactly one '=' and
contains oauth_token=abc, oauth_token_secret=xyz and oauth_callback_confirmed=true, no other
segment has the key oauth_token, yet the session ends with requestToken "zzz", because
keys are compared ignoring letter case and the later segment OAUTH_TOKEN=zzz wins. -/
theorem C1_counterexample_case_insensitive_key :
    requestTokenReady sampleSession ∧ sampleSession.accessFailed = false ∧
      (∀ seg ∈ ofSplitString
          "oauth_token=abc&oauth_token_secret=xyz&oauth_callback_confirmed=true&OAUTH_TOKEN=zzz"
          '&' true, eqCount seg = 1) ∧
      ofSplitString
          "oauth_token=abc&oauth_token_secret=xyz&oauth_callback_confirmed=true&OAUTH_TOKEN=zzz"
          '&' true =
        ["oauth_token=abc", "oauth_token_secret=xyz", "oauth_callback_confirmed=true",
          "OAUTH_TOKEN=zzz"] ∧
      (obtainRequestToken plainCollab
        "oauth_token=abc&oauth_token_secret=xyz&oauth_callback_confirmed=true&OAUTH_TOKEN=zzz"
        sampleSession).state.requestToken = "zzz" ∧
      (obtainRequestToken plainCollab
        "oauth_token=abc&oauth_token_secret=xyz&oauth_callback_confirmed=true&OAUTH_TOKEN=zzz"
        sampleSession).state.requestToken ≠ "abc" := by
  decide


/-! ## C2: a reply without token or secret -/

/-- C2, as the code behaves: for a session that passes the guards, obtainRequestToken sets
accessFailed when the reply has no well-formed segment whose key is oauth_token in any
letter case and requestToken was empty before the call, or has none for oauth_token_secret
and requestTokenSecret was empty before the call; obtainAccessToken does the same with
accessToken and accessTokenSecret. -/
theorem C2_missing_field_sets_accessFailed (L : Collab) (s : State) (reply : String)
    (saveOk : Bool) :
    (requestTokenReady s →
      ((replyField "oauth_token" reply = none ∧ s.requestToken = "") ∨
        (replyField "oauth_token_secret" reply = none ∧ s.requestTokenSecret = "")) →
      (obtainRequestToken L reply s).state.accessFailed = true) ∧
    (accessTokenReady s →
      ((replyField "oauth_token" reply = none ∧ s.accessToken = "") ∨
        (replyField "oauth_token_secret" reply = none ∧ s.accessTokenSecret = "")) →
      (obtainAccessToken L reply saveOk s).state.accessFailed = true) := by
  constructor
  · intro hready h
    rw [obtainRequestToken_state L reply s hready]
    rcases h with ⟨h1, h2⟩ | ⟨h1, h2⟩ <;> simp [h1, h2]
  · intro hready h
    rw [obtainAccessToken_state L reply saveOk s hready]
    rcases h with ⟨h1, h2⟩ | ⟨h1, h2⟩ <;> simp [h1, h2]

/-- C2 at concrete inputs: the sample session, which holds no token, fails on a reply that
only reports a problem; the same session with request token, secret and verifier fails
in obtainAccessToken on a reply that carries only oauth_token. -/
theorem C2_missing_field_sets_accessFailed_witness :
    (obtainRequestToken plainCollab "oauth_problem=token_rejected"
        sampleSession).state.accessFailed = true ∧
      (obtainAccessToken plainCollab "oauth_token=x" true
        (runOps plainCollab
          [.setRequestToken "a", .setRequestTokenSecret "b", .setRequestTokenVerifier "v"]
          sampleSession)).state.accessFailed = true :=
  ⟨(C2_missing_field_sets_accessFailed plainCollab sampleSession
      "oauth_problem=token_rejected" true).1 (by decide) (by decide),
    (C2_missing_field_sets_accessFailed plainCollab
      (runOps plainCollab
        [.setRequestToken "a", .setRequestTokenSecret "b", .setRequestTokenVerifier "v"]
        sampleSession) "oauth_token=x" true).2 (by decide) (by decide)⟩

/-- C2 as stated fails for prior states whose token fields are already filled: a session
holding request token "old" and secret "olds" passes the guards, the reply has neither an
oauth_token nor an oauth_token_secret segment, and obtainRequestToken leaves accessFailed
false; a session holding the stale access token "x" gets a reply with only
oauth_token_secret, and obtainAccessToken leaves accessFailed false and the session
authorized. -/
theorem C2_counterexample_fields_already_set :
    (requestTokenReady
        (runOps plainCollab [.setRequestToken "old", .setRequestTokenSecret "olds"]
          sampleSession) ∧
      replyPairs "oauth_problem=token_rejected" = [("oauth_problem", "token_rejected")] ∧
      (obtainRequestToken plainCollab "oauth_problem=token_rejected"
        (runOps plainCollab [.setRequestToken "old", .setRequestTokenSecret "olds"]
          sampleSession)).state.accessFailed = false) ∧
    (accessTokenReady
        (runOps plainCollab
          [.setRequestToken "a", .setRequestTokenSecret "b", .setRequestTokenVerifier "v",
            .setAccessToken "x"] sampleSession) ∧
      replyPairs "oauth_token_secret=y" = [("oauth_token_secret", "y")] ∧
      (obtainAccessToken plainCollab "oauth_token_secret=y" true
        (runOps plainCollab
          [.setRequestToken "a", .setRequestTokenSecret "b", .setRequestTokenVerifier "v",
            .setAccessToken "x"] sampleSession)).state.accessFailed = false ∧
      isAuthorized (obtainAccessToken plainCollab "oauth_token_secret=y" true
        (runOps plainCollab
          [.setRequestToken "a", .setRequestTokenSecret "b", .setRequestTokenVerifier "v",
            .setAccessToken "x"] sampleSession)).state = true) := by
  decide

/-! ## C3: the returned map and malformed segments -/

/-- C3: for a session that passes the guards of obtainRequestToken and a non-empty reply,
the returned map holds the pair (k, v) exactly when v is the value of the last non-empty
'&'-separated segment with exactly one '=' whose key is k (an oauth_problem pair
included); a segment with zero or several '=' changes neither the map nor the session in
its round of the loop; and putting such a segment anywhere into a reply changes neither
the returned map nor the resulting state. -/
theorem C3_returned_map_and_malformed_segments (L : Collab) (s : State) (reply : String)
    (hready : requestTokenReady s) (_hreply : reply ≠ "") :
    (∀ k v, (k, v) ∈ (obtainRequestToken L reply s).value ↔ replyEntry k reply = some v) ∧
    (∀ (acc : Out StrMap) (seg : String), eqCount seg ≠ 1 →
      (requestTokenParam L acc seg).state = acc.state ∧
        (requestTokenParam L acc seg).value = acc.value) ∧
    (∀ (pre post : List String) (m : String),
      (∀ x ∈ pre ++ m :: post, '&' ∉ x.toList) → eqCount m ≠ 1 →
      (obtainRequestToken L (joinSegments (pre ++ m :: post)) s).value =
          (obtainRequestToken L (joinSegments (pre ++ post)) s).value ∧
        (obtainRequestToken L (joinSegments (pre ++ m :: post)) s).state =
          (obtainRequestToken L (joinSegments (pre ++ post)) s).state) := by
  refine ⟨?_, ?_, ?_⟩
  · intro k v
    rw [mem_iff_mapGet _ (obtainRequestToken_ascending L reply s),
      obtainRequestToken_value L reply s hready]
  · intro acc seg hseg
    exact requestTokenParam_skip L acc seg hseg
  · intro pre post m hamp hm
    have hp := replyPairs_insert pre post m hamp hm
    constructor
    · apply map_ext_of_mapGet _ _ (obtainRequestToken_ascending _ _ _)
        (obtainRequestToken_ascending _ _ _)
      intro k
      rw [obtainRequestToken_value L _ s hready, obtainRequestToken_value L _ s hready]
      exact replyEntry_congr k _ _ hp
    · rw [obtainRequestToken_state L _ s hready, obtainRequestToken_state L _ s hready,
        replyField_congr "oauth_token" _ _ hp, replyField_congr "oauth_token_secret" _ _ hp,
        replyField_congr "oauth_callback_confirmed" _ _ hp]

/-- C3 at the replies of the specification's examples: a reply that only reports a problem
returns the map with the single pair oauth_problem -> token_rejected and sets accessFailed;
with the malformed segment foo=bar=baz in front, token "abc" and secret "xyz" are still
extracted, and the reply is the one without that segment with the segment put in. -/
theorem C3_returned_map_and_malformed_segments_witness :
    ("oauth_problem", "token_rejected") ∈
        (obtainRequestToken plainCollab "oauth_problem=token_rejected" sampleSession).value ∧
      (obtainRequestToken plainCollab "oauth_problem=token_rejected" sampleSession).value =
        [("oauth_problem", "token_rejected")] ∧
      (obtainRequestToken plainCollab "oauth_problem=token_rejected"
        sampleSession).state.accessFailed = true ∧
      joinSegments ([] ++ "foo=bar=baz" :: ["oauth_token=abc", "oauth_token_secret=xyz"]) =
        "foo=bar=baz&oauth_token=abc&oauth_token_secret=xyz" ∧
      (obtainRequestToken plainCollab "foo=bar=baz&oauth_token=abc&oauth_token_secret=xyz"
        sampleSession).state =
        (obtainRequestToken plainCollab "oauth_token=abc&oauth_token_secret=xyz"
          sampleSession).state ∧
      (obtainRequestToken plainCollab "foo=bar=baz&oauth_token=abc&oauth_token_secret=xyz"
        sampleSession).state.requestToken = "abc" ∧
      (obtainRequestToken plainCollab "foo=bar=baz&oauth_token=abc&oauth_token_secret=xyz"
        sampleSession).state.requestTokenSecret = "xyz" :=
  ⟨((C3_returned_map_and_malformed_segments plainCollab sampleSession
      "oauth_problem=token_rejected" (by decide) (by decide)).1 "oauth_problem"
      "token_rejected").mpr (by decide),
    by decide, by decide, by decide,
    ((C3_returned_map_and_malformed_segments plainCollab sampleSession
      "oauth_problem=token_rejected" (by decide) (by decide)).2.2 [] 
      ["oauth_token=abc", "oauth_token_secret=xyz"] "foo=bar=baz" (by decide) (by decide)).2,
    by decide, by decide⟩


/-! ## C4: the access token and the identity fields -/

/-- C4, as the code behaves: keys are compared ignoring letter case.  For a session that
passes the guards of obtainAccessToken and every reply: in its round of the loop a
well-formed segment whose key is oauth_token, oauth_token_secret, encoded_user_id, user_id
or screen_name in any letter case sets accessToken, accessTokenSecret, encodedUserId,
userId or screenName to its value, and one whose key is none of the five changes no session
field; every well-formed segment is recorded in the returned map under its key as spelled;
after the call the five fields hold the value of the last segment for them (or their old
value), accessFailed is set exactly if it was set or one of the two access fields is
empty, and no other field has changed; so when the last oauth_token and oauth_token_secret
segments carry non-empty values the session is authorized and accessFailed is as before
the call. -/
theorem C4_access_token_extracted (L : Collab) (s : State) (reply : String) (saveOk : Bool)
    (hready : accessTokenReady s) :
    (∀ (acc : Out StrMap) (seg : String), eqCount seg = 1 →
      (accessTokenParam acc seg).value = mapSet acc.value (segKey seg) (segValue seg) ∧
      (icompareIsZero (segKey seg) "oauth_token" = true →
        (accessTokenParam acc seg).state = { acc.state with accessToken := segValue seg }) ∧
      (icompareIsZero (segKey seg) "oauth_token_secret" = true →
        (accessTokenParam acc seg).state =
          { acc.state with accessTokenSecret := segValue seg }) ∧
      (icompareIsZero (segKey seg) "encoded_user_id" = true →
        (accessTokenParam acc seg).state = { acc.state with encodedUserId := segValue seg }) ∧
      (icompareIsZero (segKey seg) "user_id" = true →
        (accessTokenParam acc seg).state = { acc.state with userId := segValue seg }) ∧
      (icompareIsZero (segKey seg) "screen_name" = true →
        (accessTokenParam acc seg).state = { acc.state with screenName := segValue seg }) ∧
      (icompareIsZero (segKey seg) "oauth_token" = false →
        icompareIsZero (segKey seg) "oauth_token_secret" = false →
        icompareIsZero (segKey seg) "encoded_user_id" = false →
        icompareIsZero (segKey seg) "user_id" = false →
        icompareIsZero (segKey seg) "screen_name" = false →
        (accessTokenParam acc seg).state = acc.state)) ∧
    (∀ k v, (k, v) ∈ (obtainAccessToken L reply saveOk s).value ↔
      replyEntry k reply = some v) ∧
    (obtainAccessToken L reply saveOk s).state =
      { s with
        accessToken := (replyField "oauth_token" reply).getD s.accessToken
        accessTokenSecret := (replyField "oauth_token_secret" reply).getD s.accessTokenSecret
        encodedUserId := (replyField "encoded_user_id" reply).getD s.encodedUserId
        userId := (replyField "user_id" reply).getD s.userId
        screenName := (replyField "screen_name" reply).getD s.screenName
        accessFailed := s.accessFailed ||
          (decide ((replyField "oauth_token_secret" reply).getD s.accessTokenSecret = "") ||
            decide ((replyField "oauth_token" reply).getD s.accessToken = "")) } ∧
    (∀ T S, replyField "oauth_token" reply = some T → T ≠ "" →
      replyField "oauth_token_secret" reply = some S → S ≠ "" →
      isAuthorized (obtainAccessToken L reply saveOk s).state = true ∧
        (obtainAccessToken L reply saveOk s).state.accessFailed = s.accessFailed) := by
  refine ⟨?_, ?_, obtainAccessToken_state L reply saveOk s hready, ?_⟩
  · intro acc seg hseg
    obtain ⟨hv, hs⟩ := accessTokenParam_wf acc seg hseg
    refine ⟨hv, ?_, ?_, ?_, ?_, ?_, ?_⟩
    · intro h1
      have := icompare_excl_false _ _ "oauth_token_secret" (by decide) h1
      have := icompare_excl_false _ _ "encoded_user_id" (by decide) h1
      have := icompare_excl_false _ _ "user_id" (by decide) h1
      have := icompare_excl_false _ _ "screen_name" (by decide) h1
      rw [hs]; simp [*]
    · intro h1
      have := icompare_excl_false _ _ "oauth_token" (by decide) h1
      have := icompare_excl_false _ _ "encoded_user_id" (by decide) h1
      have := icompare_excl_false _ _ "user_id" (by decide) h1
      have := icompare_excl_false _ _ "screen_name" (by decide) h1
      rw [hs]; simp [*]
    · intro h1
      have := icompare_excl_false _ _ "oauth_token" (by decide) h1
      have := icompare_excl_false _ _ "oauth_token_secret" (by decide) h1
      have := icompare_excl_false _ _ "user_id" (by decide) h1
      have := icompare_excl_false _ _ "screen_name" (by decide) h1
      rw [hs]; simp [*]
    · intro h1
      have := icompare_excl_false _ _ "oauth_token" (by decide) h1
      have := icompare_excl_false _ _ "oauth_token_secret" (by decide) h1
      have := icompare_excl_false _ _ "encoded_user_id" (by decide) h1
      have := icompare_excl_false _ _ "screen_name" (by decide) h1
      rw [hs]; simp [*]
    · intro h1
      have := icompare_excl_false _ _ "oauth_token" (by decide) h1
      have := icompare_excl_false _ _ "oauth_token_secret" (by decide) h1
      have := icompare_excl_false _ _ "encoded_user_id" (by decide) h1
      have := icompare_excl_false _ _ "user_id" (by decide) h1
      rw [hs]; simp [*]
    · intro h1 h2 h3 h4 h5
      rw [hs]; simp [*]
  · intro k v
    rw [mem_iff_mapGet _ (obtainAccessToken_ascending L reply saveOk s),
      obtainAccessToken_value L reply saveOk s hready]
  · intro T S hT hTne hS hSne
    rw [obtainAccessToken_state L reply saveOk s hready, hT, hS]
    simp [isAuthorized, hTne, hSne]

/-- C4 at a concrete reply: with request token, secret and verifier in place, a reply with
token, secret, user id and a key of no meaning leaves the session authorized with
accessToken "x", accessTokenSecret "y", userId "7", and the unknown pair in the returned
map. -/
theorem C4_access_token_extracted_witness :
    isAuthorized (obtainAccessToken plainCollab
        "oauth_token=x&oauth_token_secret=y&user_id=7&colour=red" true
        (runOps plainCollab
          [.setRequestToken "a", .setRequestTokenSecret "b", .setRequestTokenVerifier "v"]
          sampleSession)).state = true ∧
      (obtainAccessToken plainCollab
        "oauth_token=x&oauth_token_secret=y&user_id=7&colour=red" true
        (runOps plainCollab
          [.setRequestToken "a", .setRequestTokenSecret "b", .setRequestTokenVerifier "v"]
          sampleSession)).state.accessFailed = false ∧
      (obtainAccessToken plainCollab
        "oauth_token=x&oauth_token_secret=y&user_id=7&colour=red" true
        (runOps plainCollab
          [.setRequestToken "a", .setRequestTokenSecret "b", .setRequestTokenVerifier "v"]
          sampleSession)).state.userId = "7" ∧
      ("colour", "red") ∈ (obtainAccessToken plainCollab
        "oauth_token=x&oauth_token_secret=y&user_id=7&colour=red" true
        (runOps plainCollab
          [.setRequestToken "a", .setRequestTokenSecret "b", .setRequestTokenVerifier "v"]
          sampleSession)).value :=
  ⟨((C4_access_token_extracted plainCollab
      (runOps plainCollab
        [.setRequestToken "a", .setRequestTokenSecret "b", .setRequestTokenVerifier "v"]
        sampleSession)
      "oauth_token=x&oauth_token_secret=y&user_id=7&colour=red" true (by decide)).2.2.2
      "x" "y" (by decide) (by decide) (by decide) (by decide)).1,
    by decide, by decide, by decide⟩

/-- C4 as stated fails: in the reply below the key OAUTH_TOKEN is none of the five keys
the claim lists, yet its segment empties accessToken; the reply supplies the non-empty
oauth_token "a1" and oauth_token_secret "b1", yet the session is not authorized
afterwards and accessFailed has been set by the call. -/
theorem C4_counterexample_other_key_changes_field :
    accessTokenReady
        (runOps plainCollab
          [.setRequestToken "a", .setRequestTokenSecret "b", .setRequestTokenVerifier "v"]
          sampleSession) ∧
      replyPairs "oauth_token=a1&oauth_token_secret=b1&OAUTH_TOKEN=" =
        [("oauth_token", "a1"), ("oauth_token_secret", "b1"), ("OAUTH_TOKEN", "")] ∧
      (accessTokenParam
        ⟨{ sampleSession with accessToken := "a1" }, [], []⟩ "OAUTH_TOKEN=").state.accessToken
          = "" ∧
      (obtainAccessToken plainCollab "oauth_token=a1&oauth_token_secret=b1&OAUTH_TOKEN=" true
        (runOps plainCollab
          [.setRequestToken "a", .setRequestTokenSecret "b", .setRequestTokenVerifier "v"]
          sampleSession)).state.accessToken = "" ∧
      isAuthorized (obtainAccessToken plainCollab
        "oauth_token=a1&oauth_token_secret=b1&OAUTH_TOKEN=" true
        (runOps plainCollab
          [.setRequestToken "a", .setRequestTokenSecret "b", .setRequestTokenVerifier "v"]
          sampleSession)).state = false ∧
      (runOps plainCollab
          [.setRequestToken "a", .setRequestTokenSecret "b", .setRequestTokenVerifier "v"]
          sampleSession).accessFailed = false ∧
      (obtainAccessToken plainCollab "oauth_token=a1&oauth_token_secret=b1&OAUTH_TOKEN=" true
        (runOps plainCollab
          [.setRequestToken "a", .setRequestTokenSecret "b", .setRequestTokenVerifier "v"]
          sampleSession)).state.accessFailed = true := by
  decide


/-! ## C5: missing configuration fails before the network -/

theorem get_notReady (L : Collab) (reply uri query : String) (s : State)
    (h : s.apiURL = "" ∨ s.consumerKey = "" ∨ s.consumerSecret = "" ∨ s.accessToken = "" ∨
      s.accessTokenSecret = "") :
    (get L reply uri query s).value = "" ∧ noNetwork (get L reply uri query s).events ∧
      (get L reply uri query s).state = s := by
  unfold get
  split_ifs <;> first
    | (refine ⟨rfl, ?_, rfl⟩; intro e he; simp at he; subst he; rfl)
    | (exfalso; rcases h with h | h | h | h | h <;> contradiction)

theorem post_notReady (L : Collab) (reply uri query : String) (s : State)
    (h : s.apiURL = "" ∨ s.consumerKey = "" ∨ s.consumerSecret = "" ∨ s.accessToken = "" ∨
      s.accessTokenSecret = "") :
    (post L reply uri query s).value = "" ∧ noNetwork (post L reply uri query s).events ∧
      (post L reply uri query s).state = { s with httpMethod := .OFX_HTTP_POST } := by
  unfold post
  simp only
  split_ifs <;> first
    | (refine ⟨rfl, ?_, rfl⟩; intro e he; simp at he; subst he; rfl)
    | (exfalso; rcases h with h | h | h | h | h <;> contradiction)

/-- C5: when a required field is empty the operation returns its empty failure value and
makes no network request: get and post return "" if apiURL, consumerKey, consumerSecret,
accessToken or accessTokenSecret is empty; obtainRequestToken returns the empty map if
requestTokenURL, consumerKey or consumerSecret is empty; obtainAccessToken returns the
empty map if accessTokenURL, consumerKey, consumerSecret, requestToken, requestTokenSecret
or requestTokenVerifier is empty. -/
theorem C5_missing_field_fails_fast (L : Collab) (reply uri query : String) (saveOk : Bool)
    (s : State) :
    ((s.apiURL = "" ∨ s.consumerKey = "" ∨ s.consumerSecret = "" ∨ s.accessToken = "" ∨
        s.accessTokenSecret = "") →
      ((get L reply uri query s).value = "" ∧ noNetwork (get L reply uri query s).events) ∧
      ((post L reply uri query s).value = "" ∧ noNetwork (post L reply uri query s).events)) ∧
    ((s.requestTokenURL = "" ∨ s.consumerKey = "" ∨ s.consumerSecret = "") →
      (obtainRequestToken L reply s).value = [] ∧
        noNetwork (obtainRequestToken L reply s).events) ∧
    ((s.accessTokenURL = "" ∨ s.consumerKey = "" ∨ s.consumerSecret = "" ∨
        s.requestToken = "" ∨ s.requestTokenSecret = "" ∨ s.requestTokenVerifier = "") →
      (obtainAccessToken L reply saveOk s).value = [] ∧
        noNetwork (obtainAccessToken L reply saveOk s).events) := by
  refine ⟨?_, ?_, ?_⟩
  · intro h
    exact ⟨⟨(get_notReady L reply uri query s h).1, (get_notReady L reply uri query s h).2.1⟩,
      ⟨(post_notReady L reply uri query s h).1, (post_notReady L reply uri query s h).2.1⟩⟩
  · intro h
    have hn : ¬ requestTokenReady s := by
      unfold requestTokenReady
      intro hc
      rcases h with h | h | h
      · exact hc.1 h
      · exact hc.2.1 h
      · exact hc.2.2 h
    exact (obtainRequestToken_notReady L reply s hn).2
  · intro h
    have hn : ¬ accessTokenReady s := by
      unfold accessTokenReady
      intro hc
      rcases h with h | h | h | h | h | h
      · exact hc.1 h
      · exact hc.2.1 h
      · exact hc.2.2.1 h
      · exact hc.2.2.2.1 h
      · exact hc.2.2.2.2.1 h
      · exact hc.2.2.2.2.2 h
    exact (obtainAccessToken_notReady L reply saveOk s hn).2

/-- C5 at concrete inputs: the sample session holds no access token and no request token,
so get, post and obtainAccessToken fail fast; the freshly constructed session has no
request token URL, so obtainRequestToken does; this although the network would answer. -/
theorem C5_missing_field_fails_fast_witness :
    ((get plainCollab "body" "/x" "q=1" sampleSession).value = "" ∧
        noNetwork (get plainCollab "body" "/x" "q=1" sampleSession).events) ∧
      ((post plainCollab "body" "/x" "q=1" sampleSession).value = "" ∧
        noNetwork (post plainCollab "body" "/x" "q=1" sampleSession).events) ∧
      ((obtainRequestToken plainCollab "oauth_token=a&oauth_token_secret=b"
          (freshSession plainCollab none)).value = [] ∧
        noNetwork (obtainRequestToken plainCollab "oauth_token=a&oauth_token_secret=b"
          (freshSession plainCollab none)).events) ∧
      ((obtainAccessToken plainCollab "oauth_token=a&oauth_token_secret=b" true
          sampleSession).value = [] ∧
        noNetwork (obtainAccessToken plainCollab "oauth_token=a&oauth_token_secret=b" true
          sampleSession).events) :=
  ⟨((C5_missing_field_fails_fast plainCollab "body" "/x" "q=1" true sampleSession).1
      (by decide)).1,
    ((C5_missing_field_fails_fast plainCollab "body" "/x" "q=1" true sampleSession).1
      (by decide)).2,
    (C5_missing_field_fails_fast plainCollab "oauth_token=a&oauth_token_secret=b" "" "" true
      (freshSession plainCollab none)).2.1 (by decide),
    (C5_missing_field_fails_fast plainCollab "oauth_token=a&oauth_token_secret=b" "" "" true
      sampleSession).2.2 (by decide)⟩

/-! ## C6: the verifier is accepted only for the request token on record -/

/-- C6: the two-argument setRequestTokenVerifier(t, v) sets requestTokenVerifier to v and
changes nothing else when t is the request token on record, and leaves the whole session
state unchanged when t differs from it. -/
theorem C6_verifier_needs_matching_token (s : State) (t v : String) :
    (t = s.requestToken →
      (setRequestTokenVerifier2 t v s).state = { s with requestTokenVerifier := v }) ∧
    (t ≠ s.requestToken → (setRequestTokenVerifier2 t v s).state = s) := by
  unfold setRequestTokenVerifier2 setRequestTokenVerifier
  constructor
  · intro h
    rw [if_pos h]
  · intro h
    rw [if_neg h]

/-- C6 at the specification's example: with request token "abc" on record, ("abc", "111")
sets the verifier to "111"; with request token "different" on record the state, and so the
verifier, stays as it was. -/
theorem C6_verifier_needs_matching_token_witness :
    (setRequestTokenVerifier2 "abc" "111"
        (setRequestToken "abc" sampleSession)).state.requestTokenVerifier = "111" ∧
      (setRequestTokenVerifier2 "abc" "111" (setRequestToken "different" sampleSession)).state =
        setRequestToken "different" sampleSession :=
  ⟨by
      rw [(C6_verifier_needs_matching_token (setRequestToken "abc" sampleSession) "abc" "111").1
        (by decide)],
    (C6_verifier_needs_matching_token (setRequestToken "different" sampleSession) "abc"
      "111").2 (by decide)⟩


/-! ## What the operations leave alone -/

theorem get_state (L : Collab) (reply uri query : String) (s : State) :
    (get L reply uri query s).state = s := by
  unfold get
  split_ifs <;> rfl

theorem post_state (L : Collab) (reply uri query : String) (s : State) :
    (post L reply uri query s).state = { s with httpMethod := .OFX_HTTP_POST } := by
  unfold post
  simp only
  split_ifs <;> rfl

theorem requestUserVerification2_state (a : String) (b : Bool) (s : State) :
    (requestUserVerification2 a b s).state = s := by
  unfold requestUserVerification2
  simp only
  split_ifs <;> rfl

theorem requestUserVerification_state (b : Bool) (s : State) :
    (requestUserVerification b s).state = s :=
  requestUserVerification2_state "" b s

theorem loadCredentials_accessFailed (L : Collab) (file : Option XmlDoc) (s : State) :
    (loadCredentials L file s).state.accessFailed = s.accessFailed := by
  unfold loadCredentials
  cases file with
  | none => rfl
  | some xml =>
    simp only
    split_ifs <;> rfl

theorem setRequestTokenVerifier2_frame (t v : String) (s : State) :
    (setRequestTokenVerifier2 t v s).state = s ∨
      (setRequestTokenVerifier2 t v s).state = { s with requestTokenVerifier := v } := by
  unfold setRequestTokenVerifier2 setRequestTokenVerifier
  split_ifs
  · exact Or.inr rfl
  · exact Or.inl rfl

theorem receivedVerifierCallbackGetParams_frame (c : NameValueCollection) (s : State) :
    (receivedVerifierCallbackGetParams c s).state = s ∨
      (receivedVerifierCallbackGetParams c s).state =
        { s with requestTokenVerifier := nvcGet c "oauth_verifier" } := by
  unfold receivedVerifierCallbackGetParams
  split_ifs
  · exact setRequestTokenVerifier2_frame _ _ s
  · exact Or.inl rfl

theorem obtainRequestToken_accessFailed (L : Collab) (reply : String) (s : State)
    (h : s.accessFailed = true) : (obtainRequestToken L reply s).state.accessFailed = true := by
  by_cases hr : requestTokenReady s
  · rw [obtainRequestToken_state L reply s hr]
    simp [h]
  · rw [(obtainRequestToken_notReady L reply s hr).1]
    exact h

theorem obtainAccessToken_accessFailed (L : Collab) (reply : String) (saveOk : Bool)
    (s : State) (h : s.accessFailed = true) :
    (obtainAccessToken L reply saveOk s).state.accessFailed = true := by
  by_cases hr : accessTokenReady s
  · rw [obtainAccessToken_state L reply saveOk s hr]
    simp [h]
  · rw [(obtainAccessToken_notReady L reply saveOk s hr).1]
    exact h

theorem update_of_accessFailed (L : Collab) (reply : String) (saveOk : Bool) (s : State)
    (h : s.accessFailed = true) :
    (update L reply saveOk s).state = { s with accessFailedReported := true } ∧
      noNetwork (update L reply saveOk s).events := by
  unfold update
  rw [if_pos h]
  split_ifs with hr
  · refine ⟨rfl, ?_⟩
    intro e he
    simp at he
    subst he
    rfl
  · have hr2 : s.accessFailedReported = true := by simpa using hr
    refine ⟨?_, ?_⟩
    · cases s
      simp only at hr2
      simp [hr2]
    · intro e he
      simp at he

theorem setApiURL_accessFailed (v : String) (b : Bool) (s : State) :
    (setApiURL v b s).accessFailed = s.accessFailed := by
  unfold setApiURL
  simp only
  split_ifs <;> rfl

theorem setup6_accessFailed (L : Collab) (file : Option XmlDoc) (a r t z k c : String)
    (s : State) : (setup6 L file a r t z k c s).state.accessFailed = s.accessFailed := by
  unfold setup6
  rw [loadCredentials_accessFailed]
  simp only [setConsumerSecret, setConsumerKey, setAuthorizationURL, setAccessTokenURL,
    setRequestTokenURL, setApiURL_accessFailed]

theorem setup3_accessFailed (L : Collab) (file : Option XmlDoc) (a k c : String)
    (s : State) : (setup3 L file a k c s).state.accessFailed = s.accessFailed := by
  unfold setup3
  rw [loadCredentials_accessFailed]
  simp only [setConsumerSecret, setConsumerKey, setApiURL_accessFailed]

/-! ## C7: accessFailed is sticky -/

/-- C7: once accessFailed is set, every operation other than resetErrors (the tick, the
token exchanges, get, post, both setup overloads, every setter, the verifier callbacks,
loadCredentials, saveCredentials, under every answer of the outside world) leaves it
set, and resetErrors clears it. -/
theorem C7_accessFailed_sticky (L : Collab) (op : Op) (s : State)
    (h : s.accessFailed = true) :
    (op ≠ .resetErrors → (op.run L s).accessFailed = true) ∧
      ((Op.resetErrors).run L s).accessFailed = false := by
  refine ⟨?_, rfl⟩
  intro hop
  cases op with
  | update reply saveOk =>
    show (update L reply saveOk s).state.accessFailed = true
    rw [(update_of_accessFailed L reply saveOk s h).1]
    exact h
  | obtainRequestToken reply => exact obtainRequestToken_accessFailed L reply s h
  | obtainAccessToken reply saveOk => exact obtainAccessToken_accessFailed L reply saveOk s h
  | get reply uri query =>
    show (get L reply uri query s).state.accessFailed = true
    rw [get_state]
    exact h
  | post reply uri query =>
    show (post L reply uri query s).state.accessFailed = true
    rw [post_state]
    exact h
  | requestUserVerification b =>
    show (requestUserVerification b s).state.accessFailed = true
    rw [requestUserVerification_state]
    exact h
  | requestUserVerification2 a b =>
    show (requestUserVerification2 a b s).state.accessFailed = true
    rw [requestUserVerification2_state]
    exact h
  | setup6 file a r t z k c =>
    show (setup6 L file a r t z k c s).state.accessFailed = true
    rw [setup6_accessFailed]
    exact h
  | setup3 file a k c =>
    show (setup3 L file a k c s).state.accessFailed = true
    rw [setup3_accessFailed]
    exact h
  | setApiURL v b =>
    show (setApiURL v b s).accessFailed = true
    rw [setApiURL_accessFailed]
    exact h
  | setRequestTokenVerifier2 t v =>
    show (setRequestTokenVerifier2 t v s).state.accessFailed = true
    rcases setRequestTokenVerifier2_frame t v s with e | e <;> rw [e] <;> exact h
  | receivedVerifierCallbackGetParams c =>
    show (receivedVerifierCallbackGetParams c s).state.accessFailed = true
    rcases receivedVerifierCallbackGetParams_frame c s with e | e <;> rw [e] <;> exact h
  | loadCredentials file =>
    show (loadCredentials L file s).state.accessFailed = true
    rw [loadCredentials_accessFailed]
    exact h
  | resetErrors => exact absurd rfl hop
  | _ => exact h

/-- C7 on the sample session after a failed request-token exchange: a tick that would be
answered with a complete reply leaves accessFailed set, and resetErrors clears it. -/
theorem C7_accessFailed_sticky_witness :
    ((Op.update "oauth_token=a&oauth_token_secret=b" true).run plainCollab
        (obtainRequestToken plainCollab "oauth_problem=token_rejected"
          sampleSession).state).accessFailed = true ∧
      ((Op.resetErrors).run plainCollab
        (obtainRequestToken plainCollab "oauth_problem=token_rejected"
          sampleSession).state).accessFailed = false :=
  ⟨(C7_accessFailed_sticky plainCollab (.update "oauth_token=a&oauth_token_secret=b" true)
      (obtainRequestToken plainCollab "oauth_problem=token_rejected" sampleSession).state
      (by decide)).1 (by decide),
    (C7_accessFailed_sticky plainCollab .resetErrors
      (obtainRequestToken plainCollab "oauth_problem=token_rejected" sampleSession).state
      (by decide)).2⟩


/-! ## The tick, branch by branch -/

theorem stopListener_state (s : State) :
    (stopListener s).state = { s with verifierCallbackServer := none } := by
  unfold stopListener
  split_ifs with h
  · rfl
  · have h2 : s.verifierCallbackServer = none := by simpa using h
    cases s
    simp only at h2
    simp [h2]

theorem startListener_fields (L : Collab) (s : State) :
    (startListener L s).state.accessFailed = s.accessFailed ∧
      (startListener L s).state.accessToken = s.accessToken ∧
      (startListener L s).state.accessTokenSecret = s.accessTokenSecret ∧
      (startListener L s).state.requestTokenVerifier = s.requestTokenVerifier := by
  unfold startListener
  split_ifs <;> exact ⟨rfl, rfl, rfl, rfl⟩

theorem obtainRequestToken_fields (L : Collab) (reply : String) (s : State) :
    (obtainRequestToken L reply s).state.accessToken = s.accessToken ∧
      (obtainRequestToken L reply s).state.accessTokenSecret = s.accessTokenSecret ∧
      (obtainRequestToken L reply s).state.requestTokenVerifier = s.requestTokenVerifier ∧
      (obtainRequestToken L reply s).state.verifierCallbackServer =
        s.verifierCallbackServer ∧
      ((obtainRequestToken L reply s).state.accessFailed = false → s.accessFailed = false) := by
  by_cases hr : requestTokenReady s
  · rw [obtainRequestToken_state L reply s hr]
    refine ⟨rfl, rfl, rfl, rfl, ?_⟩
    intro h
    simp only [Bool.or_eq_false_iff] at h
    exact h.1
  · rw [(obtainRequestToken_notReady L reply s hr).1]
    exact ⟨rfl, rfl, rfl, rfl, fun h => h⟩

theorem obtainAccessToken_fields (L : Collab) (reply : String) (saveOk : Bool) (s : State) :
    (obtainAccessToken L reply saveOk s).state.requestTokenVerifier = s.requestTokenVerifier ∧
      (obtainAccessToken L reply saveOk s).state.verifierCallbackServer =
        s.verifierCallbackServer ∧
      ((obtainAccessToken L reply saveOk s).state.accessFailed = false →
        s.accessFailed = false ∧
          (((obtainAccessToken L reply saveOk s).state.accessToken ≠ "" ∧
              (obtainAccessToken L reply saveOk s).state.accessTokenSecret ≠ "") ∨
            ((obtainAccessToken L reply saveOk s).state.accessToken = s.accessToken ∧
              (obtainAccessToken L reply saveOk s).state.accessTokenSecret =
                s.accessTokenSecret))) := by
  by_cases hr : accessTokenReady s
  · rw [obtainAccessToken_state L reply saveOk s hr]
    refine ⟨rfl, rfl, ?_⟩
    intro h
    simp only [Bool.or_eq_false_iff, decide_eq_false_iff_not] at h
    exact ⟨h.1, Or.inl ⟨h.2.2, h.2.1⟩⟩
  · rw [(obtainAccessToken_notReady L reply saveOk s hr).1]
    exact ⟨rfl, rfl, fun h => ⟨h, Or.inr ⟨rfl, rfl⟩⟩⟩

/-- The five ways a tick can go. -/
theorem update_branches (L : Collab) (reply : String) (saveOk : Bool) (s : State) :
    (s.accessFailed = true ∧
      (update L reply saveOk s).state = { s with accessFailedReported := true }) ∨
    (s.accessFailed = false ∧ s.accessToken ≠ "" ∧ s.accessTokenSecret ≠ "" ∧
      (update L reply saveOk s).state = { s with verifierCallbackServer := none }) ∨
    (s.accessFailed = false ∧ (s.accessToken = "" ∨ s.accessTokenSecret = "") ∧
      s.requestTokenVerifier = "" ∧ s.requestToken = "" ∧
      (update L reply saveOk s).state =
        (obtainRequestToken L reply (startListener L s).state).state) ∨
    (s.accessFailed = false ∧ (s.accessToken = "" ∨ s.accessTokenSecret = "") ∧
      s.requestTokenVerifier = "" ∧ s.requestToken ≠ "" ∧
      (update L reply saveOk s).state = { s with verificationRequested := true }) ∨
    (s.accessFailed = false ∧ (s.accessToken = "" ∨ s.accessTokenSecret = "") ∧
      s.requestTokenVerifier ≠ "" ∧
      (update L reply saveOk s).state =
        (obtainAccessToken L reply saveOk
          { s with verificationRequested := false, verifierCallbackServer := none }).state) := by
  by_cases hf : s.accessFailed = true
  · exact Or.inl ⟨hf, (update_of_accessFailed L reply saveOk s hf).1⟩
  · have hf2 : s.accessFailed = false := by simpa using hf
    right
    unfold update
    rw [if_neg hf]
    by_cases ha : s.accessToken = "" ∨ s.accessTokenSecret = ""
    · rw [if_pos ha]
      right
      by_cases hv : s.requestTokenVerifier = ""
      · rw [if_pos hv]
        by_cases ht : s.requestToken = ""
        · rw [if_pos ht]
          exact Or.inl ⟨hf2, ha, hv, ht, rfl⟩
        · rw [if_neg ht]
          right; left
          refine ⟨hf2, ha, hv, ht, ?_⟩
          split_ifs with hq
          · simp only [requestUserVerification_state]
          · have hq2 : s.verificationRequested = true := by simpa using hq
            cases s
            simp only at hq2
            simp [hq2]
      · rw [if_neg hv]
        right; right
        refine ⟨hf2, ha, hv, ?_⟩
        simp only [hf2, Bool.not_false, if_true]
        rw [stopListener_state]
    · rw [if_neg ha]
      left
      have ha2 : s.accessToken ≠ "" ∧ s.accessTokenSecret ≠ "" := by
        constructor
        · intro hc; exact ha (Or.inl hc)
        · intro hc; exact ha (Or.inr hc)
      exact ⟨hf2, ha2.1, ha2.2, stopListener_state s⟩


/-! ## Runs -/

theorem runOps_cons (L : Collab) (op : Op) (ops : List Op) (s : State) :
    runOps L (op :: ops) s = runOps L ops (op.run L s) := rfl

theorem runOps_preserves (L : Collab) (P : State → Prop) (Q : Op → Prop)
    (step : ∀ op s, Q op → P s → P (op.run L s)) (ops : List Op) (s : State)
    (hops : ∀ op ∈ ops, Q op) (hs : P s) : P (runOps L ops s) := by
  induction ops generalizing s with
  | nil => exact hs
  | cons op rest ih =>
    rw [runOps_cons]
    apply ih
    · intro o ho
      exact hops o (List.mem_cons_of_mem _ ho)
    · exact step op s (hops op (List.mem_cons_self _ _)) hs

theorem loadCredentials_fields (L : Collab) (file : Option XmlDoc) (s : State) :
    (loadCredentials L file s).state.verifierCallbackServer = s.verifierCallbackServer ∧
      (((loadCredentials L file s).state.accessToken = s.accessToken ∧
          (loadCredentials L file s).state.accessTokenSecret = s.accessTokenSecret) ∨
        ((loadCredentials L file s).state.accessToken ≠ "" ∧
          (loadCredentials L file s).state.accessTokenSecret ≠ "")) := by
  unfold loadCredentials
  cases file with
  | none => exact ⟨rfl, Or.inl ⟨rfl, rfl⟩⟩
  | some xml =>
    simp only
    split_ifs with h1 h2
    · exact ⟨rfl, Or.inl ⟨rfl, rfl⟩⟩
    · exact ⟨rfl, Or.inl ⟨rfl, rfl⟩⟩
    · refine ⟨rfl, Or.inr ⟨?_, ?_⟩⟩
      · intro hc; exact h2 (Or.inl hc)
      · intro hc; exact h2 (Or.inr hc)

theorem setApiURL_fields (v : String) (b : Bool) (s : State) :
    (setApiURL v b s).verifierCallbackServer = s.verifierCallbackServer ∧
      (setApiURL v b s).accessToken = s.accessToken ∧
      (setApiURL v b s).accessTokenSecret = s.accessTokenSecret := by
  unfold setApiURL
  simp only
  split_ifs <;> exact ⟨rfl, rfl, rfl⟩

/-- What holds when the flow starts: no failure, a matched access pair, no listener. -/
theorem configuration_keeps (L : Collab) (op : Op) (s : State)
    (hop : op.isConfiguration = true)
    (hs : s.accessFailed = false ∧ accessPairMatched s ∧ s.verifierCallbackServer = none) :
    (op.run L s).accessFailed = false ∧ accessPairMatched (op.run L s) ∧
      (op.run L s).verifierCallbackServer = none := by
  obtain ⟨h1, h2, h3⟩ := hs
  cases op with
  | setup6 file a r t z k c =>
    show (setup6 L file a r t z k c s).state.accessFailed = false ∧
      accessPairMatched (setup6 L file a r t z k c s).state ∧
      (setup6 L file a r t z k c s).state.verifierCallbackServer = none
    refine ⟨by rw [setup6_accessFailed]; exact h1, ?_, ?_⟩
    · unfold setup6
      rcases (loadCredentials_fields L file _).2 with ⟨e1, e2⟩ | ⟨e1, e2⟩
      · unfold accessPairMatched
        rw [e1, e2]
        simp only [setConsumerSecret, setConsumerKey, setAuthorizationURL, setAccessTokenURL,
          setRequestTokenURL, (setApiURL_fields _ _ _).2.1, (setApiURL_fields _ _ _).2.2]
        exact h2
      · exact Or.inr ⟨e1, e2⟩
    · unfold setup6
      rw [(loadCredentials_fields L file _).1]
      simp only [setConsumerSecret, setConsumerKey, setAuthorizationURL, setAccessTokenURL,
        setRequestTokenURL, (setApiURL_fields _ _ _).1]
      exact h3
  | setup3 file a k c =>
    show (setup3 L file a k c s).state.accessFailed = false ∧
      accessPairMatched (setup3 L file a k c s).state ∧
      (setup3 L file a k c s).state.verifierCallbackServer = none
    refine ⟨by rw [setup3_accessFailed]; exact h1, ?_, ?_⟩
    · unfold setup3
      rcases (loadCredentials_fields L file _).2 with ⟨e1, e2⟩ | ⟨e1, e2⟩
      · unfold accessPairMatched
        rw [e1, e2]
        simp only [setConsumerSecret, setConsumerKey, (setApiURL_fields _ _ _).2.1,
          (setApiURL_fields _ _ _).2.2]
        exact h2
      · exact Or.inr ⟨e1, e2⟩
    · unfold setup3
      rw [(loadCredentials_fields L file _).1]
      simp only [setConsumerSecret, setConsumerKey, (setApiURL_fields _ _ _).1]
      exact h3
  | setApiURL v b =>
    show (setApiURL v b s).accessFailed = false ∧ accessPairMatched (setApiURL v b s) ∧
      (setApiURL v b s).verifierCallbackServer = none
    refine ⟨by rw [setApiURL_accessFailed]; exact h1, ?_, ?_⟩
    · unfold accessPairMatched
      rw [(setApiURL_fields _ _ _).2.1, (setApiURL_fields _ _ _).2.2]
      exact h2
    · rw [(setApiURL_fields _ _ _).1]
      exact h3
  | setRequestTokenURL v => exact ⟨h1, h2, h3⟩
  | setAccessTokenURL v => exact ⟨h1, h2, h3⟩
  | setAuthorizationURL v => exact ⟨h1, h2, h3⟩
  | setVerifierCallbackURL v => exact ⟨h1, h2, h3⟩
  | setApplicationDisplayName v => exact ⟨h1, h2, h3⟩
  | setApplicationScope v => exact ⟨h1, h2, h3⟩
  | setVerifierCallbackServerDocRoot v => exact ⟨h1, h2, h3⟩
  | setVerifierCallbackServerPort v => exact ⟨h1, h2, h3⟩
  | setEnableVerifierCallbackServer v => exact ⟨h1, h2, h3⟩
  | setConsumerKey v => exact ⟨h1, h2, h3⟩
  | setConsumerSecret v => exact ⟨h1, h2, h3⟩
  | setApiName v => exact ⟨h1, h2, h3⟩
  | setRealm v => exact ⟨h1, h2, h3⟩
  | setCredentialsPathname v => exact ⟨h1, h2, h3⟩
  | setOAuthMethod v => exact ⟨h1, h2, h3⟩
  | setSSLCACertificateFile v => exact ⟨h1, h2, h3⟩
  | _ => simp [Op.isConfiguration] at hop

theorem configured_start (L : Collab) (v : Option String) (cfg : List Op)
    (hcfg : ∀ op ∈ cfg, op.isConfiguration = true) :
    (runOps L cfg (freshSession L v)).accessFailed = false ∧
      accessPairMatched (runOps L cfg (freshSession L v)) ∧
      (runOps L cfg (freshSession L v)).verifierCallbackServer = none := by
  apply runOps_preserves L
    (fun s => s.accessFailed = false ∧ accessPairMatched s ∧ s.verifierCallbackServer = none)
    (fun op => op.isConfiguration = true) (configuration_keeps L) cfg _ hcfg
  exact ⟨rfl, Or.inl ⟨rfl, rfl⟩, rfl⟩

theorem verifierDelivery_frame (L : Collab) (op : Op) (s : State)
    (hop : op.isVerifierDelivery = true) :
    ∃ v, op.run L s = s ∨ op.run L s = { s with requestTokenVerifier := v } := by
  cases op with
  | setRequestTokenVerifier v => exact ⟨v, Or.inr rfl⟩
  | setRequestTokenVerifier2 t v => exact ⟨v, setRequestTokenVerifier2_frame t v s⟩
  | receivedVerifierCallbackGetParams c =>
    exact ⟨_, receivedVerifierCallbackGetParams_frame c s⟩
  | _ => simp [Op.isVerifierDelivery] at hop


/-! ## C8: never failed and authorized at once -/

theorem obtainAccessToken_failure_cause (L : Collab) (reply : String) (saveOk : Bool)
    (s : State) (h : s.accessFailed = false)
    (hf : (obtainAccessToken L reply saveOk s).state.accessFailed = true) :
    (obtainAccessToken L reply saveOk s).state.accessToken = "" ∨
      (obtainAccessToken L reply saveOk s).state.accessTokenSecret = "" := by
  by_cases hr : accessTokenReady s
  · rw [obtainAccessToken_state L reply saveOk s hr] at hf ⊢
    simp only [h, Bool.false_or, Bool.or_eq_true, decide_eq_true_eq] at hf
    rcases hf with hf | hf
    · exact Or.inr hf
    · exact Or.inl hf
  · rw [(obtainAccessToken_notReady L reply saveOk s hr).1] at hf
    rw [h] at hf
    exact absurd hf Bool.false_ne_true

theorem isAuthorized_false_of_empty (s : State)
    (h : s.accessToken = "" ∨ s.accessTokenSecret = "") : isAuthorized s = false := by
  unfold isAuthorized
  rcases h with h | h <;> simp [h]

theorem update_keeps_notFailedAndAuthorized (L : Collab) (reply : String) (saveOk : Bool)
    (s : State) (hs : notFailedAndAuthorized s) :
    notFailedAndAuthorized (update L reply saveOk s).state := by
  unfold notFailedAndAuthorized at hs ⊢
  rcases update_branches L reply saveOk s with
    ⟨hf, e⟩ | ⟨hf, _, _, e⟩ | ⟨hf, ha, _, _, e⟩ | ⟨hf, _, _, _, e⟩ | ⟨hf, _, _, e⟩
  · rw [e]
    intro hc
    exact hs ⟨hf, hc.2⟩
  · rw [e]
    intro hc
    have h1 := hc.1
    simp only [hf] at h1
    exact absurd h1 Bool.false_ne_true
  · rw [e]
    intro hc
    have hx := obtainRequestToken_fields L reply (startListener L s).state
    have hy := startListener_fields L s
    have ha2 : isAuthorized (obtainRequestToken L reply (startListener L s).state).state
        = false := by
      apply isAuthorized_false_of_empty
      rw [hx.1, hx.2.1, hy.2.1, hy.2.2.1]
      exact ha
    rw [ha2] at hc
    exact absurd hc.2 Bool.false_ne_true
  · rw [e]
    intro hc
    have h1 := hc.1
    simp only [hf] at h1
    exact absurd h1 Bool.false_ne_true
  · rw [e]
    intro hc
    have hcause := obtainAccessToken_failure_cause L reply saveOk
      { s with verificationRequested := false, verifierCallbackServer := none } hf hc.1
    rw [isAuthorized_false_of_empty _ hcause] at hc
    exact absurd hc.2 Bool.false_ne_true

theorem tickFlow_keeps_notFailedAndAuthorized (L : Collab) (op : Op) (s : State)
    (hop : op.isTickFlow = true) (hs : notFailedAndAuthorized s) :
    notFailedAndAuthorized (op.run L s) := by
  by_cases hd : op.isVerifierDelivery = true
  · obtain ⟨v, e | e⟩ := verifierDelivery_frame L op s hd
    · rw [e]; exact hs
    · rw [e]; exact hs
  · cases op with
    | update reply saveOk => exact update_keeps_notFailedAndAuthorized L reply saveOk s hs
    | resetErrors =>
      unfold notFailedAndAuthorized
      intro hc
      exact absurd hc.1 Bool.false_ne_true
    | _ => first
      | exact absurd rfl hd
      | simp [Op.isTickFlow, Op.isVerifierDelivery] at hop

theorem notFailedAndAuthorized_of_clear (s : State) (h : s.accessFailed = false) :
    notFailedAndAuthorized s := by
  unfold notFailedAndAuthorized
  intro hc
  rw [h] at hc
  exact absurd hc.1 Bool.false_ne_true

/-- C8: in every state reached from the constructed session by configuration calls and
then any sequence of update ticks (under any network reply), verifier deliveries and
resetErrors calls, accessFailed and isAuthorized() are not both true. -/
theorem C8_never_failed_and_authorized (L : Collab) (v : Option String) (cfg ops : List Op)
    (hcfg : ∀ op ∈ cfg, op.isConfiguration = true)
    (hops : ∀ op ∈ ops, op.isTickFlow = true) :
    ¬ ((sessionAfter L v cfg ops).accessFailed = true ∧
      isAuthorized (sessionAfter L v cfg ops) = true) := by
  have hstart := configured_start L v cfg hcfg
  exact runOps_preserves L notFailedAndAuthorized (fun op => op.isTickFlow = true)
    (tickFlow_keeps_notFailedAndAuthorized L) ops _ hops
    (notFailedAndAuthorized_of_clear _ hstart.1)

/-- C8 on two concrete runs of the sample configuration: a run whose access-token reply
lacks the secret ends failed and not authorized, and after resetErrors a further tick with
a reply that carries the secret ends authorized and not failed. -/
theorem C8_never_failed_and_authorized_witness :
    ((sessionAfter plainCollab none [sampleSetup]
        [.update "oauth_token=a&oauth_token_secret=b" true, .update "" true,
          .setRequestTokenVerifier2 "a" "v", .update "oauth_token=x" true]).accessFailed
          = true ∧
      isAuthorized (sessionAfter plainCollab none [sampleSetup]
        [.update "oauth_token=a&oauth_token_secret=b" true, .update "" true,
          .setRequestTokenVerifier2 "a" "v", .update "oauth_token=x" true]) = false) ∧
    ((sessionAfter plainCollab none [sampleSetup]
        [.update "oauth_token=a&oauth_token_secret=b" true, .update "" true,
          .setRequestTokenVerifier2 "a" "v", .update "oauth_token=x" true, .resetErrors,
          .update "oauth_token_secret=y" true]).accessFailed = false ∧
      isAuthorized (sessionAfter plainCollab none [sampleSetup]
        [.update "oauth_token=a&oauth_token_secret=b" true, .update "" true,
          .setRequestTokenVerifier2 "a" "v", .update "oauth_token=x" true, .resetErrors,
          .update "oauth_token_secret=y" true]) = true) :=
  ⟨⟨by decide, by
      have h := C8_never_failed_and_authorized plainCollab none [sampleSetup]
        [.update "oauth_token=a&oauth_token_secret=b" true, .update "" true,
          .setRequestTokenVerifier2 "a" "v", .update "oauth_token=x" true]
        (by decide) (by decide)
      have hf : (sessionAfter plainCollab none [sampleSetup]
        [.update "oauth_token=a&oauth_token_secret=b" true, .update "" true,
          .setRequestTokenVerifier2 "a" "v", .update "oauth_token=x" true]).accessFailed
          = true := by decide
      cases hz : isAuthorized (sessionAfter plainCollab none [sampleSetup]
        [.update "oauth_token=a&oauth_token_secret=b" true, .update "" true,
          .setRequestTokenVerifier2 "a" "v", .update "oauth_token=x" true]) with
      | false => rfl
      | true => exact absurd ⟨hf, hz⟩ h⟩,
    ⟨by
      have h := C8_never_failed_and_authorized plainCollab none [sampleSetup]
        [.update "oauth_token=a&oauth_token_secret=b" true, .update "" true,
          .setRequestTokenVerifier2 "a" "v", .update "oauth_token=x" true, .resetErrors,
          .update "oauth_token_secret=y" true]
        (by decide) (by decide)
      have hz : isAuthorized (sessionAfter plainCollab none [sampleSetup]
        [.update "oauth_token=a&oauth_token_secret=b" true, .update "" true,
          .setRequestTokenVerifier2 "a" "v", .update "oauth_token=x" true, .resetErrors,
          .update "oauth_token_secret=y" true]) = true := by decide
      cases hf : (sessionAfter plainCollab none [sampleSetup]
        [.update "oauth_token=a&oauth_token_secret=b" true, .update "" true,
          .setRequestTokenVerifier2 "a" "v", .update "oauth_token=x" true, .resetErrors,
          .update "oauth_token_secret=y" true]).accessFailed with
      | false => rfl
      | true => exact absurd ⟨hf, hz⟩ h,
      by decide⟩⟩


/-! ## C9: the access token pair -/

theorem accessPairMatched_congr (s t : State) (h1 : t.accessToken = s.accessToken)
    (h2 : t.accessTokenSecret = s.accessTokenSecret) (hs : accessPairMatched s) :
    accessPairMatched t := by
  unfold accessPairMatched at hs ⊢
  rw [h1, h2]
  exact hs

theorem obtainAccessToken_keeps_matched (L : Collab) (reply : String) (saveOk : Bool)
    (s : State) (hs : s.accessFailed = false → accessPairMatched s)
    (hf : (obtainAccessToken L reply saveOk s).state.accessFailed = false) :
    accessPairMatched (obtainAccessToken L reply saveOk s).state := by
  obtain ⟨h0, h | h⟩ := (obtainAccessToken_fields L reply saveOk s).2.2 hf
  · exact Or.inr h
  · exact accessPairMatched_congr s _ h.1 h.2 (hs h0)

theorem obtainRequestToken_keeps_matched (L : Collab) (reply : String) (s : State)
    (hs : s.accessFailed = false → accessPairMatched s)
    (hf : (obtainRequestToken L reply s).state.accessFailed = false) :
    accessPairMatched (obtainRequestToken L reply s).state := by
  have hx := obtainRequestToken_fields L reply s
  exact accessPairMatched_congr s _ hx.1 hx.2.1 (hs (hx.2.2.2.2 hf))

theorem update_keeps_matched (L : Collab) (reply : String) (saveOk : Bool) (s : State)
    (hs : s.accessFailed = false → accessPairMatched s)
    (hf : (update L reply saveOk s).state.accessFailed = false) :
    accessPairMatched (update L reply saveOk s).state := by
  rcases update_branches L reply saveOk s with
    ⟨h0, e⟩ | ⟨h0, _, _, e⟩ | ⟨h0, _, _, _, e⟩ | ⟨h0, _, _, _, e⟩ | ⟨h0, _, _, e⟩
  · rw [e] at hf
    simp only [h0] at hf
    exact absurd hf.symm Bool.false_ne_true
  · rw [e]
    exact hs h0
  · rw [e] at hf ⊢
    apply obtainRequestToken_keeps_matched L reply _ _ hf
    intro _
    have hy := startListener_fields L s
    exact accessPairMatched_congr s _ hy.2.1 hy.2.2.1 (hs h0)
  · rw [e]
    exact hs h0
  · rw [e] at hf ⊢
    apply obtainAccessToken_keeps_matched L reply saveOk _ _ hf
    intro _
    exact hs h0

theorem exchangeFlow_keeps_matched (L : Collab) (op : Op) (s : State)
    (hop : op.isExchangeFlow = true)
    (hs : s.accessFailed = false → accessPairMatched s) :
    (op.run L s).accessFailed = false → accessPairMatched (op.run L s) := by
  by_cases hd : op.isVerifierDelivery = true
  · obtain ⟨v, e | e⟩ := verifierDelivery_frame L op s hd
    · rw [e]; exact hs
    · rw [e]; exact hs
  · cases op with
    | update reply saveOk => exact update_keeps_matched L reply saveOk s hs
    | obtainRequestToken reply => exact obtainRequestToken_keeps_matched L reply s hs
    | obtainAccessToken reply saveOk =>
      exact obtainAccessToken_keeps_matched L reply saveOk s hs
    | _ => first
      | exact absurd rfl hd
      | simp [Op.isExchangeFlow, Op.isVerifierDelivery] at hop

/-- With verifier deliveries among the calls the access-token exchange can get past its
guards: in every state reached from the constructed session by configuration calls and
then update ticks, obtainRequestToken and obtainAccessToken calls and verifier
deliveries, in which accessFailed is not set, the access pair is matched. -/
theorem exchangeFlow_matched_unless_failed (L : Collab) (v : Option String)
    (cfg ops : List Op) (hcfg : ∀ op ∈ cfg, op.isConfiguration = true)
    (hops : ∀ op ∈ ops, op.isExchangeFlow = true)
    (hclear : (sessionAfter L v cfg ops).accessFailed = false) :
    accessPairMatched (sessionAfter L v cfg ops) := by
  have hstart := configured_start L v cfg hcfg
  exact runOps_preserves L (fun s => s.accessFailed = false → accessPairMatched s)
    (fun op => op.isExchangeFlow = true) (exchangeFlow_keeps_matched L) ops _ hops
    (fun _ => hstart.2.1) hclear

/-- Once a verifier has been delivered, a reply to the access-token exchange that carries
only oauth_token leaves accessToken "x" beside an empty accessTokenSecret: the session is
set up, a tick obtains the request token, a tick asks for verification, the listener
delivers the verifier, and the next tick exchanges it. -/
theorem exchangeFlow_partial_reply :
    (∀ op ∈ [sampleSetup], op.isConfiguration = true) ∧
      (∀ op ∈ [Op.update "oauth_token=a&oauth_token_secret=b" true, Op.update "" true,
          Op.receivedVerifierCallbackGetParams
            [("oauth_token", "a"), ("oauth_verifier", "v")],
          Op.update "oauth_token=x" true], op.isExchangeFlow = true) ∧
      (sessionAfter plainCollab none [sampleSetup]
        [.update "oauth_token=a&oauth_token_secret=b" true]).verifierCallbackServer ≠ none ∧
      (sessionAfter plainCollab none [sampleSetup]
        [.update "oauth_token=a&oauth_token_secret=b" true, .update "" true,
          .receivedVerifierCallbackGetParams [("oauth_token", "a"), ("oauth_verifier", "v")],
          .update "oauth_token=x" true]).accessToken = "x" ∧
      (sessionAfter plainCollab none [sampleSetup]
        [.update "oauth_token=a&oauth_token_secret=b" true, .update "" true,
          .receivedVerifierCallbackGetParams [("oauth_token", "a"), ("oauth_verifier", "v")],
          .update "oauth_token=x" true]).accessTokenSecret = "" ∧
      ¬ accessPairMatched (sessionAfter plainCollab none [sampleSetup]
        [.update "oauth_token=a&oauth_token_secret=b" true, .update "" true,
          .receivedVerifierCallbackGetParams [("oauth_token", "a"), ("oauth_verifier", "v")],
          .update "oauth_token=x" true]) := by
  decide


/-! ## C10: the callback listener -/

theorem noStart_append (a b : List Event) (ha : ∀ e ∈ a, e.isServerStart = false)
    (hb : ∀ e ∈ b, e.isServerStart = false) : ∀ e ∈ a ++ b, e.isServerStart = false := by
  intro e he
  rcases List.mem_append.mp he with h | h
  · exact ha e h
  · exact hb e h

theorem requestTokenParam_noStart (L : Collab) (acc : Out StrMap) (seg : String)
    (h : ∀ e ∈ acc.events, e.isServerStart = false) :
    ∀ e ∈ (requestTokenParam L acc seg).events, e.isServerStart = false := by
  unfold requestTokenParam
  split
  · simp only
    split_ifs <;> first
      | exact h
      | (apply noStart_append _ _ h; intro e he; simp at he; subst he; rfl)
  · apply noStart_append _ _ h
    intro e he
    simp at he
    subst he
    rfl

theorem accessTokenParam_noStart (acc : Out StrMap) (seg : String)
    (h : ∀ e ∈ acc.events, e.isServerStart = false) :
    ∀ e ∈ (accessTokenParam acc seg).events, e.isServerStart = false := by
  unfold accessTokenParam
  split
  · simp only
    split_ifs <;> first
      | exact h
      | (apply noStart_append _ _ h; intro e he; simp at he; subst he; rfl)
  · apply noStart_append _ _ h
    intro e he
    simp at he
    subst he
    rfl

theorem requestToken_fold_noStart (L : Collab) (segs : List String) (acc : Out StrMap)
    (h : ∀ e ∈ acc.events, e.isServerStart = false) :
    ∀ e ∈ (segs.foldl (requestTokenParam L) acc).events, e.isServerStart = false := by
  induction segs generalizing acc with
  | nil => exact h
  | cons x xs ih =>
    rw [List.foldl_cons]
    exact ih _ (requestTokenParam_noStart L acc x h)

theorem accessToken_fold_noStart (segs : List String) (acc : Out StrMap)
    (h : ∀ e ∈ acc.events, e.isServerStart = false) :
    ∀ e ∈ (segs.foldl accessTokenParam acc).events, e.isServerStart = false := by
  induction segs generalizing acc with
  | nil => exact h
  | cons x xs ih =>
    rw [List.foldl_cons]
    exact ih _ (accessTokenParam_noStart acc x h)

theorem requestTokenChecks_noStart (r : Out StrMap)
    (h : ∀ e ∈ r.events, e.isServerStart = false) :
    ∀ e ∈ (requestTokenChecks r).events, e.isServerStart = false := by
  unfold requestTokenChecks
  simp only
  split_ifs <;> first
    | exact h
    | (apply noStart_append _ _ h; intro e he; simp at he; subst he; rfl)
    | (apply noStart_append
       · apply noStart_append _ _ h; intro e he; simp at he; subst he; rfl
       · intro e he; simp at he; subst he; rfl)

theorem accessTokenChecks_noStart (r : Out StrMap)
    (h : ∀ e ∈ r.events, e.isServerStart = false) :
    ∀ e ∈ (accessTokenChecks r).events, e.isServerStart = false := by
  unfold accessTokenChecks
  simp only
  split_ifs <;> first
    | exact h
    | (apply noStart_append _ _ h; intro e he; simp at he; subst he; rfl)
    | (apply noStart_append
       · apply noStart_append _ _ h; intro e he; simp at he; subst he; rfl
       · intro e he; simp at he; subst he; rfl)

theorem obtainRequestToken_noStart (L : Collab) (reply : String) (s : State) :
    ∀ e ∈ (obtainRequestToken L reply s).events, e.isServerStart = false := by
  unfold obtainRequestToken
  split_ifs
  · intro e he; simp at he; subst he; rfl
  · intro e he; simp at he; subst he; rfl
  · intro e he; simp at he; subst he; rfl
  · apply requestTokenChecks_noStart
    intro e he
    simp [requestTokenRequest] at he
    rcases he with he | he <;> subst he <;> rfl
  · apply requestTokenChecks_noStart
    apply requestToken_fold_noStart
    intro e he
    simp [requestTokenRequest] at he
    rcases he with he | he <;> subst he <;> rfl

theorem saveCredentials_noStart (saveOk : Bool) (s : State) :
    ∀ e ∈ (saveCredentials saveOk s).events, e.isServerStart = false := by
  unfold saveCredentials
  intro e he
  cases saveOk <;> simp at he
  · rcases he with he | he <;> subst he <;> rfl
  · subst he; rfl

theorem obtainAccessToken_noStart (L : Collab) (reply : String) (saveOk : Bool) (s : State) :
    ∀ e ∈ (obtainAccessToken L reply saveOk s).events, e.isServerStart = false := by
  unfold obtainAccessToken
  split_ifs
  · intro e he; simp at he; subst he; rfl
  · intro e he; simp at he; subst he; rfl
  · intro e he; simp at he; subst he; rfl
  · intro e he; simp at he; subst he; rfl
  · intro e he; simp at he; subst he; rfl
  · intro e he; simp at he; subst he; rfl
  · apply noStart_append _ _ _ (saveCredentials_noStart _ _)
    apply accessTokenChecks_noStart
    intro e he
    simp [accessTokenRequest] at he
    rcases he with he | he <;> subst he <;> rfl
  · apply noStart_append _ _ _ (saveCredentials_noStart _ _)
    apply accessTokenChecks_noStart
    apply accessToken_fold_noStart
    intro e he
    simp [accessTokenRequest] at he
    rcases he with he | he <;> subst he <;> rfl

theorem update_noStart (L : Collab) (reply : String) (saveOk : Bool) (s : State)
    (h : s.verifierCallbackServer ≠ none) :
    ∀ e ∈ (update L reply saveOk s).events, e.isServerStart = false := by
  have hstart : ∀ e ∈ (startListener L s).events, e.isServerStart = false := by
    unfold startListener
    split_ifs <;> intro e he <;> simp at he
  have hstop : ∀ t : State, ∀ e ∈ (stopListener t).events, e.isServerStart = false := by
    intro t
    unfold stopListener
    split_ifs <;> intro e he <;> simp at he
    subst he
    rfl
  have hverify : ∀ e ∈ (requestUserVerification L.launchBrowserDefault s).events,
      e.isServerStart = false := by
    unfold requestUserVerification requestUserVerification2
    simp only
    split_ifs <;> intro e he <;> simp at he <;> subst he <;> rfl
  by_cases hf : s.accessFailed = true
  · unfold update
    rw [if_pos hf]
    split_ifs
    · intro e he; simp at he; subst he; rfl
    · intro e he; simp at he
  · have hf2 : s.accessFailed = false := by simpa using hf
    unfold update
    rw [if_neg hf]
    by_cases ha : s.accessToken = "" ∨ s.accessTokenSecret = ""
    · rw [if_pos ha]
      by_cases hv : s.requestTokenVerifier = ""
      · rw [if_pos hv]
        by_cases ht : s.requestToken = ""
        · rw [if_pos ht]
          exact noStart_append _ _ hstart (obtainRequestToken_noStart _ _ _)
        · rw [if_neg ht]
          by_cases hq : (!s.verificationRequested) = true
          · rw [if_pos hq]
            exact hverify
          · rw [if_neg hq]
            intro e he; simp at he
      · rw [if_neg hv]
        have hnf : (!s.accessFailed) = true := by simp [hf2]
        rw [if_pos hnf]
        exact noStart_append _ _ (hstop _) (obtainAccessToken_noStart _ _ _ _)
    · rw [if_neg ha]
      exact hstop s

theorem update_authorized_no_listener (L : Collab) (reply : String) (saveOk : Bool)
    (s : State) (hs : notFailedAndAuthorized s)
    (ha : isAuthorized (update L reply saveOk s).state = true) :
    (update L reply saveOk s).state.verifierCallbackServer = none := by
  rcases update_branches L reply saveOk s with
    ⟨hf, e⟩ | ⟨_, _, _, e⟩ | ⟨_, hn, _, _, e⟩ | ⟨_, hn, _, _, e⟩ | ⟨_, _, _, e⟩
  · rw [e] at ha
    exact absurd ⟨hf, ha⟩ hs
  · rw [e]
  · rw [e] at ha
    have hx := obtainRequestToken_fields L reply (startListener L s).state
    have hy := startListener_fields L s
    rw [isAuthorized_false_of_empty _ (by rw [hx.1, hx.2.1, hy.2.1, hy.2.2.1]; exact hn)] at ha
    exact absurd ha Bool.false_ne_true
  · rw [e] at ha
    rw [isAuthorized_false_of_empty { s with verificationRequested := true } hn] at ha
    exact absurd ha Bool.false_ne_true
  · rw [e, (obtainAccessToken_fields L reply saveOk _).2.1]

theorem update_exchange_no_listener (L : Collab) (reply : String) (saveOk : Bool)
    (s : State) (hf : s.accessFailed = false) (ha : isAuthorized s = false)
    (hv : s.requestTokenVerifier ≠ "") :
    (update L reply saveOk s).state.verifierCallbackServer = none := by
  rcases update_branches L reply saveOk s with
    ⟨h0, _⟩ | ⟨_, h1, h2, _⟩ | ⟨_, _, h3, _, _⟩ | ⟨_, _, h3, _, _⟩ | ⟨_, _, _, e⟩
  · rw [hf] at h0
    exact absurd h0 Bool.false_ne_true
  · unfold isAuthorized at ha
    simp [h1, h2] at ha
  · exact absurd h3 hv
  · exact absurd h3 hv
  · rw [e, (obtainAccessToken_fields L reply saveOk _).2.1]

/-- C10, as the code behaves: in every state reached from the constructed session by
configuration calls and then any sequence of update ticks (under any network reply),
verifier deliveries and resetErrors calls, a further tick that ends with the session
authorized ends with no callback listener (verifierCallbackServer is null), a tick that
runs the access-token exchange ends with no callback listener whether the exchange
succeeds or sets accessFailed, and a tick that finds a listener in place starts none. -/
theorem C10_listener_stopped_and_single (L : Collab) (v : Option String) (cfg ops : List Op)
    (reply : String) (saveOk : Bool)
    (hcfg : ∀ op ∈ cfg, op.isConfiguration = true)
    (hops : ∀ op ∈ ops, op.isTickFlow = true) :
    (isAuthorized (update L reply saveOk (sessionAfter L v cfg ops)).state = true →
      (update L reply saveOk (sessionAfter L v cfg ops)).state.verifierCallbackServer
        = none) ∧
    ((sessionAfter L v cfg ops).accessFailed = false →
      isAuthorized (sessionAfter L v cfg ops) = false →
      (sessionAfter L v cfg ops).requestTokenVerifier ≠ "" →
      (update L reply saveOk (sessionAfter L v cfg ops)).state.verifierCallbackServer
        = none) ∧
    ((sessionAfter L v cfg ops).verifierCallbackServer ≠ none →
      ∀ e ∈ (update L reply saveOk (sessionAfter L v cfg ops)).events,
        e.isServerStart = false) := by
  have hstart := configured_start L v cfg hcfg
  have hinv : notFailedAndAuthorized (sessionAfter L v cfg ops) :=
    runOps_preserves L notFailedAndAuthorized (fun op => op.isTickFlow = true)
      (tickFlow_keeps_notFailedAndAuthorized L) ops _ hops
      (notFailedAndAuthorized_of_clear _ hstart.1)
  exact ⟨update_authorized_no_listener L reply saveOk _ hinv,
    update_exchange_no_listener L reply saveOk _,
    update_noStart L reply saveOk _⟩

/-- C10 on a concrete run of the sample configuration: the first tick has started the
listener, the second tick finds it and starts none, and after the listener has delivered
the verifier the tick that exchanges it ends authorized with no listener. -/
theorem C10_listener_stopped_and_single_witness :
    (sessionAfter plainCollab none [sampleSetup]
        [.update "oauth_token=a&oauth_token_secret=b" true]).verifierCallbackServer ≠ none ∧
      (∀ e ∈ (update plainCollab "" true
          (sessionAfter plainCollab none [sampleSetup]
            [.update "oauth_token=a&oauth_token_secret=b" true])).events,
        e.isServerStart = false) ∧
      isAuthorized (update plainCollab "oauth_token=x&oauth_token_secret=y" true
        (sessionAfter plainCollab none [sampleSetup]
          [.update "oauth_token=a&oauth_token_secret=b" true, .update "" true,
            .receivedVerifierCallbackGetParams
              [("oauth_token", "a"), ("oauth_verifier", "v")]])).state = true ∧
      (update plainCollab "oauth_token=x&oauth_token_secret=y" true
        (sessionAfter plainCollab none [sampleSetup]
          [.update "oauth_token=a&oauth_token_secret=b" true, .update "" true,
            .receivedVerifierCallbackGetParams
              [("oauth_token", "a"), ("oauth_verifier", "v")]])).state.verifierCallbackServer
        = none :=
  ⟨by decide,
    (C10_listener_stopped_and_single plainCollab none [sampleSetup]
      [.update "oauth_token=a&oauth_token_secret=b" true] "" true (by decide)
      (by decide)).2.2 (by decide),
    by decide,
    (C10_listener_stopped_and_single plainCollab none [sampleSetup]
      [.update "oauth_token=a&oauth_token_secret=b" true, .update "" true,
        .receivedVerifierCallbackGetParams [("oauth_token", "a"), ("oauth_verifier", "v")]]
      "oauth_token=x&oauth_token_secret=y" true (by decide) (by decide)).1 (by decide)⟩

/-- C10 as stated fails: the first tick of the constructed and set-up session starts the
listener and asks for a request token; the reply carries no token, so the tick ends with
accessFailed set while the listener it started is still in place, and the ticks that
follow change nothing about that. -/
theorem C10_counterexample_listener_survives_failure :
    (∀ op ∈ [sampleSetup], op.isConfiguration = true) ∧
      (update plainCollab "oauth_problem=token_rejected" true
        (sessionAfter plainCollab none [sampleSetup] [])).state.accessFailed = true ∧
      (update plainCollab "oauth_problem=token_rejected" true
        (sessionAfter plainCollab none [sampleSetup] [])).state.verifierCallbackServer
        = some ⟨"VerifierCallbackServer/", -1, true⟩ ∧
      (sessionAfter plainCollab none [sampleSetup]
        [.update "oauth_problem=token_rejected" true, .update "" true,
          .update "" true]).accessFailed = true ∧
      (sessionAfter plainCollab none [sampleSetup]
        [.update "oauth_problem=token_rejected" true, .update "" true,
          .update "" true]).verifierCallbackServer ≠ none := by
  decide


/-! ## The query separator -/

theorem drop_take_last (l : List Char) (c : Char) (h : 1 ≤ l.length) :
    ((l ++ [c]).drop ((l ++ [c]).length - 1)).take ((l ++ [c]).length - 1) = [c] := by
  have h1 : (l ++ [c]).length - 1 = l.length := by simp
  rw [h1, List.drop_left]
  cases hl : l.length with
  | zero => omega
  | succ n => simp

theorem appendQuestionMark_of_last (u : List Char) (c : Char) (h : 1 ≤ u.length)
    (hc : c ≠ '?') :
    appendQuestionMark (String.mk (u ++ [c])) = String.mk (u ++ [c]) ++ "?" := by
  unfold appendQuestionMark substr
  have h1 : String.toList (String.mk (u ++ [c])) = u ++ [c] := rfl
  rw [h1, drop_take_last u c h]
  have h2 : String.mk (u ++ [c]) ≠ "" := by
    intro hx
    have := congrArg String.toList hx
    simp at this
  have h3 : String.mk [c] ≠ "?" := by
    intro hx
    have := congrArg String.toList hx
    simp at this
    exact hc this
  rw [if_pos ⟨h2, h3⟩]

theorem appendQuestionMark_suffix (b : String) (u : List Char) (c : Char)
    (h : 1 ≤ u.length) (hc : c ≠ '?') :
    appendQuestionMark (b ++ String.mk (u ++ [c])) = b ++ String.mk (u ++ [c]) ++ "?" := by
  have e : b ++ String.mk (u ++ [c]) = String.mk ((b.toList ++ u) ++ [c]) := by
    apply String.ext
    simp [List.append_assoc]
  rw [e]
  apply appendQuestionMark_of_last _ _ _ hc
  simp
  omega

theorem appendQuestionMark_request (b : String) :
    appendQuestionMark (b ++ "/oauth/request_token") = b ++ "/oauth/request_token" ++ "?" :=
  appendQuestionMark_suffix b "/oauth/request_toke".toList 'n' (by decide) (by decide)

theorem appendQuestionMark_access (b : String) :
    appendQuestionMark (b ++ "/oauth/access_token") = b ++ "/oauth/access_token" ++ "?" :=
  appendQuestionMark_suffix b "/oauth/access_toke".toList 'n' (by decide) (by decide)

theorem appendQuestionMark_authorize (b : String) :
    appendQuestionMark (b ++ "/oauth/authorize") = b ++ "/oauth/authorize" ++ "?" :=
  appendQuestionMark_suffix b "/oauth/authoriz".toList 'e' (by decide) (by decide)

theorem loadCredentials_urls (L : Collab) (file : Option XmlDoc) (s : State) :
    (loadCredentials L file s).state.apiURL = s.apiURL ∧
      (loadCredentials L file s).state.requestTokenURL = s.requestTokenURL ∧
      (loadCredentials L file s).state.accessTokenURL = s.accessTokenURL ∧
      (loadCredentials L file s).state.authorizationURL = s.authorizationURL := by
  unfold loadCredentials
  cases file with
  | none => exact ⟨rfl, rfl, rfl, rfl⟩
  | some xml =>
    simp only
    split_ifs <;> exact ⟨rfl, rfl, rfl, rfl⟩

theorem setApiURL_auto (b : String) (s : State) :
    (setApiURL b true s).apiURL = b ∧
      (setApiURL b true s).requestTokenURL = b ++ "/oauth/request_token" ++ "?" ∧
      (setApiURL b true s).accessTokenURL = b ++ "/oauth/access_token" ++ "?" ∧
      (setApiURL b true s).authorizationURL = b ++ "/oauth/authorize" ++ "?" := by
  unfold setApiURL setAuthorizationURL setAccessTokenURL setRequestTokenURL
  simp only [if_true]
  refine ⟨?_, appendQuestionMark_request b, appendQuestionMark_access b,
    appendQuestionMark_authorize b⟩
  first
    | rfl
    | trivial

/-! ## C11: the endpoints derived from the base URL -/

/-- C11: for every base URL b, setApiURL(b) with endpoint auto-derivation, and so the
three-argument setup, stores requestTokenURL = b + "/oauth/request_token" + "?",
accessTokenURL = b + "/oauth/access_token" + "?" and authorizationURL =
b + "/oauth/authorize" + "?", one separator each; setApiURL(b, false) stores b as apiURL
and leaves the three endpoint URLs as they were. -/
theorem C11_endpoints_derived_from_base (L : Collab) (file : Option XmlDoc)
    (b consumerKey consumerSecret : String) (s : State) :
    ((setApiURL b true s).requestTokenURL = b ++ "/oauth/request_token" ++ "?" ∧
      (setApiURL b true s).accessTokenURL = b ++ "/oauth/access_token" ++ "?" ∧
      (setApiURL b true s).authorizationURL = b ++ "/oauth/authorize" ++ "?") ∧
    ((setup3 L file b consumerKey consumerSecret s).state.requestTokenURL =
        b ++ "/oauth/request_token" ++ "?" ∧
      (setup3 L file b consumerKey consumerSecret s).state.accessTokenURL =
        b ++ "/oauth/access_token" ++ "?" ∧
      (setup3 L file b consumerKey consumerSecret s).state.authorizationURL =
        b ++ "/oauth/authorize" ++ "?") ∧
    ((setApiURL b false s).apiURL = b ∧
      (setApiURL b false s).requestTokenURL = s.requestTokenURL ∧
      (setApiURL b false s).accessTokenURL = s.accessTokenURL ∧
      (setApiURL b false s).authorizationURL = s.authorizationURL) := by
  refine ⟨(setApiURL_auto b s).2, ?_, ?_⟩
  · unfold setup3
    have hl := loadCredentials_urls L file
      (setConsumerSecret consumerSecret (setConsumerKey consumerKey
        (setApiURL b autoSetEndpointsDefault s)))
    rw [hl.2.1, hl.2.2.1, hl.2.2.2]
    simp only [setConsumerSecret, setConsumerKey, autoSetEndpointsDefault]
    exact (setApiURL_auto b s).2
  · unfold setApiURL
    simp only [Bool.false_eq_true, if_false]
    exact ⟨trivial, trivial, trivial, trivial⟩

/-! ## C12: endpoint URLs end with the separator -/

theorem endsWith_appendQuestionMark (v : String) (hv : v ≠ "") :
    endsWithQuestionMark (appendQuestionMark v) := by
  unfold appendQuestionMark endsWithQuestionMark
  split_ifs with h
  · show (v ++ "?").toList.getLast? = some '?'
    have : (v ++ "?").toList = v.toList ++ ['?'] := by simp
    rw [this, List.getLast?_append]
    rfl
  · have h2 : substr v (v.toList.length - 1) (v.toList.length - 1) = "?" := by
      by_contra hc
      exact h ⟨hv, hc⟩
    have hne : v.toList ≠ [] := by
      intro hc
      apply hv
      apply String.ext
      simpa using hc
    obtain ⟨init, x, hx⟩ : ∃ init x, v.toList = init ++ [x] := by
      rcases List.eq_nil_or_concat v.toList with hnil | ⟨init, x, hcat⟩
      · exact absurd hnil hne
      · exact ⟨init, x, by simpa using hcat⟩
    unfold substr at h2
    have h3 := congrArg String.toList h2
    rw [hx] at h3 ⊢
    have hlen : (init ++ [x]).length - 1 = init.length := by simp
    rw [hlen] at h3
    simp only [String.toList, List.drop_left] at h3
    have hx2 : x = '?' := by
      cases hi : init.length with
      | zero =>
        rw [hi] at h3
        simp at h3
      | succ n =>
        rw [hi] at h3
        simpa using h3
    rw [hx2, List.getLast?_append]
    rfl

/-- C12, as the code behaves: for every non-empty string v, after setRequestTokenURL(v),
setAccessTokenURL(v) or setAuthorizationURL(v) the stored endpoint URL ends with the
query separator '?'. -/
theorem C12_endpoint_ends_with_separator (v : String) (s : State) (hv : v ≠ "") :
    endsWithQuestionMark (setRequestTokenURL v s).requestTokenURL ∧
      endsWithQuestionMark (setAccessTokenURL v s).accessTokenURL ∧
      endsWithQuestionMark (setAuthorizationURL v s).authorizationURL :=
  ⟨endsWith_appendQuestionMark v hv, endsWith_appendQuestionMark v hv,
    endsWith_appendQuestionMark v hv⟩

/-- C12 at concrete inputs: a URL without the separator gets one, a URL that carries it
keeps it. -/
theorem C12_endpoint_ends_with_separator_witness :
    (endsWithQuestionMark
        (setRequestTokenURL "https://api.example.com/oauth/request_token"
          sampleSession).requestTokenURL ∧
      endsWithQuestionMark
        (setAccessTokenURL "https://api.example.com/oauth/request_token"
          sampleSession).accessTokenURL ∧
      endsWithQuestionMark
        (setAuthorizationURL "https://api.example.com/oauth/request_token"
          sampleSession).authorizationURL) ∧
    (setRequestTokenURL "https://api.example.com/oauth/request_token"
        sampleSession).requestTokenURL = "https://api.example.com/oauth/request_token?" ∧
    (setRequestTokenURL "https://api.example.com/r?" sampleSession).requestTokenURL =
      "https://api.example.com/r?" :=
  ⟨C12_endpoint_ends_with_separator "https://api.example.com/oauth/request_token"
      sampleSession (by decide),
    by decide, by decide⟩

/-- C12 as stated fails for the empty string: appendQuestionMark leaves an empty URL
empty, so after setRequestTokenURL(""), setAccessTokenURL("") or setAuthorizationURL("")
the stored URL is empty and does not end with '?'. -/
theorem C12_counterexample_empty_url :
    (setRequestTokenURL "" sampleSession).requestTokenURL = "" ∧
      ¬ endsWithQuestionMark (setRequestTokenURL "" sampleSession).requestTokenURL ∧
      ¬ endsWithQuestionMark (setAccessTokenURL "" sampleSession).accessTokenURL ∧
      ¬ endsWithQuestionMark (setAuthorizationURL "" sampleSession).authorizationURL := by
  decide


/-! ## C13: the realm only shapes the header -/

theorem authorizationHeader_realm (s : State) (p : String) :
    authorizationHeader s p = realmHeader s.realm p := by
  unfold authorizationHeader realmHeader
  by_cases h : s.realm = "" <;> simp [h]

theorem requestTokenParam_realm (L : Collab) (r : String) (a b : Out StrMap) (seg : String)
    (hs : a.state = { b.state with realm := r }) (hv : a.value = b.value)
    (he : a.events.map Event.dropHeader = b.events.map Event.dropHeader) :
    (requestTokenParam L a seg).state = { (requestTokenParam L b seg).state with realm := r } ∧
      (requestTokenParam L a seg).value = (requestTokenParam L b seg).value ∧
      (requestTokenParam L a seg).events.map Event.dropHeader =
        (requestTokenParam L b seg).events.map Event.dropHeader := by
  unfold requestTokenParam
  split
  · simp only
    split_ifs <;> simp [hs, hv, he, Event.dropHeader]
  · simp [hs, hv, he, Event.dropHeader]

theorem accessTokenParam_realm (r : String) (a b : Out StrMap) (seg : String)
    (hs : a.state = { b.state with realm := r }) (hv : a.value = b.value)
    (he : a.events.map Event.dropHeader = b.events.map Event.dropHeader) :
    (accessTokenParam a seg).state = { (accessTokenParam b seg).state with realm := r } ∧
      (accessTokenParam a seg).value = (accessTokenParam b seg).value ∧
      (accessTokenParam a seg).events.map Event.dropHeader =
        (accessTokenParam b seg).events.map Event.dropHeader := by
  unfold accessTokenParam
  split
  · simp only
    split_ifs <;> simp [hs, hv, he, Event.dropHeader]
  · simp [hs, hv, he, Event.dropHeader]

theorem requestToken_fold_realm (L : Collab) (r : String) (segs : List String)
    (a b : Out StrMap)
    (hs : a.state = { b.state with realm := r }) (hv : a.value = b.value)
    (he : a.events.map Event.dropHeader = b.events.map Event.dropHeader) :
    (segs.foldl (requestTokenParam L) a).state =
        { (segs.foldl (requestTokenParam L) b).state with realm := r } ∧
      (segs.foldl (requestTokenParam L) a).value =
        (segs.foldl (requestTokenParam L) b).value ∧
      (segs.foldl (requestTokenParam L) a).events.map Event.dropHeader =
        (segs.foldl (requestTokenParam L) b).events.map Event.dropHeader := by
  induction segs generalizing a b with
  | nil => exact ⟨hs, hv, he⟩
  | cons x xs ih =>
    rw [List.foldl_cons, List.foldl_cons]
    obtain ⟨h1, h2, h3⟩ := requestTokenParam_realm L r a b x hs hv he
    exact ih _ _ h1 h2 h3

theorem accessToken_fold_realm (r : String) (segs : List String) (a b : Out StrMap)
    (hs : a.state = { b.state with realm := r }) (hv : a.value = b.value)
    (he : a.events.map Event.dropHeader = b.events.map Event.dropHeader) :
    (segs.foldl accessTokenParam a).state =
        { (segs.foldl accessTokenParam b).state with realm := r } ∧
      (segs.foldl accessTokenParam a).value = (segs.foldl accessTokenParam b).value ∧
      (segs.foldl accessTokenParam a).events.map Event.dropHeader =
        (segs.foldl accessTokenParam b).events.map Event.dropHeader := by
  induction segs generalizing a b with
  | nil => exact ⟨hs, hv, he⟩
  | cons x xs ih =>
    rw [List.foldl_cons, List.foldl_cons]
    obtain ⟨h1, h2, h3⟩ := accessTokenParam_realm r a b x hs hv he
    exact ih _ _ h1 h2 h3

theorem requestTokenChecks_events (r : Out StrMap) :
    (requestTokenChecks r).events =
      r.events ++
        ((if r.state.requestTokenSecret = "" then
            [Event.log .warning "ofxOAuth::obtainRequestToken"
              "Request token secret not returned."]
          else []) ++
          (if r.state.requestToken = "" then
            [Event.log .warning "ofxOAuth::obtainRequestToken" "Request token not returned."]
          else [])) := by
  unfold requestTokenChecks
  by_cases h1 : r.state.requestTokenSecret = "" <;>
    by_cases h2 : r.state.requestToken = "" <;> simp [h1, h2]

theorem accessTokenChecks_events (r : Out StrMap) :
    (accessTokenChecks r).events =
      r.events ++
        ((if r.state.accessTokenSecret = "" then
            [Event.log .warning "ofxOAuth::obtainAccessToken"
              "Access token secret not returned."]
          else []) ++
          (if r.state.accessToken = "" then
            [Event.log .warning "ofxOAuth::obtainAccessToken" "Access token not returned."]
          else [])) := by
  unfold accessTokenChecks
  by_cases h1 : r.state.accessTokenSecret = "" <;>
    by_cases h2 : r.state.accessToken = "" <;> simp [h1, h2]

theorem requestTokenChecks_realm (r : String) (a b : Out StrMap)
    (hs : a.state = { b.state with realm := r })
    (he : a.events.map Event.dropHeader = b.events.map Event.dropHeader) :
    (requestTokenChecks a).events.map Event.dropHeader =
      (requestTokenChecks b).events.map Event.dropHeader := by
  have h1 : a.state.requestTokenSecret = b.state.requestTokenSecret := by rw [hs]
  have h2 : a.state.requestToken = b.state.requestToken := by rw [hs]
  simp only [requestTokenChecks_events, List.map_append, he, h1, h2]

theorem accessTokenChecks_realm (r : String) (a b : Out StrMap)
    (hs : a.state = { b.state with realm := r })
    (he : a.events.map Event.dropHeader = b.events.map Event.dropHeader) :
    (accessTokenChecks a).events.map Event.dropHeader =
        (accessTokenChecks b).events.map Event.dropHeader ∧
      (accessTokenChecks a).state.credentialsPathname =
        (accessTokenChecks b).state.credentialsPathname := by
  have h1 : a.state.accessTokenSecret = b.state.accessTokenSecret := by rw [hs]
  have h2 : a.state.accessToken = b.state.accessToken := by rw [hs]
  refine ⟨?_, ?_⟩
  · simp only [accessTokenChecks_events, List.map_append, he, h1, h2]
  · rw [accessTokenChecks_state, accessTokenChecks_state, hs]

theorem requestTokenParam_headers (L : Collab) (a : Out StrMap) (seg : String) :
    (requestTokenParam L a seg).events.filterMap Event.header? =
      a.events.filterMap Event.header? := by
  unfold requestTokenParam
  split
  · simp only
    split_ifs <;> simp [Event.header?]
  · simp [Event.header?]

theorem accessTokenParam_headers (a : Out StrMap) (seg : String) :
    (accessTokenParam a seg).events.filterMap Event.header? =
      a.events.filterMap Event.header? := by
  unfold accessTokenParam
  split
  · simp only
    split_ifs <;> simp [Event.header?]
  · simp [Event.header?]

theorem requestToken_fold_headers (L : Collab) (segs : List String) (a : Out StrMap) :
    (segs.foldl (requestTokenParam L) a).events.filterMap Event.header? =
      a.events.filterMap Event.header? := by
  induction segs generalizing a with
  | nil => rfl
  | cons x xs ih => rw [List.foldl_cons, ih, requestTokenParam_headers]

theorem accessToken_fold_headers (segs : List String) (a : Out StrMap) :
    (segs.foldl accessTokenParam a).events.filterMap Event.header? =
      a.events.filterMap Event.header? := by
  induction segs generalizing a with
  | nil => rfl
  | cons x xs ih => rw [List.foldl_cons, ih, accessTokenParam_headers]

theorem requestTokenChecks_headers (r : Out StrMap) :
    (requestTokenChecks r).events.filterMap Event.header? =
      r.events.filterMap Event.header? := by
  rw [requestTokenChecks_events]
  by_cases h1 : r.state.requestTokenSecret = "" <;>
    by_cases h2 : r.state.requestToken = "" <;> simp [h1, h2, Event.header?]

theorem accessTokenChecks_headers (r : Out StrMap) :
    (accessTokenChecks r).events.filterMap Event.header? =
      r.events.filterMap Event.header? := by
  rw [accessTokenChecks_events]
  by_cases h1 : r.state.accessTokenSecret = "" <;>
    by_cases h2 : r.state.accessToken = "" <;> simp [h1, h2, Event.header?]

theorem saveCredentials_headers (saveOk : Bool) (s : State) :
    (saveCredentials saveOk s).events.filterMap Event.header? = [] := by
  unfold saveCredentials
  cases saveOk <;> simp [Event.header?]

theorem saveCredentials_realm (saveOk : Bool) (s : State) (r : String) :
    (saveCredentials saveOk { s with realm := r }).events = (saveCredentials saveOk s).events :=
  rfl

theorem obtainRequestToken_events_ready (L : Collab) (reply : String) (s : State)
    (h : requestTokenReady s) :
    (obtainRequestToken L reply s).events =
      (requestTokenChecks ((ofSplitString reply '&' true).foldl (requestTokenParam L)
        ⟨s, [], requestTokenRequest L s⟩)).events := by
  rw [obtainRequestToken_ready L reply s h]

theorem obtainAccessToken_events_ready (L : Collab) (reply : String) (saveOk : Bool)
    (s : State) (h : accessTokenReady s) :
    (obtainAccessToken L reply saveOk s).events =
      (accessTokenChecks ((ofSplitString reply '&' true).foldl accessTokenParam
          ⟨s, [], accessTokenRequest L s⟩)).events ++
        (saveCredentials saveOk
          (accessTokenChecks ((ofSplitString reply '&' true).foldl accessTokenParam
            ⟨s, [], accessTokenRequest L s⟩)).state).events := by
  obtain ⟨h1, h2, h3, h4, h5, h6⟩ := h
  unfold obtainAccessToken
  rw [if_neg h1, if_neg h2, if_neg h3, if_neg h4, if_neg h5, if_neg h6]
  by_cases hr : reply = ""
  · subst hr
    simp only [if_true, ofSplitString_empty, List.foldl_nil]
  · simp only [hr, if_false]

theorem get_realm (L : Collab) (reply uri query : String) (s : State) (r : String) :
    (get L reply uri query { s with realm := r }).events.map Event.dropHeader =
      (get L reply uri query s).events.map Event.dropHeader := by
  unfold get
  simp only
  split_ifs <;> rfl

theorem post_realm (L : Collab) (reply uri query : String) (s : State) (r : String) :
    (post L reply uri query { s with realm := r }).events.map Event.dropHeader =
      (post L reply uri query s).events.map Event.dropHeader := by
  unfold post
  simp only
  split_ifs <;> rfl

theorem requestTokenReady_realm (s : State) (r : String) :
    requestTokenReady { s with realm := r } ↔ requestTokenReady s :=
  Iff.rfl

theorem accessTokenReady_realm (s : State) (r : String) :
    accessTokenReady { s with realm := r } ↔ accessTokenReady s :=
  Iff.rfl

theorem obtainRequestToken_realm (L : Collab) (reply : String) (s : State) (r : String) :
    (obtainRequestToken L reply { s with realm := r }).events.map Event.dropHeader =
      (obtainRequestToken L reply s).events.map Event.dropHeader := by
  by_cases h : requestTokenReady s
  · rw [obtainRequestToken_events_ready L reply _ ((requestTokenReady_realm s r).mpr h),
      obtainRequestToken_events_ready L reply s h]
    obtain ⟨h1, _, h3⟩ := requestToken_fold_realm L r (ofSplitString reply '&' true)
      ⟨{ s with realm := r }, [], requestTokenRequest L { s with realm := r }⟩
      ⟨s, [], requestTokenRequest L s⟩ rfl rfl rfl
    exact requestTokenChecks_realm r _ _ h1 h3
  · unfold requestTokenReady at h
    unfold obtainRequestToken
    simp only
    split_ifs <;> first
      | rfl
      | (exfalso; exact h ⟨by assumption, by assumption, by assumption⟩)

theorem obtainAccessToken_realm (L : Collab) (reply : String) (saveOk : Bool) (s : State)
    (r : String) :
    (obtainAccessToken L reply saveOk { s with realm := r }).events.map Event.dropHeader =
      (obtainAccessToken L reply saveOk s).events.map Event.dropHeader := by
  by_cases h : accessTokenReady s
  · rw [obtainAccessToken_events_ready L reply saveOk _ ((accessTokenReady_realm s r).mpr h),
      obtainAccessToken_events_ready L reply saveOk s h]
    obtain ⟨h1, _, h3⟩ := accessToken_fold_realm r (ofSplitString reply '&' true)
      ⟨{ s with realm := r }, [], accessTokenRequest L { s with realm := r }⟩
      ⟨s, [], accessTokenRequest L s⟩ rfl rfl rfl
    have hc := (accessTokenChecks_realm r _ _ h1 h3).1
    have hst : (accessTokenChecks ((ofSplitString reply '&' true).foldl accessTokenParam
          ⟨{ s with realm := r }, [], accessTokenRequest L { s with realm := r }⟩)).state =
        { (accessTokenChecks ((ofSplitString reply '&' true).foldl accessTokenParam
          ⟨s, [], accessTokenRequest L s⟩)).state with realm := r } := by
      rw [accessTokenChecks_state, accessTokenChecks_state, h1]
    rw [List.map_append, List.map_append, hc, hst, saveCredentials_realm]
  · unfold accessTokenReady at h
    unfold obtainAccessToken
    simp only
    split_ifs <;> first
      | rfl
      | (exfalso; exact h ⟨by assumption, by assumption, by assumption, by assumption,
          by assumption, by assumption⟩)

theorem get_headers (L : Collab) (reply uri query : String) (s : State) (h : apiReady s)
    (r : String) :
    (get L reply uri query { s with realm := r }).events.filterMap Event.header? =
      [realmHeader r (L.oauth_serialize_url_sep
        (L.oauth_sign_array2_process
          (L.oauth_split_url_parameters (s.apiURL ++ uri ++ "?" ++ query))
          (_getOAuthMethod s) (_getHttpMethod s) s.consumerKey s.consumerSecret
          (some s.accessToken) (some s.accessTokenSecret)) 1 ", " 6)] := by
  obtain ⟨h1, h2, h3, h4, h5⟩ := h
  unfold get
  simp only
  rw [if_neg h1, if_neg h2, if_neg h3, if_neg h4, if_neg h5]
  simp only [apiRequest, List.filterMap_cons, Event.header?, List.filterMap_nil,
    authorizationHeader_realm]
  rfl

theorem post_headers (L : Collab) (reply uri query : String) (s : State) (h : apiReady s)
    (r : String) :
    (post L reply uri query { s with realm := r }).events.filterMap Event.header? =
      [realmHeader r (L.oauth_serialize_url_sep
        (L.oauth_sign_array2_process
          (L.oauth_split_url_parameters (s.apiURL ++ uri ++ "?" ++ query))
          (_getOAuthMethod s) "POST" s.consumerKey s.consumerSecret
          (some s.accessToken) (some s.accessTokenSecret)) 1 ", " 2)] := by
  obtain ⟨h1, h2, h3, h4, h5⟩ := h
  unfold post
  simp only
  rw [if_neg h1, if_neg h2, if_neg h3, if_neg h4, if_neg h5]
  simp only [apiRequest, List.filterMap_cons, Event.header?, List.filterMap_nil,
    authorizationHeader_realm]
  rfl

theorem obtainRequestToken_headers (L : Collab) (reply : String) (s : State)
    (h : requestTokenReady s) (r : String) :
    (obtainRequestToken L reply { s with realm := r }).events.filterMap Event.header? =
      [realmHeader r (L.oauth_serialize_url_sep
        (L.oauth_sign_array2_process
          (((L.oauth_split_url_parameters s.requestTokenURL ++
              (if s.verifierCallbackURL ≠ "" then ["oauth_callback=" ++ s.verifierCallbackURL]
                else [])) ++
              (if s.applicationDisplayName ≠ "" then
                ["xoauth_displayname=" ++ s.applicationDisplayName] else [])) ++
            (if s.applicationScope ≠ "" then ["scope=" ++ s.applicationScope] else []))
          (_getOAuthMethod s) (_getHttpMethod s) s.consumerKey s.consumerSecret none none)
        1 ", " 6)] := by
  rw [obtainRequestToken_events_ready L reply _ ((requestTokenReady_realm s r).mpr h),
    requestTokenChecks_headers, requestToken_fold_headers]
  simp only [requestTokenRequest, List.filterMap_cons, Event.header?, List.filterMap_nil,
    authorizationHeader_realm]
  by_cases a : s.verifierCallbackURL = "" <;> by_cases b : s.applicationDisplayName = "" <;>
    by_cases c : s.applicationScope = "" <;> simp [a, b, c] <;> rfl

theorem obtainAccessToken_headers (L : Collab) (reply : String) (saveOk : Bool) (s : State)
    (h : accessTokenReady s) (r : String) :
    (obtainAccessToken L reply saveOk { s with realm := r }).events.filterMap Event.header? =
      [realmHeader r (L.oauth_serialize_url_sep
        (L.oauth_sign_array2_process
          (L.oauth_split_url_parameters s.accessTokenURL ++
            ["oauth_verifier=" ++ s.requestTokenVerifier])
          (_getOAuthMethod s) (_getHttpMethod s) s.consumerKey s.consumerSecret
          (some s.requestToken) (some s.requestTokenSecret)) 1 ", " 6)] := by
  rw [obtainAccessToken_events_ready L reply saveOk _ ((accessTokenReady_realm s r).mpr h),
    List.filterMap_append, saveCredentials_headers, accessTokenChecks_headers,
    accessToken_fold_headers]
  simp only [accessTokenRequest, List.filterMap_cons, Event.header?, List.filterMap_nil,
    authorizationHeader_realm, List.append_nil]
  rfl

/-- C13: the realm shapes nothing but the Authorization header.  For two sessions that
differ only in realm and the same call of get, post, obtainRequestToken or
obtainAccessToken, all effects are the same once the header is blanked out: the same
parameter array and signing arguments go to the signer and the same URL is requested.
When the guards pass, the one header sent is "Authorization: OAuth realm=\"" + realm +
"\", " + oauthParams for a non-empty realm and "Authorization: OAuth " + oauthParams for an
empty one, where oauthParams is the serialization of the signed array, which is computed
without the realm. -/
theorem C13_realm_only_in_header (L : Collab) (reply uri query : String) (saveOk : Bool)
    (s : State) (r : String) :
    ((get L reply uri query { s with realm := r }).events.map Event.dropHeader =
        (get L reply uri query s).events.map Event.dropHeader ∧
      (post L reply uri query { s with realm := r }).events.map Event.dropHeader =
        (post L reply uri query s).events.map Event.dropHeader ∧
      (obtainRequestToken L reply { s with realm := r }).events.map Event.dropHeader =
        (obtainRequestToken L reply s).events.map Event.dropHeader ∧
      (obtainAccessToken L reply saveOk { s with realm := r }).events.map Event.dropHeader =
        (obtainAccessToken L reply saveOk s).events.map Event.dropHeader) ∧
    (apiReady s →
      (get L reply uri query { s with realm := r }).events.filterMap Event.header? =
        [realmHeader r (L.oauth_serialize_url_sep
          (L.oauth_sign_array2_process
            (L.oauth_split_url_parameters (s.apiURL ++ uri ++ "?" ++ query))
            (_getOAuthMethod s) (_getHttpMethod s) s.consumerKey s.consumerSecret
            (some s.accessToken) (some s.accessTokenSecret)) 1 ", " 6)] ∧
      (post L reply uri query { s with realm := r }).events.filterMap Event.header? =
        [realmHeader r (L.oauth_serialize_url_sep
          (L.oauth_sign_array2_process
            (L.oauth_split_url_parameters (s.apiURL ++ uri ++ "?" ++ query))
            (_getOAuthMethod s) "POST" s.consumerKey s.consumerSecret
            (some s.accessToken) (some s.accessTokenSecret)) 1 ", " 2)]) ∧
    (requestTokenReady s →
      (obtainRequestToken L reply { s with realm := r }).events.filterMap Event.header? =
        [realmHeader r (L.oauth_serialize_url_sep
          (L.oauth_sign_array2_process
            (((L.oauth_split_url_parameters s.requestTokenURL ++
                (if s.verifierCallbackURL ≠ "" then
                  ["oauth_callback=" ++ s.verifierCallbackURL] else [])) ++
                (if s.applicationDisplayName ≠ "" then
                  ["xoauth_displayname=" ++ s.applicationDisplayName] else [])) ++
              (if s.applicationScope ≠ "" then ["scope=" ++ s.applicationScope] else []))
            (_getOAuthMethod s) (_getHttpMethod s) s.consumerKey s.consumerSecret none none)
          1 ", " 6)]) ∧
    (accessTokenReady s →
      (obtainAccessToken L reply saveOk { s with realm := r }).events.filterMap
          Event.header? =
        [realmHeader r (L.oauth_serialize_url_sep
          (L.oauth_sign_array2_process
            (L.oauth_split_url_parameters s.accessTokenURL ++
              ["oauth_verifier=" ++ s.requestTokenVerifier])
            (_getOAuthMethod s) (_getHttpMethod s) s.consumerKey s.consumerSecret
            (some s.requestToken) (some s.requestTokenSecret)) 1 ", " 6)]) :=
  ⟨⟨get_realm L reply uri query s r, post_realm L reply uri query s r,
      obtainRequestToken_realm L reply s r, obtainAccessToken_realm L reply saveOk s r⟩,
    fun h => ⟨get_headers L reply uri query s h r, post_headers L reply uri query s h r⟩,
    fun h => obtainRequestToken_headers L reply s h r,
    fun h => obtainAccessToken_headers L reply saveOk s h r⟩

/-- C13 on the sample session: with the realm "photos" the request-token call sends the
same signer call and the same URL as without a realm, and its header carries the realm in
front of the oauth parameters. -/
theorem C13_realm_only_in_header_witness :
    (obtainRequestToken plainCollab "" { sampleSession with realm := "photos" }).events.map
        Event.dropHeader =
      (obtainRequestToken plainCollab "" sampleSession).events.map Event.dropHeader ∧
    (obtainRequestToken plainCollab "" { sampleSession with realm := "photos" }).events.filterMap
        Event.header? = ["Authorization: OAuth realm=\"photos\", "] ∧
    (obtainRequestToken plainCollab "" sampleSession).events.filterMap Event.header? =
      ["Authorization: OAuth "] :=
  ⟨(C13_realm_only_in_header plainCollab "" "" "" true sampleSession "photos").1.2.2.1,
    by
      rw [(C13_realm_only_in_header plainCollab "" "" "" true sampleSession "photos").2.2.1
        (by decide)]
      decide,
    by decide⟩


/-! ## The credential store -/

theorem saveCredentials_events (saveOk : Bool) (s : State) :
    (saveCredentials saveOk s).events =
      Event.saveFile s.credentialsPathname
          [("oauth:consumer_key", s.consumerKey), ("oauth:consumer_secret", s.consumerSecret),
            ("oauth:access_token", s.accessToken), ("oauth:access_secret", s.accessTokenSecret),
            ("oauth:screen_name", s.screenName), ("oauth:user_id", s.userId),
            ("oauth:user_id_encoded", s.encodedUserId), ("oauth:user_password", s.userPassword),
            ("oauth:user_password_encoded", s.encodedUserPassword)] ::
        (if saveOk then []
          else [Event.log .error "ofxOAuth::saveCredentials"
            ("Failed to save : " ++ s.credentialsPathname)]) := by
  unfold saveCredentials
  simp [xmlSetValue]

theorem filesAfter_save (fs : Files) (s : State) :
    filesAfter fs (saveCredentials true s).events s.credentialsPathname =
      some [("oauth:consumer_key", s.consumerKey), ("oauth:consumer_secret", s.consumerSecret),
        ("oauth:access_token", s.accessToken), ("oauth:access_secret", s.accessTokenSecret),
        ("oauth:screen_name", s.screenName), ("oauth:user_id", s.userId),
        ("oauth:user_id_encoded", s.encodedUserId), ("oauth:user_password", s.userPassword),
        ("oauth:user_password_encoded", s.encodedUserPassword)] := by
  rw [saveCredentials_events]
  simp [filesAfter, Files.write]


/-! ## C14: saving and loading again -/

/-- C14: for a session with non-empty accessToken and accessTokenSecret whose
saveCredentials succeeds, loadCredentials in a session with the same credentials pathname
yields the saved accessToken and accessTokenSecret if its consumerKey and consumerSecret
are the saved ones, and is rejected, leaving the loading session as it was, if its
consumerKey or consumerSecret differs from the stored one. -/
theorem C14_save_then_load (L : Collab) (fs : Files) (s t : State)
    (hA : s.accessToken ≠ "") (hS : s.accessTokenSecret ≠ "")
    (hp : t.credentialsPathname = s.credentialsPathname) :
    (t.consumerKey = s.consumerKey → t.consumerSecret = s.consumerSecret →
      (loadCredentialsFrom L (filesAfter fs (saveCredentials true s).events) t).state.accessToken
          = s.accessToken ∧
        (loadCredentialsFrom L (filesAfter fs (saveCredentials true s).events)
          t).state.accessTokenSecret = s.accessTokenSecret) ∧
    ((t.consumerKey ≠ s.consumerKey ∨ t.consumerSecret ≠ s.consumerSecret) →
      (loadCredentialsFrom L (filesAfter fs (saveCredentials true s).events) t).state = t) := by
  unfold loadCredentialsFrom
  rw [hp, filesAfter_save]
  unfold loadCredentials
  constructor
  · intro hk hc
    simp [xmlGetValue, List.lookup, hk, hc, hA, hS]
  · intro hne
    have hne2 : ¬ s.consumerKey = t.consumerKey ∨ ¬ s.consumerSecret = t.consumerSecret := by
      rcases hne with h | h
      · exact Or.inl (fun hc => h hc.symm)
      · exact Or.inr (fun hc => h hc.symm)
    simp only [xmlGetValue, List.lookup]
    simp only [ne_eq, beq_self_eq_true, String.reduceBEq, hne2, if_true]

/-- C14 on the sample session made authorized with access token "x" and secret "y": after
a save, the sample session itself loads "x" and "y", and a session with another consumer
key loads nothing. -/
theorem C14_save_then_load_witness :
    ((loadCredentialsFrom plainCollab
        (filesAfter (fun _ => none)
          (saveCredentials true
            (runOps plainCollab [.setAccessToken "x", .setAccessTokenSecret "y"]
              sampleSession)).events) sampleSession).state.accessToken = "x" ∧
      (loadCredentialsFrom plainCollab
        (filesAfter (fun _ => none)
          (saveCredentials true
            (runOps plainCollab [.setAccessToken "x", .setAccessTokenSecret "y"]
              sampleSession)).events) sampleSession).state.accessTokenSecret = "y") ∧
    (loadCredentialsFrom plainCollab
      (filesAfter (fun _ => none)
        (saveCredentials true
          (runOps plainCollab [.setAccessToken "x", .setAccessTokenSecret "y"]
            sampleSession)).events) (setConsumerKey "other" sampleSession)).state =
      setConsumerKey "other" sampleSession :=
  ⟨(C14_save_then_load plainCollab (fun _ => none)
      (runOps plainCollab [.setAccessToken "x", .setAccessTokenSecret "y"] sampleSession)
      sampleSession (by decide) (by decide) (by decide)).1 (by decide) (by decide),
    (C14_save_then_load plainCollab (fun _ => none)
      (runOps plainCollab [.setAccessToken "x", .setAccessTokenSecret "y"] sampleSession)
      (setConsumerKey "other" sampleSession) (by decide) (by decide) (by decide)).2
      (Or.inl (by decide))⟩

/-! ## C15: a rejected load changes nothing -/

/-- C15: if the file cannot be loaded, or the stored consumer_key or consumer_secret
differs from the configured one, or the stored access_token or access_secret is empty,
loadCredentials leaves every field of the session as it was. -/
theorem C15_rejected_load_changes_nothing (L : Collab) (file : Option XmlDoc) (s : State)
    (h : file = none ∨
      ∃ xml, file = some xml ∧
        (xmlGetValue xml "oauth:consumer_key" "" ≠ s.consumerKey ∨
          xmlGetValue xml "oauth:consumer_secret" "" ≠ s.consumerSecret ∨
          xmlGetValue xml "oauth:access_token" "" = "" ∨
          xmlGetValue xml "oauth:access_secret" "" = "")) :
    (loadCredentials L file s).state = s := by
  rcases h with h | ⟨xml, h, hx⟩
  · subst h
    rfl
  · subst h
    unfold loadCredentials
    simp only
    split_ifs with h1 h2
    · rfl
    · rfl
    · exfalso
      rcases hx with hx | hx | hx | hx
      · exact h1 (Or.inl hx)
      · exact h1 (Or.inr hx)
      · exact h2 (Or.inl hx)
      · exact h2 (Or.inr hx)

/-- C15 on the sample session: no file, a record of another consumer and a record with an
empty access secret each leave the session as it was. -/
theorem C15_rejected_load_changes_nothing_witness :
    (loadCredentials plainCollab none sampleSession).state = sampleSession ∧
      (loadCredentials plainCollab
        (some [("oauth:consumer_key", "zz"), ("oauth:consumer_secret", "cs"),
          ("oauth:access_token", "x"), ("oauth:access_secret", "y")])
        sampleSession).state = sampleSession ∧
      (loadCredentials plainCollab
        (some [("oauth:consumer_key", "ck"), ("oauth:consumer_secret", "cs"),
          ("oauth:access_token", "x"), ("oauth:access_secret", "")])
        sampleSession).state = sampleSession :=
  ⟨C15_rejected_load_changes_nothing plainCollab none sampleSession (Or.inl rfl),
    C15_rejected_load_changes_nothing plainCollab _ sampleSession
      (Or.inr ⟨_, rfl, Or.inl (by decide)⟩),
    C15_rejected_load_changes_nothing plainCollab _ sampleSession
      (Or.inr ⟨_, rfl, Or.inr (Or.inr (Or.inr (by decide)))⟩)⟩

/-! ## C16: the record that is written -/

/-- C16 fails on the code: for every session the record written by saveCredentials holds
the nine fields from consumer_key to user_password_encoded with the session's values and
no api_name, because the first line of saveCredentials reads api_name where it should set
it.  The sample session, made authorized and named "TWITTER", saves and loads its own
record, the load is accepted, and apiName comes back empty. -/
theorem C16_api_name_is_not_written :
    (∀ (saveOk : Bool) (s : State),
      (saveCredentials saveOk s).events.head? =
        some (Event.saveFile s.credentialsPathname
          [("oauth:consumer_key", s.consumerKey), ("oauth:consumer_secret", s.consumerSecret),
            ("oauth:access_token", s.accessToken), ("oauth:access_secret", s.accessTokenSecret),
            ("oauth:screen_name", s.screenName), ("oauth:user_id", s.userId),
            ("oauth:user_id_encoded", s.encodedUserId),
            ("oauth:user_password", s.userPassword),
            ("oauth:user_password_encoded", s.encodedUserPassword)])) ∧
    (filesAfter (fun _ => none)
        (saveCredentials true
          (runOps plainCollab
            [.setApiName "TWITTER", .setAccessToken "x", .setAccessTokenSecret "y"]
            sampleSession)).events "credentials.xml" =
      some [("oauth:consumer_key", "ck"), ("oauth:consumer_secret", "cs"),
        ("oauth:access_token", "x"), ("oauth:access_secret", "y"),
        ("oauth:screen_name", ""), ("oauth:user_id", ""), ("oauth:user_id_encoded", ""),
        ("oauth:user_password", ""), ("oauth:user_password_encoded", "")]) ∧
    (loadCredentialsFrom plainCollab
        (filesAfter (fun _ => none)
          (saveCredentials true
            (runOps plainCollab
              [.setApiName "TWITTER", .setAccessToken "x", .setAccessTokenSecret "y"]
              sampleSession)).events)
        (runOps plainCollab
          [.setApiName "TWITTER", .setAccessToken "x", .setAccessTokenSecret "y"]
          sampleSession)).state.accessToken = "x" ∧
    (loadCredentialsFrom plainCollab
        (filesAfter (fun _ => none)
          (saveCredentials true
            (runOps plainCollab
              [.setApiName "TWITTER", .setAccessToken "x", .setAccessTokenSecret "y"]
              sampleSession)).events)
        (runOps plainCollab
          [.setApiName "TWITTER", .setAccessToken "x", .setAccessTokenSecret "y"]
          sampleSession)).state.apiName = "" := by
  refine ⟨?_, by decide, by decide, by decide⟩
  intro saveOk s
  rw [saveCredentials_events]
  rfl


/-! ## C17: get returns the body -/

/-- C17: for a session with non-empty apiURL, consumerKey, consumerSecret, accessToken and
accessTokenSecret and every path and query, get sends one GET request, returns exactly the
body the transport returned (the empty string for an empty body) and leaves every field of
the session as it was. -/
theorem C17_get_returns_body (L : Collab) (reply uri query : String) (s : State)
    (h : apiReady s) :
    (get L reply uri query s).value = reply ∧
      (reply = "" → (get L reply uri query s).value = "") ∧
      (get L reply uri query s).state = s ∧
      (get L reply uri query s).events.filter Event.isNetwork =
        [Event.httpGet (apiRequest L s uri query 6).2.1 (apiRequest L s uri query 6).2.2] := by
  obtain ⟨h1, h2, h3, h4, h5⟩ := h
  refine ⟨?_, ?_, get_state L reply uri query s, ?_⟩
  · unfold get
    rw [if_neg h1, if_neg h2, if_neg h3, if_neg h4, if_neg h5]
    by_cases hr : reply = ""
    · simp [hr]
    · simp [hr]
  · intro hr
    unfold get
    rw [if_neg h1, if_neg h2, if_neg h3, if_neg h4, if_neg h5]
    simp [hr]
  · unfold get
    rw [if_neg h1, if_neg h2, if_neg h3, if_neg h4, if_neg h5]
    simp [apiRequest, Event.isNetwork]

/-- C17 on the sample session made authorized: get returns the body "[1,2]", returns ""
for an empty body, and leaves the session as it was. -/
theorem C17_get_returns_body_witness :
    (get plainCollab "[1,2]" "/1.1/statuses/mentions_timeline.json" ""
        (runOps plainCollab [.setAccessToken "x", .setAccessTokenSecret "y"]
          sampleSession)).value = "[1,2]" ∧
      (get plainCollab "" "/1.1/statuses/mentions_timeline.json" ""
        (runOps plainCollab [.setAccessToken "x", .setAccessTokenSecret "y"]
          sampleSession)).value = "" ∧
      (get plainCollab "[1,2]" "/1.1/statuses/mentions_timeline.json" ""
        (runOps plainCollab [.setAccessToken "x", .setAccessTokenSecret "y"]
          sampleSession)).state =
        runOps plainCollab [.setAccessToken "x", .setAccessTokenSecret "y"] sampleSession :=
  ⟨(C17_get_returns_body plainCollab "[1,2]" "/1.1/statuses/mentions_timeline.json" ""
      (runOps plainCollab [.setAccessToken "x", .setAccessTokenSecret "y"] sampleSession)
      (by decide)).1,
    (C17_get_returns_body plainCollab "" "/1.1/statuses/mentions_timeline.json" ""
      (runOps plainCollab [.setAccessToken "x", .setAccessTokenSecret "y"] sampleSession)
      (by decide)).2.1 rfl,
    (C17_get_returns_body plainCollab "[1,2]" "/1.1/statuses/mentions_timeline.json" ""
      (runOps plainCollab [.setAccessToken "x", .setAccessTokenSecret "y"] sampleSession)
      (by decide)).2.2.1⟩

/-! ## C18: an empty reply -/

theorem replyField_empty (name : String) : replyField name "" = none := by
  unfold replyField replyPairs
  rw [ofSplitString_empty]
  rfl

/-- C18, as the code behaves: for a session with accessFailed = false that passes the
guards, an empty reply changes no field other than accessFailed, and the closing checks
still run: obtainRequestToken leaves accessFailed = false exactly if requestToken and
requestTokenSecret were both non-empty before the call, and obtainAccessToken exactly if
accessToken and accessTokenSecret were both non-empty before the call; otherwise the call
sets accessFailed. -/
theorem C18_empty_reply (L : Collab) (saveOk : Bool) (s : State)
    (hclear : s.accessFailed = false) :
    (requestTokenReady s →
      (obtainRequestToken L "" s).state =
          { s with accessFailed := (obtainRequestToken L "" s).state.accessFailed } ∧
        ((obtainRequestToken L "" s).state.accessFailed = false ↔
          (s.requestToken ≠ "" ∧ s.requestTokenSecret ≠ ""))) ∧
    (accessTokenReady s →
      (obtainAccessToken L "" saveOk s).state =
          { s with accessFailed := (obtainAccessToken L "" saveOk s).state.accessFailed } ∧
        ((obtainAccessToken L "" saveOk s).state.accessFailed = false ↔
          (s.accessToken ≠ "" ∧ s.accessTokenSecret ≠ ""))) := by
  constructor
  · intro h
    rw [obtainRequestToken_state L "" s h]
    simp only [replyField_empty, Option.getD_none, Option.map_none', hclear, Bool.false_or]
    refine ⟨trivial, ?_⟩
    simp only [Bool.or_eq_false_iff, decide_eq_false_iff_not]
    exact ⟨fun hx => ⟨hx.2, hx.1⟩, fun hx => ⟨hx.2, hx.1⟩⟩
  · intro h
    rw [obtainAccessToken_state L "" saveOk s h]
    simp only [replyField_empty, Option.getD_none, hclear, Bool.false_or]
    refine ⟨trivial, ?_⟩
    simp only [Bool.or_eq_false_iff, decide_eq_false_iff_not]
    exact ⟨fun hx => ⟨hx.2, hx.1⟩, fun hx => ⟨hx.2, hx.1⟩⟩

/-- C18 at concrete inputs: with request token and secret already on record an empty reply
leaves accessFailed false in obtainRequestToken, and with an access pair on record in
obtainAccessToken. -/
theorem C18_empty_reply_witness :
    (obtainRequestToken plainCollab ""
        (runOps plainCollab [.setRequestToken "a", .setRequestTokenSecret "b"]
          sampleSession)).state.accessFailed = false ∧
      (obtainAccessToken plainCollab "" true
        (runOps plainCollab
          [.setRequestToken "a", .setRequestTokenSecret "b", .setRequestTokenVerifier "v",
            .setAccessToken "x", .setAccessTokenSecret "y"]
          sampleSession)).state.accessFailed = false :=
  ⟨((C18_empty_reply plainCollab true
      (runOps plainCollab [.setRequestToken "a", .setRequestTokenSecret "b"] sampleSession)
      (by decide)).1 (by decide)).2.mpr (by decide),
    ((C18_empty_reply plainCollab true
      (runOps plainCollab
        [.setRequestToken "a", .setRequestTokenSecret "b", .setRequestTokenVerifier "v",
          .setAccessToken "x", .setAccessTokenSecret "y"] sampleSession)
      (by decide)).2 (by decide)).2.mpr (by decide)⟩

/-- C18 as stated fails: the sample session has accessFailed = false and passes the guards
of obtainRequestToken; the transport returns an empty reply and the call ends with
accessFailed set, because the request token is still empty when the closing checks run.
The same happens in obtainAccessToken for a session that holds request token, secret and
verifier but no access token yet, and the tick that made the call stays halted. -/
theorem C18_counterexample_transport_failure_sticks :
    (sampleSession.accessFailed = false ∧ requestTokenReady sampleSession ∧
      (obtainRequestToken plainCollab "" sampleSession).state.accessFailed = true) ∧
    ((runOps plainCollab
        [.setRequestToken "a", .setRequestTokenSecret "b", .setRequestTokenVerifier "v"]
        sampleSession).accessFailed = false ∧
      accessTokenReady (runOps plainCollab
        [.setRequestToken "a", .setRequestTokenSecret "b", .setRequestTokenVerifier "v"]
        sampleSession) ∧
      (obtainAccessToken plainCollab "" true
        (runOps plainCollab
          [.setRequestToken "a", .setRequestTokenSecret "b", .setRequestTokenVerifier "v"]
          sampleSession)).state.accessFailed = true) ∧
    (runOps plainCollab [.update "" true, .update "oauth_token=a&oauth_token_secret=b" true]
      sampleSession).accessFailed = true ∧
    (runOps plainCollab [.update "" true, .update "oauth_token=a&oauth_token_secret=b" true]
      sampleSession).requestToken = "" := by
  decide


/-! ## C19: the tick of a failed session -/

theorem update_failed_events (L : Collab) (reply : String) (saveOk : Bool) (s : State)
    (h : s.accessFailed = true) :
    (update L reply saveOk s).events =
      if s.accessFailedReported = true then [] else [accessFailedLog] := by
  unfold update
  rw [if_pos h]
  by_cases hr : s.accessFailedReported = true
  · simp [hr]
  · have hr2 : s.accessFailedReported = false := by simpa using hr
    simp [hr2, accessFailedLog]

theorem runTicks_cons (L : Collab) (reply : String) (saveOk : Bool)
    (rest : List (String × Bool)) (s : State) :
    (runTicks L ((reply, saveOk) :: rest) s).state =
        (runTicks L rest (update L reply saveOk s).state).state ∧
      (runTicks L ((reply, saveOk) :: rest) s).events =
        (update L reply saveOk s).events ++
          (runTicks L rest (update L reply saveOk s).state).events :=
  ⟨rfl, rfl⟩

theorem runTicks_failed_reported (L : Collab) (answers : List (String × Bool)) (s : State)
    (h : s.accessFailed = true) (hr : s.accessFailedReported = true) :
    (runTicks L answers s).state = s ∧ (runTicks L answers s).events = [] := by
  induction answers with
  | nil => exact ⟨rfl, rfl⟩
  | cons a rest ih =>
    obtain ⟨reply, saveOk⟩ := a
    have hs : (update L reply saveOk s).state = s := by
      rw [(update_of_accessFailed L reply saveOk s h).1]
      cases s
      simp only at hr
      simp [hr]
    rw [(runTicks_cons L reply saveOk rest s).1, (runTicks_cons L reply saveOk rest s).2,
      hs, update_failed_events L reply saveOk s h, if_pos hr]
    exact ⟨ih.1, by rw [ih.2]; rfl⟩

theorem runTicks_failed (L : Collab) (answers : List (String × Bool)) (s : State)
    (h : s.accessFailed = true) (hn : answers ≠ []) :
    (runTicks L answers s).state = { s with accessFailedReported := true } ∧
      (runTicks L answers s).events =
        if s.accessFailedReported = true then [] else [accessFailedLog] := by
  cases answers with
  | nil => exact absurd rfl hn
  | cons a rest =>
    obtain ⟨reply, saveOk⟩ := a
    have hs := (update_of_accessFailed L reply saveOk s h).1
    have hrest := runTicks_failed_reported L rest { s with accessFailedReported := true } h rfl
    rw [(runTicks_cons L reply saveOk rest s).1, (runTicks_cons L reply saveOk rest s).2,
      hs, hrest.1, hrest.2, update_failed_events L reply saveOk s h, List.append_nil]
    exact ⟨rfl, rfl⟩

/-- C19, as the code behaves: for a session with accessFailed = true a tick makes no
network request, starts and stops no listener and changes no field other than setting
accessFailedReported; over n >= 1 consecutive ticks the failure is logged exactly once, on
the first tick, if accessFailedReported was false before them, and not at all if it was
already true, and no other effect occurs. -/
theorem C19_failed_session_reports_once (L : Collab) (reply : String) (saveOk : Bool)
    (answers : List (String × Bool)) (s : State) (h : s.accessFailed = true) :
    ((update L reply saveOk s).state = { s with accessFailedReported := true } ∧
      noNetwork (update L reply saveOk s).events ∧
      (∀ e ∈ (update L reply saveOk s).events,
        e.isServerStart = false ∧ e.isServerStop = false)) ∧
    (s.accessFailedReported = false →
      (update L reply saveOk s).events = [accessFailedLog] ∧
        (answers ≠ [] → (runTicks L answers s).events = [accessFailedLog] ∧
          (runTicks L answers s).events.count accessFailedLog = 1)) ∧
    (s.accessFailedReported = true → (runTicks L answers s).events = []) ∧
    (answers ≠ [] → (runTicks L answers s).state = { s with accessFailedReported := true }) := by
  have hu := update_of_accessFailed L reply saveOk s h
  have he := update_failed_events L reply saveOk s h
  refine ⟨⟨hu.1, hu.2, ?_⟩, ?_, ?_, ?_⟩
  · intro e hmem
    rw [he] at hmem
    split_ifs at hmem
    · simp at hmem
    · simp at hmem
      subst hmem
      exact ⟨rfl, rfl⟩
  · intro hr
    have hr2 : ¬ s.accessFailedReported = true := by simp [hr]
    refine ⟨by rw [he, if_neg hr2], ?_⟩
    intro hn
    rw [(runTicks_failed L answers s h hn).2, if_neg hr2]
    exact ⟨rfl, by decide⟩
  · intro hr
    exact (runTicks_failed_reported L answers s h hr).2
  · intro hn
    exact (runTicks_failed L answers s h hn).1

/-- C19 on the sample session after a failed request-token exchange: three ticks log the
failure once and send nothing. -/
theorem C19_failed_session_reports_once_witness :
    (runTicks plainCollab [("", true), ("oauth_token=a&oauth_token_secret=b", true), ("", true)]
        (obtainRequestToken plainCollab "oauth_problem=token_rejected"
          sampleSession).state).events = [accessFailedLog] ∧
      ((runTicks plainCollab
        [("", true), ("oauth_token=a&oauth_token_secret=b", true), ("", true)]
        (obtainRequestToken plainCollab "oauth_problem=token_rejected"
          sampleSession).state).events.count accessFailedLog = 1) :=
  ((C19_failed_session_reports_once plainCollab "" true
    [("", true), ("oauth_token=a&oauth_token_secret=b", true), ("", true)]
    (obtainRequestToken plainCollab "oauth_problem=token_rejected" sampleSession).state
    (by decide)).2.1 (by decide)).2 (by decide)

/-- C19 as stated fails for a session whose failure has been reported already: after the
failed tick and one more tick the session has accessFailed = true and
accessFailedReported = true, and three further consecutive ticks log the failure not once
but never. -/
theorem C19_counterexample_already_reported :
    (runOps plainCollab [.update "oauth_problem=token_rejected" true, .update "" true]
        sampleSession).accessFailed = true ∧
      (runOps plainCollab [.update "oauth_problem=token_rejected" true, .update "" true]
        sampleSession).accessFailedReported = true ∧
      (runTicks plainCollab [("", true), ("", true), ("", true)]
        (runOps plainCollab [.update "oauth_problem=token_rejected" true, .update "" true]
          sampleSession)).events.count accessFailedLog = 0 := by
  decide

/-! ## C20: waiting for the verifier -/

theorem update_waiting (L : Collab) (reply : String) (saveOk : Bool) (s : State)
    (hf : s.accessFailed = false) (ha : s.accessToken = "" ∨ s.accessTokenSecret = "")
    (hv : s.requestTokenVerifier = "") (ht : s.requestToken ≠ "") :
    (s.verificationRequested = false →
      (update L reply saveOk s).state = { s with verificationRequested := true } ∧
        (update L reply saveOk s).events =
          (requestUserVerification L.launchBrowserDefault s).events) ∧
    (s.verificationRequested = true →
      (update L reply saveOk s).state = s ∧ (update L reply saveOk s).events = []) := by
  have hf2 : ¬ s.accessFailed = true := by simp [hf]
  unfold update
  rw [if_neg hf2, if_pos ha, if_pos hv, if_neg ht]
  constructor
  · intro hq
    simp only [hq, Bool.not_false, if_true, requestUserVerification_state, and_self]
  · intro hq
    simp only [hq, Bool.not_true, Bool.false_eq_true, if_false, and_self]

theorem runTicks_waiting (L : Collab) (answers : List (String × Bool)) (s : State)
    (hf : s.accessFailed = false) (ha : s.accessToken = "" ∨ s.accessTokenSecret = "")
    (hv : s.requestTokenVerifier = "") (ht : s.requestToken ≠ "")
    (hq : s.verificationRequested = true) :
    (runTicks L answers s).state = s ∧ (runTicks L answers s).events = [] := by
  induction answers with
  | nil => exact ⟨rfl, rfl⟩
  | cons a rest ih =>
    obtain ⟨reply, saveOk⟩ := a
    have hu := (update_waiting L reply saveOk s hf ha hv ht).2 hq
    rw [(runTicks_cons L reply saveOk rest s).1, (runTicks_cons L reply saveOk rest s).2,
      hu.1, hu.2]
    exact ⟨ih.1, by rw [ih.2]; rfl⟩

/-- C20: for a session with accessFailed = false, an incomplete access token pair, an
empty verifier, a non-empty request token and verificationRequested = false, n >= 1
consecutive ticks invoke requestUserVerification exactly once, on the first tick, and set
verificationRequested; every later tick leaves the whole state as it is and has no effect
at all, so it makes no network request. -/
theorem C20_verification_requested_once (L : Collab) (reply : String) (saveOk : Bool)
    (answers : List (String × Bool)) (s : State)
    (hf : s.accessFailed = false) (ha : s.accessToken = "" ∨ s.accessTokenSecret = "")
    (hv : s.requestTokenVerifier = "") (ht : s.requestToken ≠ "")
    (hq : s.verificationRequested = false) (hn : answers ≠ []) :
    ((update L reply saveOk s).state = { s with verificationRequested := true } ∧
      (update L reply saveOk s).events =
        (requestUserVerification L.launchBrowserDefault s).events) ∧
    ((update L reply saveOk { s with verificationRequested := true }).state =
        { s with verificationRequested := true } ∧
      (update L reply saveOk { s with verificationRequested := true }).events = []) ∧
    ((runTicks L answers s).state = { s with verificationRequested := true } ∧
      (runTicks L answers s).events =
        (requestUserVerification L.launchBrowserDefault s).events ∧
      noNetwork (runTicks L answers s).events) := by
  have hfirst := fun r b => (update_waiting L r b s hf ha hv ht).1 hq
  have hlater := fun r b =>
    (update_waiting L r b { s with verificationRequested := true } hf ha hv ht).2 rfl
  refine ⟨hfirst reply saveOk, hlater reply saveOk, ?_⟩
  cases answers with
  | nil => exact absurd rfl hn
  | cons a rest =>
    obtain ⟨r, b⟩ := a
    have hrest := runTicks_waiting L rest { s with verificationRequested := true } hf ha hv ht rfl
    rw [(runTicks_cons L r b rest s).1, (runTicks_cons L r b rest s).2, (hfirst r b).1,
      (hfirst r b).2, hrest.1, hrest.2, List.append_nil]
    refine ⟨rfl, rfl, ?_⟩
    unfold requestUserVerification requestUserVerification2
    simp only
    intro e he
    split_ifs at he <;> simp at he <;> subst he <;> rfl

/-- C20 on the sample session holding a request token: three ticks open the authorization
URL once and set verificationRequested. -/
theorem C20_verification_requested_once_witness :
    (runTicks plainCollab [("", true), ("", true), ("", true)]
        (runOps plainCollab [.setRequestToken "a", .setRequestTokenSecret "b"]
          sampleSession)).events =
        [Event.launchBrowser "https://api.example.com/oauth/authorize?oauth_token=a"] ∧
      (runTicks plainCollab [("", true), ("", true), ("", true)]
        (runOps plainCollab [.setRequestToken "a", .setRequestTokenSecret "b"]
          sampleSession)).state.verificationRequested = true :=
  ⟨by
      rw [(C20_verification_requested_once plainCollab "" true
        [("", true), ("", true), ("", true)]
        (runOps plainCollab [.setRequestToken "a", .setRequestTokenSecret "b"] sampleSession)
        (by decide) (by decide) (by decide) (by decide) (by decide) (by decide)).2.2.2.1]
      decide,
    by decide⟩


/-! ## C22: the authorized tick -/

theorem stopListener_events (s : State) :
    (stopListener s).events = if s.verifierCallbackServer ≠ none then [.serverStop] else [] := by
  unfold stopListener
  split_ifs <;> rfl

theorem update_authorized (L : Collab) (reply : String) (saveOk : Bool) (s : State)
    (hf : s.accessFailed = false) (ha : s.accessToken ≠ "") (hs : s.accessTokenSecret ≠ "") :
    update L reply saveOk s = stopListener s := by
  unfold update
  have h1 : ¬ (s.accessToken = "" ∨ s.accessTokenSecret = "") := by
    intro h
    rcases h with h | h
    · exact ha h
    · exact hs h
  rw [hf, if_neg h1]
  simp

/-- C22: for every session state with accessFailed = false and a non-empty access token
and access token secret, a tick makes no network call (its only possible effect is
stopping a running listener), leaves every field but the listener unchanged, leaves no
listener, and a second tick, whatever the outside world would answer, gives the same
state as the first. -/
theorem C22_authorized_tick_is_terminal (L : Collab) (reply reply2 : String)
    (saveOk saveOk2 : Bool) (s : State) (hf : s.accessFailed = false)
    (ha : s.accessToken ≠ "") (hs : s.accessTokenSecret ≠ "") :
    noNetwork (update L reply saveOk s).events ∧
      (update L reply saveOk s).events.filterMap Event.sentWith? = [] ∧
      (update L reply saveOk s).events =
        (if s.verifierCallbackServer ≠ none then [.serverStop] else []) ∧
      (update L reply saveOk s).state = { s with verifierCallbackServer := none } ∧
      (update L reply saveOk s).state.verifierCallbackServer = none ∧
      (update L reply2 saveOk2 (update L reply saveOk s).state).state =
        (update L reply saveOk s).state ∧
      (update L reply2 saveOk2 (update L reply saveOk s).state).events = [] := by
  have e1 := update_authorized L reply saveOk s hf ha hs
  have e2 : (update L reply saveOk s).state = { s with verifierCallbackServer := none } := by
    rw [e1, stopListener_state]
  have e3 : (update L reply saveOk s).events =
      (if s.verifierCallbackServer ≠ none then [.serverStop] else []) := by
    rw [e1, stopListener_events]
  have e4 := update_authorized L reply2 saveOk2 { s with verifierCallbackServer := none }
    hf ha hs
  refine ⟨?_, ?_, e3, e2, ?_, ?_, ?_⟩
  · rw [e3]
    intro e he
    split_ifs at he
    · simp at he
      subst he
      rfl
    · simp at he
  · rw [e3]
    split_ifs <;> rfl
  · rw [e2]
  · rw [e2, e4, stopListener_state]
  · rw [e2, e4, stopListener_events]
    simp

theorem C22_authorized_tick_is_terminal_witness :
    sampleAuthorizedSession.accessFailed = false ∧ sampleAuthorizedSession.accessToken ≠ "" ∧
      sampleAuthorizedSession.accessTokenSecret ≠ "" ∧
      (update plainCollab "oauth_token=z" true sampleAuthorizedSession).state =
        { sampleAuthorizedSession with verifierCallbackServer := none } ∧
      (update plainCollab "" false
        (update plainCollab "oauth_token=z" true sampleAuthorizedSession).state).state =
        (update plainCollab "oauth_token=z" true sampleAuthorizedSession).state :=
  ⟨by decide, by decide, by decide,
    (C22_authorized_tick_is_terminal plainCollab "oauth_token=z" "" true false
      sampleAuthorizedSession (by decide) (by decide) (by decide)).2.2.2.1,
    (C22_authorized_tick_is_terminal plainCollab "oauth_token=z" "" true false
      sampleAuthorizedSession (by decide) (by decide) (by decide)).2.2.2.2.2.1⟩


/-! ## C25: the verifier callbacks -/

/-- C25: for every name/value collection delivered to receivedVerifierCallbackGetParams,
if it has both oauth_token and oauth_verifier the call is the two-argument
setRequestTokenVerifier on their values, which stores the verifier when the token equals
the request token on record and changes nothing otherwise; if either name is missing the
state is unchanged. The request, headers, cookies and post-params callbacks leave the
state unchanged for every input. -/
theorem C25_callbacks (p c : NameValueCollection) (s : State) :
    (nvcHas p "oauth_token" = true ∧ nvcHas p "oauth_verifier" = true →
      receivedVerifierCallbackGetParams p s =
          setRequestTokenVerifier2 (nvcGet p "oauth_token") (nvcGet p "oauth_verifier") s ∧
        (nvcGet p "oauth_token" = s.requestToken →
          (receivedVerifierCallbackGetParams p s).state =
            { s with requestTokenVerifier := nvcGet p "oauth_verifier" }) ∧
        (nvcGet p "oauth_token" ≠ s.requestToken →
          (receivedVerifierCallbackGetParams p s).state = s)) ∧
      (nvcHas p "oauth_token" = false ∨ nvcHas p "oauth_verifier" = false →
        (receivedVerifierCallbackGetParams p s).state = s) ∧
      (receivedVerifierCallbackRequest s).state = s ∧
      (receivedVerifierCallbackHeaders c s).state = s ∧
      (receivedVerifierCallbackCookies c s).state = s ∧
      (receivedVerifierCallbackPostParams c s).state = s := by
  refine ⟨?_, ?_, rfl, rfl, rfl, rfl⟩
  · rintro ⟨h1, h2⟩
    have e : receivedVerifierCallbackGetParams p s =
        setRequestTokenVerifier2 (nvcGet p "oauth_token") (nvcGet p "oauth_verifier") s := by
      unfold receivedVerifierCallbackGetParams
      rw [h1, h2]
      rfl
    refine ⟨e, ?_, ?_⟩
    · intro ht
      rw [e]
      unfold setRequestTokenVerifier2 setRequestTokenVerifier
      rw [if_pos ht]
    · intro ht
      rw [e]
      unfold setRequestTokenVerifier2
      rw [if_neg ht]
  · intro h
    unfold receivedVerifierCallbackGetParams
    rcases h with h | h
    · rw [h]
      rfl
    · rw [h, Bool.and_false]
      rfl

theorem C25_callbacks_witness :
    (nvcHas [("oauth_token", "a"), ("oauth_verifier", "v")] "oauth_token" = true ∧
        nvcHas [("oauth_token", "a"), ("oauth_verifier", "v")] "oauth_verifier" = true) ∧
      nvcGet [("oauth_token", "a"), ("oauth_verifier", "v")] "oauth_token" =
        (setRequestToken "a" sampleSession).requestToken ∧
      (receivedVerifierCallbackGetParams [("oauth_token", "a"), ("oauth_verifier", "v")]
        (setRequestToken "a" sampleSession)).state =
        { setRequestToken "a" sampleSession with requestTokenVerifier := "v" } ∧
      (nvcHas [("oauth_verifier", "v")] "oauth_token" = false ∨
        nvcHas [("oauth_verifier", "v")] "oauth_verifier" = false) ∧
      (receivedVerifierCallbackGetParams [("oauth_verifier", "v")]
        (setRequestToken "a" sampleSession)).state = setRequestToken "a" sampleSession :=
  ⟨by decide, by decide,
    ((C25_callbacks [("oauth_token", "a"), ("oauth_verifier", "v")] []
      (setRequestToken "a" sampleSession)).1 (by decide)).2.1 (by decide),
    by decide,
    (C25_callbacks [("oauth_verifier", "v")] [] (setRequestToken "a" sampleSession)).2.1
      (by decide)⟩

/-! ## C26: the authorization URL -/

/-- C26: for every session state, every string a and either value of launchBrowser,
requestUserVerification(a, launchBrowser) returns "" and opens no browser when
authorizationURL is empty, otherwise returns authorizationURL + "oauth_token=" +
requestToken + a, opening the browser on that URL exactly when launchBrowser is set;
the session state is unchanged. -/
theorem C26_requestUserVerification (a : String) (launchBrowser : Bool) (s : State) :
    (s.authorizationURL = "" →
      (requestUserVerification2 a launchBrowser s).value = "" ∧
        (requestUserVerification2 a launchBrowser s).events =
          [.log .error "ofxOAuth::requestUserVerification" "Authorization URL is not set."]) ∧
      (s.authorizationURL ≠ "" →
        (requestUserVerification2 a launchBrowser s).value =
            s.authorizationURL ++ "oauth_token=" ++ s.requestToken ++ a ∧
          (requestUserVerification2 a launchBrowser s).events =
            (if launchBrowser then
              [.launchBrowser (s.authorizationURL ++ "oauth_token=" ++ s.requestToken ++ a)]
            else [])) ∧
      (requestUserVerification2 a launchBrowser s).state = s := by
  refine ⟨?_, ?_, requestUserVerification2_state a launchBrowser s⟩
  · intro h
    unfold requestUserVerification2
    simp only
    rw [if_pos h]
    exact ⟨rfl, rfl⟩
  · intro h
    unfold requestUserVerification2
    simp only
    rw [if_neg h]
    exact ⟨rfl, rfl⟩

theorem C26_requestUserVerification_witness :
    (setRequestToken "a" sampleSession).authorizationURL ≠ "" ∧
      (requestUserVerification2 "&force_login=true" true
        (setRequestToken "a" sampleSession)).value =
        "https://api.example.com/oauth/authorize?oauth_token=a&force_login=true" ∧
      (setAuthorizationURL "" sampleSession).authorizationURL = "" ∧
      (requestUserVerification2 "&force_login=true" true
        (setAuthorizationURL "" sampleSession)).value = "" :=
  ⟨by decide,
    ((C26_requestUserVerification "&force_login=true" true
      (setRequestToken "a" sampleSession)).2.1 (by decide)).1.trans (by decide),
    by decide,
    ((C26_requestUserVerification "&force_login=true" true
      (setAuthorizationURL "" sampleSession)).1 (by decide)).1⟩


/-! ## C23: post switches the signing method -/

theorem obtainRequestToken_httpMethod (L : Collab) (reply : String) (s : State) :
    (obtainRequestToken L reply s).state.httpMethod = s.httpMethod := by
  by_cases h : requestTokenReady s
  · rw [obtainRequestToken_state L reply s h]
  · rw [(obtainRequestToken_notReady L reply s h).1]

theorem obtainAccessToken_httpMethod (L : Collab) (reply : String) (saveOk : Bool)
    (s : State) : (obtainAccessToken L reply saveOk s).state.httpMethod = s.httpMethod := by
  by_cases h : accessTokenReady s
  · rw [obtainAccessToken_state L reply saveOk s h]
  · rw [(obtainAccessToken_notReady L reply saveOk s h).1]

theorem loadCredentials_httpMethod (L : Collab) (file : Option XmlDoc) (s : State) :
    (loadCredentials L file s).state.httpMethod = s.httpMethod := by
  unfold loadCredentials
  cases file with
  | none => rfl
  | some xml =>
    simp only
    split_ifs <;> rfl

theorem setApiURL_httpMethod (v : String) (b : Bool) (s : State) :
    (setApiURL v b s).httpMethod = s.httpMethod := by
  unfold setApiURL
  simp only
  split_ifs <;> rfl

theorem setup6_httpMethod (L : Collab) (file : Option XmlDoc) (a r t z k c : String)
    (s : State) : (setup6 L file a r t z k c s).state.httpMethod = s.httpMethod := by
  unfold setup6
  rw [loadCredentials_httpMethod]
  simp only [setConsumerSecret, setConsumerKey, setAuthorizationURL, setAccessTokenURL,
    setRequestTokenURL, setApiURL_httpMethod]

theorem setup3_httpMethod (L : Collab) (file : Option XmlDoc) (a k c : String)
    (s : State) : (setup3 L file a k c s).state.httpMethod = s.httpMethod := by
  unfold setup3
  rw [loadCredentials_httpMethod]
  simp only [setConsumerSecret, setConsumerKey, setApiURL_httpMethod]

theorem update_httpMethod (L : Collab) (reply : String) (saveOk : Bool) (s : State) :
    (update L reply saveOk s).state.httpMethod = s.httpMethod := by
  rcases update_branches L reply saveOk s with h | h | h | h | h
  · rw [h.2]
  · rw [h.2.2.2]
  · rw [h.2.2.2.2, obtainRequestToken_httpMethod]
    unfold startListener
    split_ifs <;> rfl
  · rw [h.2.2.2.2]
  · rw [h.2.2.2, obtainAccessToken_httpMethod]

theorem run_httpMethod (L : Collab) (op : Op) (s : State)
    (h : s.httpMethod = .OFX_HTTP_POST) : (op.run L s).httpMethod = .OFX_HTTP_POST := by
  cases op with
  | update reply saveOk =>
    show (update L reply saveOk s).state.httpMethod = _
    rw [update_httpMethod]
    exact h
  | obtainRequestToken reply =>
    show (obtainRequestToken L reply s).state.httpMethod = _
    rw [obtainRequestToken_httpMethod]
    exact h
  | obtainAccessToken reply saveOk =>
    show (obtainAccessToken L reply saveOk s).state.httpMethod = _
    rw [obtainAccessToken_httpMethod]
    exact h
  | get reply uri query =>
    show (get L reply uri query s).state.httpMethod = _
    rw [get_state]
    exact h
  | post reply uri query =>
    show (post L reply uri query s).state.httpMethod = _
    rw [post_state]
  | requestUserVerification b =>
    show (requestUserVerification b s).state.httpMethod = _
    rw [requestUserVerification_state]
    exact h
  | requestUserVerification2 a b =>
    show (requestUserVerification2 a b s).state.httpMethod = _
    rw [requestUserVerification2_state]
    exact h
  | setup6 file a r t z k c =>
    show (setup6 L file a r t z k c s).state.httpMethod = _
    rw [setup6_httpMethod]
    exact h
  | setup3 file a k c =>
    show (setup3 L file a k c s).state.httpMethod = _
    rw [setup3_httpMethod]
    exact h
  | setApiURL v b =>
    show (setApiURL v b s).httpMethod = _
    rw [setApiURL_httpMethod]
    exact h
  | setRequestTokenVerifier2 t v =>
    show (setRequestTokenVerifier2 t v s).state.httpMethod = _
    rcases setRequestTokenVerifier2_frame t v s with e | e <;> rw [e] <;> exact h
  | receivedVerifierCallbackGetParams c =>
    show (receivedVerifierCallbackGetParams c s).state.httpMethod = _
    rcases receivedVerifierCallbackGetParams_frame c s with e | e <;> rw [e] <;> exact h
  | loadCredentials file =>
    show (loadCredentials L file s).state.httpMethod = _
    rw [loadCredentials_httpMethod]
    exact h
  | _ => exact h

theorem runOps_httpMethod (L : Collab) (ops : List Op) (s : State)
    (h : s.httpMethod = .OFX_HTTP_POST) : (runOps L ops s).httpMethod = .OFX_HTTP_POST :=
  runOps_preserves L (fun t => t.httpMethod = .OFX_HTTP_POST) (fun _ => True)
    (fun op t _ ht => run_httpMethod L op t ht) ops s (fun _ _ => trivial) h

theorem requestTokenParam_filterMap (L : Collab) {β : Type} (f : Event → Option β)
    (hf : ∀ l m t, f (.log l m t) = none) (a : Out StrMap) (seg : String) :
    (requestTokenParam L a seg).events.filterMap f = a.events.filterMap f := by
  unfold requestTokenParam
  split
  · simp only
    split_ifs <;> simp [hf]
  · simp [hf]

theorem accessTokenParam_filterMap {β : Type} (f : Event → Option β)
    (hf : ∀ l m t, f (.log l m t) = none) (a : Out StrMap) (seg : String) :
    (accessTokenParam a seg).events.filterMap f = a.events.filterMap f := by
  unfold accessTokenParam
  split
  · simp only
    split_ifs <;> simp [hf]
  · simp [hf]

theorem requestToken_fold_filterMap (L : Collab) {β : Type} (f : Event → Option β)
    (hf : ∀ l m t, f (.log l m t) = none) (segs : List String) (a : Out StrMap) :
    (segs.foldl (requestTokenParam L) a).events.filterMap f = a.events.filterMap f := by
  induction segs generalizing a with
  | nil => rfl
  | cons x xs ih => rw [List.foldl_cons, ih, requestTokenParam_filterMap L f hf]

theorem accessToken_fold_filterMap {β : Type} (f : Event → Option β)
    (hf : ∀ l m t, f (.log l m t) = none) (segs : List String) (a : Out StrMap) :
    (segs.foldl accessTokenParam a).events.filterMap f = a.events.filterMap f := by
  induction segs generalizing a with
  | nil => rfl
  | cons x xs ih => rw [List.foldl_cons, ih, accessTokenParam_filterMap f hf]

theorem obtainRequestToken_filterMap (L : Collab) {β : Type} (f : Event → Option β)
    (hf : ∀ l m t, f (.log l m t) = none) (reply : String) (s : State)
    (h : requestTokenReady s) :
    (obtainRequestToken L reply s).events.filterMap f =
      (requestTokenRequest L s).filterMap f := by
  rw [obtainRequestToken_events_ready L reply s h, requestTokenChecks_events,
    List.filterMap_append, requestToken_fold_filterMap L f hf]
  by_cases h1 : ((ofSplitString reply '&' true).foldl (requestTokenParam L)
      ⟨s, [], requestTokenRequest L s⟩).state.requestTokenSecret = "" <;>
    by_cases h2 : ((ofSplitString reply '&' true).foldl (requestTokenParam L)
      ⟨s, [], requestTokenRequest L s⟩).state.requestToken = "" <;> simp [h1, h2, hf]

theorem obtainAccessToken_filterMap_save (L : Collab) {β : Type} (f : Event → Option β)
    (hf : ∀ l m t, f (.log l m t) = none)
    (reply : String) (saveOk : Bool) (s : State) (h : accessTokenReady s) :
    (obtainAccessToken L reply saveOk s).events.filterMap f =
      (accessTokenRequest L s).filterMap f ++
        (saveCredentials saveOk (obtainAccessToken L reply saveOk s).state).events.filterMap
          f := by
  have e0 : (obtainAccessToken L reply saveOk s).state =
      (accessTokenChecks ((ofSplitString reply '&' true).foldl accessTokenParam
        ⟨s, [], accessTokenRequest L s⟩)).state :=
    (obtainAccessToken_ready L reply saveOk s h).1
  rw [e0, obtainAccessToken_events_ready L reply saveOk s h, List.filterMap_append,
    accessTokenChecks_events, List.filterMap_append, accessToken_fold_filterMap f hf]
  by_cases h1 : ((ofSplitString reply '&' true).foldl accessTokenParam
      ⟨s, [], accessTokenRequest L s⟩).state.accessTokenSecret = "" <;>
    by_cases h2 : ((ofSplitString reply '&' true).foldl accessTokenParam
      ⟨s, [], accessTokenRequest L s⟩).state.accessToken = "" <;> simp [h1, h2, hf]

theorem obtainAccessToken_filterMap (L : Collab) {β : Type} (f : Event → Option β)
    (hf : ∀ l m t, f (.log l m t) = none) (hs : ∀ p d, f (.saveFile p d) = none)
    (reply : String) (saveOk : Bool) (s : State) (h : accessTokenReady s) :
    (obtainAccessToken L reply saveOk s).events.filterMap f =
      (accessTokenRequest L s).filterMap f := by
  rw [obtainAccessToken_events_ready L reply saveOk s h, List.filterMap_append,
    accessTokenChecks_events, List.filterMap_append, accessToken_fold_filterMap f hf]
  have e : (saveCredentials saveOk
      (accessTokenChecks ((ofSplitString reply '&' true).foldl accessTokenParam
        ⟨s, [], accessTokenRequest L s⟩)).state).events.filterMap f = [] := by
    unfold saveCredentials
    cases saveOk <;> simp [hf, hs]
  rw [e]
  by_cases h1 : ((ofSplitString reply '&' true).foldl accessTokenParam
      ⟨s, [], accessTokenRequest L s⟩).state.accessTokenSecret = "" <;>
    by_cases h2 : ((ofSplitString reply '&' true).foldl accessTokenParam
      ⟨s, [], accessTokenRequest L s⟩).state.accessToken = "" <;> simp [h1, h2, hf]

theorem getHttpMethod_post (s : State) (h : s.httpMethod = .OFX_HTTP_POST) :
    _getHttpMethod s = "POST" := by
  unfold _getHttpMethod
  rw [h]

theorem requestTokenRequest_methods (L : Collab) (s : State) :
    (requestTokenRequest L s).filterMap Event.signedMethod? = [_getHttpMethod s] ∧
      (requestTokenRequest L s).filterMap Event.sentWith? = ["GET"] := by
  unfold requestTokenRequest
  exact ⟨rfl, rfl⟩

theorem accessTokenRequest_methods (L : Collab) (s : State) :
    (accessTokenRequest L s).filterMap Event.signedMethod? = [_getHttpMethod s] ∧
      (accessTokenRequest L s).filterMap Event.sentWith? = ["GET"] := by
  unfold accessTokenRequest
  exact ⟨rfl, rfl⟩

theorem get_methods (L : Collab) (reply uri query : String) (s : State) (h : apiReady s) :
    (get L reply uri query s).events.filterMap Event.signedMethod? = [_getHttpMethod s] ∧
      (get L reply uri query s).events.filterMap Event.sentWith? = ["GET"] := by
  obtain ⟨h1, h2, h3, h4, h5⟩ := h
  unfold get
  rw [if_neg h1, if_neg h2, if_neg h3, if_neg h4, if_neg h5]
  exact ⟨rfl, rfl⟩

/-- C23: for every session state, path and query, the method field is POST after post,
also when post fails fast on a missing field, and stays POST through every later sequence
of operations; in the state reached, each of get, obtainRequestToken and
obtainAccessToken whose guards pass hands "POST" to the signer and sends its one request
with HTTP GET. -/
theorem C23_post_switches_signing_method (L : Collab) (reply uri query : String) (s : State)
    (ops : List Op) (r u q : String) (saveOk : Bool) :
    (post L reply uri query s).state.httpMethod = .OFX_HTTP_POST ∧
      (runOps L ops (post L reply uri query s).state).httpMethod = .OFX_HTTP_POST ∧
      (apiReady (runOps L ops (post L reply uri query s).state) →
        (get L r u q (runOps L ops (post L reply uri query s).state)).events.filterMap
            Event.signedMethod? = ["POST"] ∧
          (get L r u q (runOps L ops (post L reply uri query s).state)).events.filterMap
            Event.sentWith? = ["GET"]) ∧
      (requestTokenReady (runOps L ops (post L reply uri query s).state) →
        (obtainRequestToken L r
            (runOps L ops (post L reply uri query s).state)).events.filterMap
            Event.signedMethod? = ["POST"] ∧
          (obtainRequestToken L r
            (runOps L ops (post L reply uri query s).state)).events.filterMap
            Event.sentWith? = ["GET"]) ∧
      (accessTokenReady (runOps L ops (post L reply uri query s).state) →
        (obtainAccessToken L r saveOk
            (runOps L ops (post L reply uri query s).state)).events.filterMap
            Event.signedMethod? = ["POST"] ∧
          (obtainAccessToken L r saveOk
            (runOps L ops (post L reply uri query s).state)).events.filterMap
            Event.sentWith? = ["GET"]) := by
  have h0 : (post L reply uri query s).state.httpMethod = .OFX_HTTP_POST := by
    rw [post_state]
  have h1 := runOps_httpMethod L ops _ h0
  have h2 := getHttpMethod_post _ h1
  refine ⟨h0, h1, ?_, ?_, ?_⟩
  · intro h
    have e := get_methods L r u q _ h
    rw [h2] at e
    exact e
  · intro h
    have e := requestTokenRequest_methods L (runOps L ops (post L reply uri query s).state)
    rw [h2] at e
    rw [obtainRequestToken_filterMap L _ (fun _ _ _ => rfl) r _ h,
      obtainRequestToken_filterMap L _ (fun _ _ _ => rfl) r _ h]
    exact e
  · intro h
    have e := accessTokenRequest_methods L (runOps L ops (post L reply uri query s).state)
    rw [h2] at e
    rw [obtainAccessToken_filterMap L _ (fun _ _ _ => rfl) (fun _ _ => rfl) r saveOk _ h,
      obtainAccessToken_filterMap L _ (fun _ _ _ => rfl) (fun _ _ => rfl) r saveOk _ h]
    exact e

/-- C23 on the sample session, where post fails fast for want of an access token: after
the access token pair is set, get signs with "POST" and sends with GET. -/
theorem C23_post_switches_signing_method_witness :
    apiReady (runOps plainCollab [.setAccessToken "x", .setAccessTokenSecret "y"]
        (post plainCollab "" "/statuses/update.json" "status=hi" sampleSession).state) ∧
      (get plainCollab "ok" "/account.json" ""
        (runOps plainCollab [.setAccessToken "x", .setAccessTokenSecret "y"]
          (post plainCollab "" "/statuses/update.json" "status=hi"
            sampleSession).state)).events.filterMap Event.signedMethod? = ["POST"] ∧
      (get plainCollab "ok" "/account.json" ""
        (runOps plainCollab [.setAccessToken "x", .setAccessTokenSecret "y"]
          (post plainCollab "" "/statuses/update.json" "status=hi"
            sampleSession).state)).events.filterMap Event.sentWith? = ["GET"] :=
  ⟨by decide,
    (C23_post_switches_signing_method plainCollab "" "/statuses/update.json" "status=hi"
      sampleSession [.setAccessToken "x", .setAccessTokenSecret "y"] "ok" "/account.json" ""
      true).2.2.1 (by decide)⟩



/-! ## C21: the tick that exchanges the verifier -/

theorem update_exchange (L : Collab) (reply : String) (saveOk : Bool) (s : State)
    (hf : s.accessFailed = false) (ha : s.accessToken = "" ∨ s.accessTokenSecret = "")
    (hv : s.requestTokenVerifier ≠ "") :
    (update L reply saveOk s).events =
      (stopListener { s with verificationRequested := false }).events ++
        (obtainAccessToken L reply saveOk
          { s with verificationRequested := false, verifierCallbackServer := none }).events := by
  unfold update
  rw [hf, if_pos ha, if_neg hv]
  simp only [Bool.false_eq_true, if_false, Bool.not_false, if_true]
  rw [stopListener_state]

/-- C21: the tick of the sample session holding request token "a", secret "b" and verifier
"v" (not failed, not authorized) runs the access-token exchange whatever the server
answers, and every such tick writes the credentials file exactly once. With the answer
"oauth_problem=token_rejected" the exchange fails (accessFailed is set, the session is not
authorized, verificationRequested is reset and no listener is left), and the file written
holds empty access token fields, a record that loadCredentials then refuses. -/
theorem C21_failed_exchange_is_saved :
    (sampleReadySession.accessFailed = false ∧ isAuthorized sampleReadySession = false ∧
        sampleReadySession.requestTokenVerifier = "v") ∧
      (∀ (L : Collab) (reply : String) (saveOk : Bool),
        ((update L reply saveOk sampleReadySession).events.filterMap Event.saved?).length
          = 1) ∧
      (update plainCollab "oauth_problem=token_rejected" true
          sampleReadySession).state.accessFailed = true ∧
      isAuthorized (update plainCollab "oauth_problem=token_rejected" true
          sampleReadySession).state = false ∧
      (update plainCollab "oauth_problem=token_rejected" true
          sampleReadySession).state.verificationRequested = false ∧
      (update plainCollab "oauth_problem=token_rejected" true
          sampleReadySession).state.verifierCallbackServer = none ∧
      (update plainCollab "oauth_problem=token_rejected" true
          sampleReadySession).events.filterMap Event.saved? =
        [("credentials.xml",
          [("oauth:consumer_key", "ck"), ("oauth:consumer_secret", "cs"),
            ("oauth:access_token", ""), ("oauth:access_secret", ""),
            ("oauth:screen_name", ""), ("oauth:user_id", ""), ("oauth:user_id_encoded", ""),
            ("oauth:user_password", ""), ("oauth:user_password_encoded", "")])] ∧
      (loadCredentialsFrom plainCollab
          (filesAfter (fun _ => none)
            (update plainCollab "oauth_problem=token_rejected" true
              sampleReadySession).events)
          sampleSession).events =
        [.loadFile "credentials.xml",
          .log .error "ofxOAuth::loadCredentials"
            "Found a credential file, but access token / secret were empty.  Please delete your credentials file: data/credentials.xml and try again."] := by
  refine ⟨by decide, ?_, by decide, by decide, by decide, by decide, by decide, by decide⟩
  intro L reply saveOk
  rw [update_exchange L reply saveOk sampleReadySession (by decide) (Or.inl (by decide))
    (by decide), List.filterMap_append,
    obtainAccessToken_filterMap_save L Event.saved? (fun _ _ _ => rfl) reply saveOk _
      (by decide),
    saveCredentials_events]
  have e1 : (stopListener { sampleReadySession with verificationRequested := false }).events
      = [] := by decide
  rw [e1]
  unfold accessTokenRequest
  cases saveOk <;> rfl


/-! ## C27: the separator helper on every input -/

theorem appendQuestionMark_single (c : Char) :
    appendQuestionMark (String.mk [c]) = String.mk [c] ++ "?" := by
  unfold appendQuestionMark substr
  have h1 : String.toList (String.mk [c]) = [c] := rfl
  rw [h1]
  have h2 : String.mk [c] ≠ "" := by
    intro hx
    have := congrArg String.toList hx
    simp at this
  have h3 : String.mk (List.take ([c].length - 1) (List.drop ([c].length - 1) [c])) ≠ "?" := by
    intro hx
    have := congrArg String.toList hx
    simp at this
  rw [if_pos ⟨h2, h3⟩]

theorem appendQuestionMark_keeps (u : List Char) (h : 1 ≤ u.length) :
    appendQuestionMark (String.mk (u ++ ['?'])) = String.mk (u ++ ['?']) := by
  unfold appendQuestionMark substr
  have h1 : String.toList (String.mk (u ++ ['?'])) = u ++ ['?'] := rfl
  rw [h1, drop_take_last u '?' h]
  rw [if_neg]
  intro hx
  exact hx.2 rfl

theorem appendQuestionMark_chars (u : List Char) (c : Char) :
    appendQuestionMark (String.mk (u ++ [c])) =
      if c = '?' ∧ u ≠ [] then String.mk (u ++ [c]) else String.mk (u ++ [c]) ++ "?" := by
  cases u with
  | nil =>
    have e : ¬ (c = '?' ∧ ([] : List Char) ≠ []) := fun h => h.2 rfl
    rw [if_neg e]
    exact appendQuestionMark_single c
  | cons a l =>
    by_cases hc : c = '?'
    · subst hc
      rw [if_pos ⟨rfl, List.cons_ne_nil a l⟩]
      exact appendQuestionMark_keeps (a :: l) (by simp)
    · have e : ¬ (c = '?' ∧ a :: l ≠ []) := fun h => hc h.1
      rw [if_neg e]
      exact appendQuestionMark_of_last (a :: l) c (by simp) hc

theorem appendQuestionMark_idem (u : String) :
    appendQuestionMark (appendQuestionMark u) = appendQuestionMark u := by
  rcases List.eq_nil_or_concat u.toList with h | ⟨l, c, h⟩
  · have e : u = "" := by
      apply String.ext
      exact h
    subst e
    decide
  · have e : u = String.mk (l ++ [c]) := by
      apply String.ext
      rw [← List.concat_eq_append]
      exact h
    subst e
    rw [appendQuestionMark_chars]
    split_ifs with hc
    · rw [appendQuestionMark_chars, if_pos hc]
    · have e2 : String.mk (l ++ [c]) ++ "?" = String.mk ((l ++ [c]) ++ ['?']) := by
        apply String.ext
        simp
      rw [e2]
      exact appendQuestionMark_keeps (l ++ [c]) (by simp)

/-- C27: appendQuestionMark returns "" for "", and for a string of characters u followed
by a last character c it returns the string unchanged when c is '?' and u is not empty,
and the string followed by "?" otherwise. So the one-character string "?", which ends with
'?', is not returned unchanged: appendQuestionMark("?") = "??", and setRequestTokenURL("?")
stores "??". The function is idempotent on every input all the same. -/
theorem C27_single_separator_is_doubled :
    appendQuestionMark "" = "" ∧
      (∀ (u : List Char) (c : Char),
        appendQuestionMark (String.mk (u ++ [c])) =
          if c = '?' ∧ u ≠ [] then String.mk (u ++ [c]) else String.mk (u ++ [c]) ++ "?") ∧
      endsWithQuestionMark "?" ∧
      appendQuestionMark "?" = "??" ∧
      (setRequestTokenURL "?" sampleSession).requestTokenURL = "??" ∧
      (∀ u : String, appendQuestionMark (appendQuestionMark u) = appendQuestionMark u) :=
  ⟨by decide, appendQuestionMark_chars, by decide, by decide, by decide,
    appendQuestionMark_idem⟩


/-! ## C24: the header of post against the header of get -/

/-- C24: get and post hand the same signed array to the header serialization but with
different options, 6 in get and 2 in post. On the authorized sample session with the
method already POST, get and post of the same path make the same signer call; with the
liboauth serializer the header of get carries the oauth parameters with quoted values and
the header of post carries them unquoted, so the two headers differ. -/
theorem C24_post_header_is_unquoted :
    (∀ (L : Collab) (s : State) (uri query : String),
      (apiRequest L s uri query 6).1 = (apiRequest L s uri query 2).1 ∧
        (apiRequest L s uri query 6).2.2 =
          authorizationHeader s (L.oauth_serialize_url_sep
            (L.oauth_sign_array2_process (L.oauth_split_url_parameters
                (s.apiURL ++ uri ++ "?" ++ query))
              (_getOAuthMethod s) (_getHttpMethod s) s.consumerKey s.consumerSecret
              (some s.accessToken) (some s.accessTokenSecret)) 1 ", " 6) ∧
        (apiRequest L s uri query 2).2.2 =
          authorizationHeader s (L.oauth_serialize_url_sep
            (L.oauth_sign_array2_process (L.oauth_split_url_parameters
                (s.apiURL ++ uri ++ "?" ++ query))
              (_getOAuthMethod s) (_getHttpMethod s) s.consumerKey s.consumerSecret
              (some s.accessToken) (some s.accessTokenSecret)) 1 ", " 2)) ∧
      apiReady (post liboauthCollab "" "/x" "" sampleAuthorizedSession).state ∧
      (get liboauthCollab "" "/x" ""
          (post liboauthCollab "" "/x" "" sampleAuthorizedSession).state).events.head? =
        (post liboauthCollab "" "/x" ""
          (post liboauthCollab "" "/x" "" sampleAuthorizedSession).state).events.head? ∧
      (get liboauthCollab "" "/x" ""
          (post liboauthCollab "" "/x" "" sampleAuthorizedSession).state).events.filterMap
          Event.header? =
        ["Authorization: OAuth oauth_consumer_key=\"ck\", oauth_token=\"x\", oauth_signature=\"sig\""] ∧
      (post liboauthCollab "" "/x" ""
          (post liboauthCollab "" "/x" "" sampleAuthorizedSession).state).events.filterMap
          Event.header? =
        ["Authorization: OAuth oauth_consumer_key=ck, oauth_token=x, oauth_signature=sig"] ∧
      (get liboauthCollab "" "/x" ""
          (post liboauthCollab "" "/x" "" sampleAuthorizedSession).state).events.filterMap
          Event.header? ≠
        (post liboauthCollab "" "/x" ""
          (post liboauthCollab "" "/x" "" sampleAuthorizedSession).state).events.filterMap
          Event.header? := by
  refine ⟨fun L s uri query => ⟨rfl, rfl, rfl⟩, by decide, by decide, by decide, by decide,
    by decide⟩


end OAuth
